import Mathlib

/-!
# NeoVVL auxiliary ECU: safety monitoring, map arbitration and cam actuation

A shallow embedding of `DataMonitor`, `AuxManager` and `NeoVVLManager`
(`src/DataMonitor.cpp`, `src/AuxManager.cpp`, `src/NeoVVLManager.cpp`), of the
16-bit accessors of `EEPROMManager`, of the RPM helper, the averaged getters and
the temperature reads of `DataManager`, and of the cam switch-point commands of
`CommsManager`.

Conventions of the embedding

* Every class is a structure holding its private members; a member function
  is a function from the state before the call to the state after it.
* A pointer member (`_dataManager`, `_dataMonitor`, `_auxManager`) is a `Bool`
  that says whether the pointer is non-NULL; what is read through the pointer
  is passed to the function as an argument.
* Output pins written with `digitalWrite` are fields `pin...` holding the last
  level written; input pins read with `digitalRead` are arguments.
* `uint8_t`, `uint16_t`, `uint32_t` members are `Nat` with an explicit
  `% 2 ^ w` wherever the source does arithmetic on them; `int16_t` values are
  `Int`, narrowed with `toInt16`.
* `float` values are rationals (exact arithmetic); a decimal constant such as
  `15.2` is written `mkRat 152 10`.
-/

namespace ECU

/-! ## Machine integers and pins -/

/-- Two's-complement narrowing to `int16_t` (what avr-gcc does for
`(int16_t) x` and for an assignment to an `int16_t`). -/
def toInt16 (x : Int) : Int :=
  if x % 65536 < 32768 then x % 65536 else x % 65536 - 65536

/-- Narrowing to `uint16_t`. -/
def toUInt16 (x : Int) : Nat :=
  (x % 65536).toNat

/-- Addition on `uint32_t`. -/
def add32 (a b : Nat) : Nat :=
  (a + b) % 2 ^ 32

/-- Digital pin level (`LOW` = 0 V, `HIGH` = 5 V). -/
inductive Level where
  | LOW
  | HIGH
deriving DecidableEq, Repr

/-! ## DataManager readings

`DataManager` is the sensor-acquisition adapter. The three managers only call
its getters, which return the latest cached value; one record of getter
results stands for the adapter during one `Update`. -/

/-- Values returned by the `DataManager` getters during one tick. -/
structure Readings where
  /-- Result of `GetRPM()`, a `uint32_t`. -/
  rpm : Nat
  /-- Result of `GetEngineOilTemp()`. -/
  engineOilTemp : ℚ
  /-- Result of `GetGearboxOilTemp()`. -/
  gearboxOilTemp : ℚ
  /-- Result of `GetEngineOilPressure()`. -/
  engineOilPressure : ℚ
  /-- Result of `GetAFR()`. -/
  afr : ℚ
  /-- Result of `GetVoltage()`. -/
  voltage : ℚ
deriving DecidableEq

/-- Model of `DataManager::IsEngineOn`: `GetRPM() > 500 || GetEngineOilPressure() >= 1.0`. -/
def Readings.IsEngineOn (r : Readings) : Bool :=
  decide (r.rpm > 500) || decide (r.engineOilPressure ≥ 1)

/-! ## DataMonitor -/

/-- The `enum ParameterStatus` of `DataMonitor.h`. -/
inductive ParameterStatus where
  | STATUS_OK
  | STATUS_WARNING
  | STATUS_DANGER
  | STATUS_COLD
  | STATUS_ERROR
deriving DecidableEq, Repr

open ParameterStatus

def MAX_RPM_DIFF_BETWEEN_CHECKS : Int := 5000
def RPM_INPUT_CHECK_INTERVAL : Nat := 100
def RPM_FAILURES_RESET_TIMER : Nat := 5000
def MIN_OIL_PRESS_DANGER_TIMER : Nat := 200
def MAX_RPM_SIGNAL_ERRORS : Nat := 10
def EMERGENCY_REV_LIMITER : Int := 8500
def DS18B20_ERROR_TEMP : ℚ := -55
def ENGINE_OIL_COLD_TEMP_LIMIT : ℚ := 70
def ENGINE_OIL_TEMP_WARNING : ℚ := 110
def ENGINE_OIL_TEMP_DANGER : ℚ := 120
def GEARBOX_OIL_COLD_TEMP_LIMIT : ℚ := 70
def GEARBOX_OIL_TEMP_WARNING : ℚ := 100
def GEARBOX_OIL_TEMP_DANGER : ℚ := 110
def AFR_RICH_WARNING : ℚ := 10
def AFR_RICH_DANGER : ℚ := 9
def AFR_LEAN_WARNING : ℚ := mkRat 152 10
def AFR_LEAN_DANGER : ℚ := 16
def VOLTAGE_LOW_WARNING : ℚ := mkRat 118 10
def VOLTAGE_LOW_DANGER : ℚ := 11
def VOLTAGE_HIGH_WARNING : ℚ := 15
def VOLTAGE_HIGH_DANGER : ℚ := 16
def ENGINE_OIL_PRESS_MIN : ℚ := 1
def ENGINE_OIL_PRESS_MIN_HOT : ℚ := mkRat 6 10
def ENGINE_OIL_PRESS_RPM_CHECK : Int := 4000
def ENGINE_OIL_PRESS_MIN_RPMS : ℚ := 3

/-- The constant expression `VOLTAGE_LOW_DANGER + 1.2` of `DataMonitor::Update`
(11.0 + 1.2 = 12.2). -/
def VOLTAGE_LOW_DANGER_ENGINE_ON : ℚ := mkRat 122 10

/-- The constant expression `VOLTAGE_LOW_WARNING + 1.2` of `DataMonitor::Update`
(11.8 + 1.2 = 13.0). -/
def VOLTAGE_LOW_WARNING_ENGINE_ON : ℚ := 13

/-- Private members of `class DataMonitor`. -/
structure DataMonitor where
  /-- Whether `_dataManager != NULL`. -/
  dataManager : Bool
  engOilPressureStatus : ParameterStatus
  engOilTempStatus : ParameterStatus
  gbOilTempStatus : ParameterStatus
  afrStatus : ParameterStatus
  tpsStatus : ParameterStatus
  rpmStatus : ParameterStatus
  voltageStatus : ParameterStatus
  /-- A `uint16_t`. -/
  lastRPMValue : Nat
  /-- A `uint32_t`. -/
  rpmInputCheckTimer : Nat
  /-- A `uint32_t`. -/
  rpmFailureResetTimer : Nat
  /-- A `uint8_t`. -/
  rpmErrorsCount : Nat
  /-- A `uint32_t`. -/
  engineOilPressTimer : Nat
  engineOilPressStatusCooldown : Bool
deriving DecidableEq

namespace DataMonitor

/-- Constructor `DataMonitor::DataMonitor()`. -/
def new : DataMonitor where
  dataManager := false
  engOilPressureStatus := STATUS_OK
  engOilTempStatus := STATUS_OK
  gbOilTempStatus := STATUS_OK
  afrStatus := STATUS_OK
  tpsStatus := STATUS_OK
  rpmStatus := STATUS_OK
  voltageStatus := STATUS_OK
  lastRPMValue := 0
  rpmInputCheckTimer := 0
  rpmFailureResetTimer := 0
  rpmErrorsCount := 0
  engineOilPressTimer := 0
  engineOilPressStatusCooldown := false

/-- Model of `DataMonitor::Initialize`. -/
def Initialize (s : DataMonitor) : DataMonitor :=
  { s with dataManager := true }

def GetEngineOilPressureStatus (s : DataMonitor) : ParameterStatus := s.engOilPressureStatus
def GetEngineOilTempStatus (s : DataMonitor) : ParameterStatus := s.engOilTempStatus
def GetGearboxOilTempStatus (s : DataMonitor) : ParameterStatus := s.gbOilTempStatus
def GetAFRStatus (s : DataMonitor) : ParameterStatus := s.afrStatus
def GetTPSStatus (s : DataMonitor) : ParameterStatus := s.tpsStatus
def GetRPMStatus (s : DataMonitor) : ParameterStatus := s.rpmStatus
def GetVoltageStatus (s : DataMonitor) : ParameterStatus := s.voltageStatus
def GetTotalRPMInputErrors (s : DataMonitor) : Nat := s.rpmErrorsCount

/-- Engine-oil temperature classification (`DataMonitor.cpp` 47-58). -/
def updateEngOilTemp (s : DataMonitor) (r : Readings) : DataMonitor :=
  let engOilTemp := r.engineOilTemp
  if engOilTemp = DS18B20_ERROR_TEMP then { s with engOilTempStatus := STATUS_ERROR }
  else if engOilTemp < ENGINE_OIL_COLD_TEMP_LIMIT then { s with engOilTempStatus := STATUS_COLD }
  else if engOilTemp < ENGINE_OIL_TEMP_WARNING then { s with engOilTempStatus := STATUS_OK }
  else if engOilTemp < ENGINE_OIL_TEMP_DANGER then { s with engOilTempStatus := STATUS_WARNING }
  else if engOilTemp ≥ ENGINE_OIL_TEMP_DANGER then { s with engOilTempStatus := STATUS_DANGER }
  else s

/-- Gearbox-oil temperature classification (`DataMonitor.cpp` 59-71). -/
def updateGbOilTemp (s : DataMonitor) (r : Readings) : DataMonitor :=
  let gbOilTemp := r.gearboxOilTemp
  if gbOilTemp = DS18B20_ERROR_TEMP then { s with gbOilTempStatus := STATUS_ERROR }
  else if gbOilTemp < GEARBOX_OIL_COLD_TEMP_LIMIT then { s with gbOilTempStatus := STATUS_COLD }
  else if gbOilTemp < GEARBOX_OIL_TEMP_WARNING then { s with gbOilTempStatus := STATUS_OK }
  else if gbOilTemp < GEARBOX_OIL_TEMP_DANGER then { s with gbOilTempStatus := STATUS_WARNING }
  else if gbOilTemp ≥ GEARBOX_OIL_TEMP_DANGER then { s with gbOilTempStatus := STATUS_DANGER }
  else s

/-- Voltage classification (`DataMonitor.cpp` 74-102). -/
def updateVoltage (s : DataMonitor) (r : Readings) : DataMonitor :=
  let voltage := r.voltage
  if r.IsEngineOn then
    if voltage ≤ VOLTAGE_LOW_DANGER_ENGINE_ON then { s with voltageStatus := STATUS_DANGER }
    else if voltage ≤ VOLTAGE_LOW_WARNING_ENGINE_ON then { s with voltageStatus := STATUS_WARNING }
    else if voltage < VOLTAGE_HIGH_WARNING then { s with voltageStatus := STATUS_OK }
    else if voltage < VOLTAGE_HIGH_DANGER then { s with voltageStatus := STATUS_WARNING }
    else if voltage ≥ VOLTAGE_HIGH_DANGER then { s with voltageStatus := STATUS_DANGER }
    else s
  else
    if voltage ≤ VOLTAGE_LOW_DANGER then { s with voltageStatus := STATUS_DANGER }
    else if voltage ≤ VOLTAGE_LOW_WARNING then { s with voltageStatus := STATUS_WARNING }
    else if voltage < VOLTAGE_HIGH_WARNING then { s with voltageStatus := STATUS_OK }
    else if voltage < VOLTAGE_HIGH_DANGER then { s with voltageStatus := STATUS_WARNING }
    else if voltage ≥ VOLTAGE_HIGH_DANGER then { s with voltageStatus := STATUS_DANGER }
    else s

/-- The local `int16_t rpms = (int16_t) _dataManager->GetRPM();`. -/
def rpms (r : Readings) : Int :=
  toInt16 (r.rpm : Int)

/-- The local `rpmDiff` of the fluctuation check once made positive:
`int16_t rpmDiff = rpms - _lastRPMValue; if (rpmDiff < 0) rpmDiff *= -1;`. -/
def rpmDiff (s : DataMonitor) (r : Readings) : Int :=
  let d := toInt16 (rpms r - (s.lastRPMValue : Int))
  if d < 0 then toInt16 (d * -1) else d

/-- The fluctuation check (`DataMonitor.cpp` 121-140). -/
def rpmInputCheck (s : DataMonitor) (r : Readings) (diff : Nat) : DataMonitor :=
  if s.rpmInputCheckTimer ≥ RPM_INPUT_CHECK_INTERVAL then
    let s1 :=
      if rpmDiff s r ≥ MAX_RPM_DIFF_BETWEEN_CHECKS then
        { s with rpmErrorsCount := (s.rpmErrorsCount + 1) % 256 }
      else s
    let s2 :=
      if r.engineOilPressure ≥ 1 then
        if rpms r < 100 then { s1 with rpmErrorsCount := (s1.rpmErrorsCount + 1) % 256 }
        else s1
      else s1
    { s2 with lastRPMValue := toUInt16 (rpms r), rpmInputCheckTimer := 0 }
  else
    { s with rpmInputCheckTimer := add32 s.rpmInputCheckTimer diff }

/-- Periodic reset of the accumulated errors (`DataMonitor.cpp` 142-148). -/
def rpmFailureReset (s : DataMonitor) (diff : Nat) : DataMonitor :=
  if s.rpmFailureResetTimer ≥ RPM_FAILURES_RESET_TIMER then
    { s with rpmErrorsCount := 0, rpmFailureResetTimer := 0 }
  else
    { s with rpmFailureResetTimer := add32 s.rpmFailureResetTimer diff }

/-- Latching of the RPM signal as defective (`DataMonitor.cpp` 150-154). -/
def rpmLatch (s : DataMonitor) : DataMonitor :=
  if s.rpmErrorsCount ≥ MAX_RPM_SIGNAL_ERRORS then
    { s with rpmStatus := STATUS_ERROR, rpmFailureResetTimer := 0 }
  else s

/-- RPM signal section (`DataMonitor.cpp` 109-164). -/
def updateRPM (s : DataMonitor) (r : Readings) (diff : Nat) : DataMonitor :=
  if s.rpmStatus ≠ STATUS_ERROR then
    let s1 : DataMonitor :=
      if rpms r ≥ EMERGENCY_REV_LIMITER then { s with rpmStatus := STATUS_DANGER }
      else { s with rpmStatus := STATUS_OK }
    rpmLatch (rpmFailureReset (rpmInputCheck s1 r diff) diff)
  else
    if s.rpmFailureResetTimer ≥ RPM_FAILURES_RESET_TIMER then
      { s with rpmErrorsCount := 0, rpmFailureResetTimer := 0, rpmStatus := STATUS_DANGER }
    else
      { s with rpmFailureResetTimer := add32 s.rpmFailureResetTimer diff }

/-- Oil-pressure section with the engine on (`DataMonitor.cpp` 168-203). -/
def updateOilPressure (s : DataMonitor) (r : Readings) (diff : Nat) : DataMonitor :=
  let oilPress := r.engineOilPressure
  if s.engineOilPressStatusCooldown then
    if s.engineOilPressTimer ≥ MIN_OIL_PRESS_DANGER_TIMER then
      { s with engineOilPressStatusCooldown := false, engineOilPressTimer := 0 }
    else
      { s with engineOilPressTimer := add32 s.engineOilPressTimer diff }
  else
    let bad1 : Bool :=
      if r.engineOilTemp ≤ ENGINE_OIL_COLD_TEMP_LIMIT then decide (oilPress < ENGINE_OIL_PRESS_MIN)
      else decide (oilPress < ENGINE_OIL_PRESS_MIN_HOT)
    let badOilPress : Bool :=
      if rpms r ≥ ENGINE_OIL_PRESS_RPM_CHECK then
        if oilPress < ENGINE_OIL_PRESS_MIN_RPMS then true else bad1
      else bad1
    if badOilPress then
      { s with engOilPressureStatus := STATUS_DANGER, engineOilPressStatusCooldown := true }
    else
      { s with engOilPressureStatus := STATUS_OK }

/-- AFR section with the engine on (`DataMonitor.cpp` 205-221). -/
def updateAFR (s : DataMonitor) (r : Readings) : DataMonitor :=
  let afr := r.afr
  let engOilTemp := r.engineOilTemp
  if afr = -1 then { s with afrStatus := STATUS_COLD }
  else if afr ≤ AFR_RICH_DANGER then
    { s with afrStatus := if engOilTemp ≥ 50 then STATUS_DANGER else STATUS_OK }
  else if afr ≤ AFR_RICH_WARNING then
    { s with afrStatus := if engOilTemp ≥ 50 then STATUS_WARNING else STATUS_OK }
  else if afr < AFR_LEAN_WARNING then { s with afrStatus := STATUS_OK }
  else if afr < AFR_LEAN_DANGER then { s with afrStatus := STATUS_WARNING }
  else if afr ≥ AFR_LEAN_DANGER then { s with afrStatus := STATUS_DANGER }
  else s

/-- Model of `DataMonitor::Update(uint32_t diff)`. The call `RetrieveRPM(micros())` only
changes the adapter, whose getter results are the argument `r`. -/
def Update (s : DataMonitor) (r : Readings) (diff : Nat) : DataMonitor :=
  if !s.dataManager then s
  else
    let s1 := updateEngOilTemp s r
    let s2 := updateGbOilTemp s1 r
    let s3 := { s2 with tpsStatus := STATUS_OK }
    let s4 := updateVoltage s3 r
    let s5 := updateRPM s4 r diff
    if r.IsEngineOn then
      updateAFR (updateOilPressure s5 r diff) r
    else
      { s5 with afrStatus := STATUS_COLD, engOilPressureStatus := STATUS_OK }

end DataMonitor

/-! ## AuxManager -/

/-- The `enum ECUMaps` of `AuxManager.h`. -/
inductive ECUMaps where
  | ECU_MAP_NORMAL
  | ECU_MAP_RACE
  | ECU_MAP_EMERGENCY
deriving DecidableEq, Repr

/-- The `enum Commands` of `AuxManager.h`. -/
inductive Commands where
  | COMMAND_NONE
  | COMMAND_CHANGE_BRIGHTNESS
  | COMMAND_CHANGE_SCREEN
deriving DecidableEq, Repr

open ECUMaps Commands

def INTERVAL_SWITCH_TFT_MODE : Nat := 2000
def INTERVAL_COOLDOWN : Nat := 2000
def MAP_SWITCH_COOLDOWN : Nat := 1000
def RPM_LIMITER_HYSTERESIS : Nat := 250

/-- Levels read with `digitalRead` during one `AuxManager::Update`. -/
structure AuxInputs where
  /-- Level of `INPUT_MAPS_SWITCH_BUTTON`. -/
  mapsSwitchButton : Level
  /-- Level of `INPUT_CONTROL_BUTTON`. -/
  controlButton : Level
deriving DecidableEq

/-- Private members of `class AuxManager` and the three output pins it drives.
The member `_isControlButtonPressed` is declared but never read or written and
is left out. -/
structure AuxManager where
  /-- Whether `_dataManager != NULL`. -/
  dataManager : Bool
  /-- Whether `_dataMonitor != NULL`. -/
  dataMonitor : Bool
  currentECUMap : ECUMaps
  afrGaugeOn : Bool
  nextCommand : Commands
  /-- A `uint32_t`. -/
  controlButtonTimer : Nat
  /-- A `uint32_t`. -/
  controlButtonCooldownTimer : Nat
  /-- A `uint32_t`. -/
  mapSwitchCooldownTimer : Nat
  isControlButtonInCooldown : Bool
  isMapSwitchInCooldown : Bool
  isLimiterEnabled : Bool
  /-- Last level written to `OUTPUT_AFR_GAUGE_VCC`. -/
  pinAfrGaugeVcc : Level
  /-- Last level written to `OUTPUT_LAMBDA`. -/
  pinLambda : Level
  /-- Last level written to `OUTPUT_MAP_SWITCH`. -/
  pinMapSwitch : Level
deriving DecidableEq

namespace AuxManager

/-- Constructor `AuxManager::AuxManager()`. -/
def new : AuxManager where
  dataManager := false
  dataMonitor := false
  currentECUMap := ECU_MAP_NORMAL
  afrGaugeOn := false
  nextCommand := COMMAND_NONE
  controlButtonTimer := 0
  controlButtonCooldownTimer := 0
  mapSwitchCooldownTimer := 0
  isControlButtonInCooldown := false
  isMapSwitchInCooldown := false
  isLimiterEnabled := false
  pinAfrGaugeVcc := Level.HIGH
  pinLambda := Level.LOW
  pinMapSwitch := Level.LOW

/-- Model of `AuxManager::Initialize`. -/
def Initialize (s : AuxManager) : AuxManager :=
  { s with dataManager := true, dataMonitor := true }

/-- Model of `AuxManager::SwitchAFRGaugePower`. -/
def SwitchAFRGaugePower (s : AuxManager) (isOn : Bool) : AuxManager :=
  { s with pinAfrGaugeVcc := if isOn then Level.LOW else Level.HIGH, afrGaugeOn := isOn }

/-- Model of `AuxManager::SwitchMaps`. -/
def SwitchMaps (s : AuxManager) (map : ECUMaps) : AuxManager :=
  { s with
    pinMapSwitch := if map = ECU_MAP_RACE then Level.HIGH else Level.LOW
    currentECUMap := map
    isMapSwitchInCooldown := true }

/-- Model of `AuxManager::SetLambdaEmulation`. -/
def SetLambdaEmulation (s : AuxManager) (lean : Bool) : AuxManager :=
  { s with pinLambda := if lean then Level.HIGH else Level.LOW }

/-- Model of `AuxManager::GetNextCommand`: the value returned and the state left. -/
def GetNextCommand (s : AuxManager) : Commands × AuxManager :=
  (s.nextCommand, { s with nextCommand := COMMAND_NONE })

/-- Model of `AuxManager::GetCurrentECUMap`: the value returned and the state left. -/
def GetCurrentECUMap (s : AuxManager) : ECUMaps × AuxManager :=
  (if s.isLimiterEnabled then ECU_MAP_RACE else s.currentECUMap, s)

/-- Model of `AuxManager::IsLimiterEnabled`. -/
def IsLimiterEnabled (s : AuxManager) : Bool :=
  s.isLimiterEnabled

/-- Manual map selection and map-switch cooldown (`AuxManager.cpp` 53-71):
the state left and the local `newMap`. -/
def selectMap (s : AuxManager) (io : AuxInputs) (diff : Nat) : AuxManager × ECUMaps :=
  let newMap := s.currentECUMap
  if !s.isMapSwitchInCooldown then
    if io.mapsSwitchButton = Level.HIGH then (s, ECU_MAP_RACE) else (s, ECU_MAP_NORMAL)
  else
    let cdTimer := if s.isLimiterEnabled then RPM_LIMITER_HYSTERESIS else MAP_SWITCH_COOLDOWN
    if s.mapSwitchCooldownTimer ≥ cdTimer then
      ({ s with mapSwitchCooldownTimer := 0, isMapSwitchInCooldown := false,
                isLimiterEnabled := false }, newMap)
    else
      ({ s with mapSwitchCooldownTimer := add32 s.mapSwitchCooldownTimer diff }, newMap)

/-- Overrides for out-of-range parameters and the map change
(`AuxManager.cpp` 73-86). -/
def overrideMap (s : AuxManager) (newMap : ECUMaps) (mon : DataMonitor) : AuxManager :=
  let newMap1 :=
    if mon.GetEngineOilTempStatus = STATUS_DANGER ∨ mon.GetGearboxOilTempStatus = STATUS_DANGER
    then ECU_MAP_NORMAL else newMap
  let newMap2 := if mon.GetRPMStatus = STATUS_DANGER then ECU_MAP_NORMAL else newMap1
  let s1 := if mon.GetRPMStatus = STATUS_DANGER then { s with isLimiterEnabled := true } else s
  let newMap3 := if mon.GetRPMStatus = STATUS_ERROR then ECU_MAP_EMERGENCY else newMap2
  if newMap3 ≠ s1.currentECUMap then SwitchMaps s1 newMap3 else s1

/-- Wideband controller power (`AuxManager.cpp` 88-93). -/
def updateAfrGauge (s : AuxManager) (r : Readings) : AuxManager :=
  if !s.afrGaugeOn && r.IsEngineOn then SwitchAFRGaugePower s true
  else if s.afrGaugeOn && !r.IsEngineOn then SwitchAFRGaugePower s false
  else s

/-- Narrowband lambda emulation (`AuxManager.cpp` 95-103). -/
def updateLambda (s : AuxManager) (mon : DataMonitor) (r : Readings) : AuxManager :=
  if mon.GetAFRStatus ≠ STATUS_COLD then
    let afr := r.afr
    if afr > mkRat 147 10 then SetLambdaEmulation s true
    else if afr < mkRat 147 10 then SetLambdaEmulation s false
    else s
  else s

/-- Control button (`AuxManager.cpp` 105-131). -/
def updateControlButton (s : AuxManager) (io : AuxInputs) (diff : Nat) : AuxManager :=
  if !s.isControlButtonInCooldown then
    if io.controlButton = Level.HIGH then
      if s.controlButtonTimer ≥ INTERVAL_SWITCH_TFT_MODE then
        { s with nextCommand := COMMAND_CHANGE_SCREEN, controlButtonTimer := 0,
                 isControlButtonInCooldown := true }
      else
        { s with controlButtonTimer := add32 s.controlButtonTimer diff }
    else
      let s1 := if s.controlButtonTimer > 0 then
        { s with nextCommand := COMMAND_CHANGE_BRIGHTNESS } else s
      { s1 with controlButtonTimer := 0 }
  else
    if s.controlButtonCooldownTimer ≥ INTERVAL_COOLDOWN then
      { s with isControlButtonInCooldown := false, controlButtonCooldownTimer := 0 }
    else
      { s with controlButtonCooldownTimer := add32 s.controlButtonCooldownTimer diff }

/-- Model of `AuxManager::Update(uint32_t diff)`. The monitor `mon` is what
`_dataMonitor` points to, `r` what the getters of `_dataManager` return and
`io` the levels of the two input pins. -/
def Update (s : AuxManager) (mon : DataMonitor) (r : Readings) (io : AuxInputs)
    (diff : Nat) : AuxManager :=
  if !s.dataManager || !s.dataMonitor then s
  else
    let s1 := (selectMap s io diff).1
    let newMap := (selectMap s io diff).2
    let s2 := overrideMap s1 newMap mon
    let s3 := updateAfrGauge s2 r
    let s4 := updateLambda s3 mon r
    updateControlButton s4 io diff

end AuxManager

/-! ## NeoVVLManager -/

def INTAKE_RPM_SWITCHOVER_NORMAL : Nat := 5600
def EXHAUST_RPM_SWITCHOVER_NORMAL : Nat := 5600
def INTAKE_RPM_SWITCHOVER_RACE : Nat := 5500
def EXHAUST_RPM_SWITCHOVER_RACE : Nat := 5700
def CAMS_SWITCHOVER_COOLDOWN : Nat := 500
def CAM_STATUS_ENABLED : Int := 1
def CAM_STATUS_DISABLED : Int := 2
def CAM_STATUS_ENGINE_OFF : Int := 3
def CAM_STATUS_ERROR : Int := -1

/-- The four `int16_t` values that `LoadInt16FromEEPROM` returns for the
addresses `ADDR_INTAKE_RPM_SWITCHOVER_NORMAL`, `ADDR_EXHAUST_RPM_SWITCHOVER_NORMAL`,
`ADDR_INTAKE_RPM_SWITCHOVER_RACE` and `ADDR_EXHAUST_RPM_SWITCHOVER_RACE`. -/
structure StoredSwitchPoints where
  intakeNormal : Int
  exhaustNormal : Int
  intakeRace : Int
  exhaustRace : Int
deriving DecidableEq

/-- Private members of `class NeoVVLManager` and the two solenoid pins.
The pointer `_eepromManager` is only used to call `LoadInt16FromEEPROM`,
whose results are an argument of `LoadCamsSwitchPointsFromEEPROM`. -/
structure NeoVVLManager where
  /-- Whether `_dataManager != NULL`. -/
  dataManager : Bool
  /-- Whether `_auxManager != NULL`. -/
  auxManager : Bool
  /-- An `int16_t`. -/
  intakeSwitchNormal : Int
  /-- An `int16_t`. -/
  exhaustSwitchNormal : Int
  /-- An `int16_t`. -/
  intakeSwitchRace : Int
  /-- An `int16_t`. -/
  exhaustSwitchRace : Int
  isIntakeEnabled : Bool
  isExhaustEnabled : Bool
  isIntakeInCooldown : Bool
  isExhaustInCooldown : Bool
  /-- A `uint32_t`. -/
  intakeCamCooldownTimer : Nat
  /-- A `uint32_t`. -/
  exhaustCamCooldownTimer : Nat
  /-- Last level written to `OUTPUT_INTAKE_SOLENOID`. -/
  pinIntakeSolenoid : Level
  /-- Last level written to `OUTPUT_EXHAUST_SOLENOID`. -/
  pinExhaustSolenoid : Level
deriving DecidableEq

namespace NeoVVLManager

/-- Model of `NeoVVLManager::SwitchIntakeCam`. -/
def SwitchIntakeCam (s : NeoVVLManager) (isOn : Bool) : NeoVVLManager :=
  if s.isIntakeInCooldown then s
  else if isOn then
    { s with pinIntakeSolenoid := Level.HIGH, isIntakeEnabled := true, isIntakeInCooldown := true }
  else
    { s with pinIntakeSolenoid := Level.LOW, isIntakeEnabled := false, isIntakeInCooldown := true }

/-- Model of `NeoVVLManager::SwitchExhaustCam`. -/
def SwitchExhaustCam (s : NeoVVLManager) (isOn : Bool) : NeoVVLManager :=
  if s.isExhaustInCooldown then s
  else if isOn then
    { s with pinExhaustSolenoid := Level.HIGH, isExhaustEnabled := true,
             isExhaustInCooldown := true }
  else
    { s with pinExhaustSolenoid := Level.LOW, isExhaustEnabled := false,
             isExhaustInCooldown := true }

/-- Model of `NeoVVLManager::LoadCamsSwitchPointsFromEEPROM`, given the four
values that `LoadInt16FromEEPROM` returns. -/
def LoadCamsSwitchPointsFromEEPROM (s : NeoVVLManager) (e : StoredSwitchPoints) :
    NeoVVLManager :=
  { s with
    intakeSwitchNormal :=
      if e.intakeNormal > 7000 ∨ e.intakeNormal < 2000 then (INTAKE_RPM_SWITCHOVER_NORMAL : Int)
      else e.intakeNormal
    exhaustSwitchNormal :=
      if e.exhaustNormal > 7000 ∨ e.exhaustNormal < 2000 then (EXHAUST_RPM_SWITCHOVER_NORMAL : Int)
      else e.exhaustNormal
    intakeSwitchRace :=
      if e.intakeRace > 7000 ∨ e.intakeRace < 2000 then (INTAKE_RPM_SWITCHOVER_RACE : Int)
      else e.intakeRace
    exhaustSwitchRace :=
      if e.exhaustRace > 7000 ∨ e.exhaustRace < 2000 then (EXHAUST_RPM_SWITCHOVER_RACE : Int)
      else e.exhaustRace }

/-- Constructor `NeoVVLManager::NeoVVLManager()`. The constructor assigns neither
`_isIntakeInCooldown` nor `_isExhaustInCooldown` before it calls
`SwitchIntakeCam(false)` and `SwitchExhaustCam(false)`, which read them: the
values they hold at that point are the arguments `cdIntake` and `cdExhaust`
(both `false` for an object with static storage). A pin that has been made an
output and not yet written drives `LOW`. -/
def new (cdIntake cdExhaust : Bool) (e : StoredSwitchPoints) : NeoVVLManager :=
  let s0 : NeoVVLManager :=
    { dataManager := false
      auxManager := false
      intakeSwitchNormal := 0
      exhaustSwitchNormal := 0
      intakeSwitchRace := 0
      exhaustSwitchRace := 0
      isIntakeEnabled := false
      isExhaustEnabled := false
      isIntakeInCooldown := cdIntake
      isExhaustInCooldown := cdExhaust
      intakeCamCooldownTimer := 0
      exhaustCamCooldownTimer := 0
      pinIntakeSolenoid := Level.LOW
      pinExhaustSolenoid := Level.LOW }
  LoadCamsSwitchPointsFromEEPROM (SwitchExhaustCam (SwitchIntakeCam s0 false) false) e

/-- Model of `NeoVVLManager::Initialize`. -/
def Initialize (s : NeoVVLManager) : NeoVVLManager :=
  { s with dataManager := true, auxManager := true }

/-- Model of `NeoVVLManager::GetIntakeCamStatus`. -/
def GetIntakeCamStatus (s : NeoVVLManager) : Int :=
  if s.isIntakeEnabled then CAM_STATUS_ENABLED else CAM_STATUS_DISABLED

/-- Model of `NeoVVLManager::GetExhaustCamStatus`. -/
def GetExhaustCamStatus (s : NeoVVLManager) : Int :=
  if s.isExhaustEnabled then CAM_STATUS_ENABLED else CAM_STATUS_DISABLED

/-- The `switch (currentMap)` of `NeoVVLManager::Update` (`NeoVVLManager.cpp` 52-98).
The local `uint16_t rpm` holds `GetRPM()` narrowed to 16 bits. -/
def actuate (s : NeoVVLManager) (currentMap : ECUMaps) (r : Readings) : NeoVVLManager :=
  match currentMap with
  | ECU_MAP_NORMAL =>
    if r.IsEngineOn then
      let rpm := r.rpm % 65536
      let s1 :=
        if rpm ≥ INTAKE_RPM_SWITCHOVER_NORMAL && !s.isIntakeEnabled then SwitchIntakeCam s true
        else if rpm < INTAKE_RPM_SWITCHOVER_NORMAL && s.isIntakeEnabled then SwitchIntakeCam s false
        else s
      if rpm ≥ EXHAUST_RPM_SWITCHOVER_NORMAL && !s1.isExhaustEnabled then SwitchExhaustCam s1 true
      else if rpm < EXHAUST_RPM_SWITCHOVER_NORMAL && s1.isExhaustEnabled then
        SwitchExhaustCam s1 false
      else s1
    else s
  | ECU_MAP_RACE =>
    if r.IsEngineOn then
      let rpm := r.rpm % 65536
      let s1 :=
        if rpm ≥ INTAKE_RPM_SWITCHOVER_RACE && !s.isIntakeEnabled then SwitchIntakeCam s true
        else if rpm < INTAKE_RPM_SWITCHOVER_RACE && s.isIntakeEnabled then SwitchIntakeCam s false
        else s
      if rpm ≥ EXHAUST_RPM_SWITCHOVER_RACE && !s1.isExhaustEnabled then SwitchExhaustCam s1 true
      else if rpm < EXHAUST_RPM_SWITCHOVER_RACE && s1.isExhaustEnabled then
        SwitchExhaustCam s1 false
      else s1
    else s
  | ECU_MAP_EMERGENCY =>
    SwitchExhaustCam (SwitchIntakeCam s true) true

/-- Intake cooldown timer of `NeoVVLManager::Update` (`NeoVVLManager.cpp` 100-107). -/
def intakeCooldown (s : NeoVVLManager) (diff : Nat) : NeoVVLManager :=
  if s.isIntakeInCooldown then
    if s.intakeCamCooldownTimer ≥ CAMS_SWITCHOVER_COOLDOWN then
      { s with isIntakeInCooldown := false, intakeCamCooldownTimer := 0 }
    else
      { s with intakeCamCooldownTimer := add32 s.intakeCamCooldownTimer diff }
  else s

/-- Exhaust cooldown timer of `NeoVVLManager::Update` (`NeoVVLManager.cpp` 109-116). -/
def exhaustCooldown (s : NeoVVLManager) (diff : Nat) : NeoVVLManager :=
  if s.isExhaustInCooldown then
    if s.exhaustCamCooldownTimer ≥ CAMS_SWITCHOVER_COOLDOWN then
      { s with isExhaustInCooldown := false, exhaustCamCooldownTimer := 0 }
    else
      { s with exhaustCamCooldownTimer := add32 s.exhaustCamCooldownTimer diff }
  else s

/-- Model of `NeoVVLManager::Update(uint32_t diff)`. The arbiter `aux` is what
`_auxManager` points to and `r` what the getters of `_dataManager` return. -/
def Update (s : NeoVVLManager) (aux : AuxManager) (r : Readings) (diff : Nat) :
    NeoVVLManager :=
  if !s.dataManager then s
  else
    let currentMap := aux.GetCurrentECUMap.1
    exhaustCooldown (intakeCooldown (actuate s currentMap r) diff) diff

/-- A call on the cam actuator made from outside the class. -/
inductive Call where
  | Initialize
  | Update (aux : AuxManager) (r : Readings) (diff : Nat)
  | SwitchIntakeCam (isOn : Bool)
  | SwitchExhaustCam (isOn : Bool)
  | LoadCamsSwitchPointsFromEEPROM (e : StoredSwitchPoints)

/-- The state after one call. -/
def call (s : NeoVVLManager) : Call → NeoVVLManager
  | Call.Initialize => s.Initialize
  | Call.Update aux r diff => s.Update aux r diff
  | Call.SwitchIntakeCam isOn => s.SwitchIntakeCam isOn
  | Call.SwitchExhaustCam isOn => s.SwitchExhaustCam isOn
  | Call.LoadCamsSwitchPointsFromEEPROM e => s.LoadCamsSwitchPointsFromEEPROM e

/-- The state after a sequence of calls, first call first. -/
def calls (s : NeoVVLManager) (cs : List Call) : NeoVVLManager :=
  cs.foldl call s

/-- Safety polarity of the two solenoid outputs: `HIGH` (relay released,
high-RPM lobe) when the cam is enabled and `LOW` (relay energised, low-RPM
lobe) when it is not. -/
def polarityOk (s : NeoVVLManager) : Prop :=
  (s.pinIntakeSolenoid = Level.HIGH ↔ s.isIntakeEnabled = true) ∧
  (s.pinIntakeSolenoid = Level.LOW ↔ s.isIntakeEnabled = false) ∧
  (s.pinExhaustSolenoid = Level.HIGH ↔ s.isExhaustEnabled = true) ∧
  (s.pinExhaustSolenoid = Level.LOW ↔ s.isExhaustEnabled = false)

end NeoVVLManager

/-! ## Runs and sample inputs -/

/-- What one `AuxManager::Update` call sees: the monitor, the adapter readings,
the input pins and the `diff` argument. -/
structure AuxTick where
  mon : DataMonitor
  r : Readings
  io : AuxInputs
  diff : Nat

/-- The arbiter after a sequence of `Update` calls, first call first. -/
def AuxManager.run (s : AuxManager) (ts : List AuxTick) : AuxManager :=
  ts.foldl (fun a t => a.Update t.mon t.r t.io t.diff) s

/-- Sum of the `diff` arguments of a sequence of arbiter ticks. -/
def AuxTick.total (ts : List AuxTick) : Nat :=
  (ts.map AuxTick.diff).sum

/-- Readings of an engine at rest: no RPM, no oil pressure, warm oils, wideband
probe warming up. -/
def restReadings : Readings where
  rpm := 0
  engineOilTemp := 80
  gearboxOilTemp := 80
  engineOilPressure := 0
  afr := -1
  voltage := mkRat 125 10

/-- Readings with the given `GetRPM()` value and 4 bar of oil pressure. -/
def runningReadings (rpm : Nat) : Readings where
  rpm := rpm
  engineOilTemp := 80
  gearboxOilTemp := 80
  engineOilPressure := 4
  afr := mkRat 147 10
  voltage := 14

/-- An initialised monitor whose RPM status is `st` and whose other statuses
are `STATUS_OK`. -/
def monitorWithRPMStatus (st : ParameterStatus) : DataMonitor :=
  { DataMonitor.new.Initialize with rpmStatus := st }

/-- Both input pins low. -/
def pinsLow : AuxInputs where
  mapsSwitchButton := Level.LOW
  controlButton := Level.LOW

/-- Map switch high, control button low. -/
def pinsRace : AuxInputs where
  mapsSwitchButton := Level.HIGH
  controlButton := Level.LOW

/-- The map-selection part of `AuxManager::Update` (`AuxManager.cpp` 53-86):
manual selection, cooldown, overrides and map change. -/
def AuxManager.mapPhase (s : AuxManager) (mon : DataMonitor) (io : AuxInputs) (diff : Nat) :
    AuxManager :=
  AuxManager.overrideMap (s.selectMap io diff).1 (s.selectMap io diff).2 mon

/-- The members that the map-selection part of `AuxManager::Update` reads or
writes, with the two pointers. -/
def AuxManager.mapFields (s : AuxManager) : Bool × Bool × ECUMaps × Bool × Bool × Nat × Level :=
  (s.dataManager, s.dataMonitor, s.currentECUMap, s.isMapSwitchInCooldown, s.isLimiterEnabled,
    s.mapSwitchCooldownTimer, s.pinMapSwitch)

/-- The RPM status is neither `STATUS_DANGER` nor `STATUS_ERROR` on any tick. -/
def AuxTick.rpmQuiet (ts : List AuxTick) : Prop :=
  ∀ t ∈ ts, t.mon.GetRPMStatus ≠ STATUS_DANGER ∧ t.mon.GetRPMStatus ≠ STATUS_ERROR

/-- A tick of the arbiter with the engine at rest, the given RPM status, the
given input pins and the given `diff`. -/
def restTick (st : ParameterStatus) (io : AuxInputs) (diff : Nat) : AuxTick where
  mon := monitorWithRPMStatus st
  r := restReadings
  io := io
  diff := diff

/-- The limiter is engaged: both pointers set, stored map `ECU_MAP_NORMAL`,
map-switch cooldown active, limiter flag set and cooldown timer at `T`. -/
def AuxManager.limiting (s : AuxManager) (T : Nat) : Prop :=
  s.dataManager = true ∧ s.dataMonitor = true ∧ s.currentECUMap = ECU_MAP_NORMAL ∧
  s.isMapSwitchInCooldown = true ∧ s.isLimiterEnabled = true ∧ s.mapSwitchCooldownTimer = T

/-- An arbiter in race mode with no map-switch cooldown running: the state
reached from construction by selecting the race map and letting the cooldown
of 1000 ms run out. -/
def raceState : AuxManager :=
  AuxManager.new.Initialize.run
    [restTick STATUS_OK pinsRace 1000, restTick STATUS_OK pinsRace 1000,
     restTick STATUS_OK pinsRace 1000]

/-- An arbiter whose effective map is `ECU_MAP_EMERGENCY`: the state reached from
construction by one `Update` with the RPM status at `STATUS_ERROR`. -/
def emergencyArbiter : AuxManager :=
  AuxManager.new.Initialize.run [restTick STATUS_ERROR pinsLow 10]

/-- What `LoadInt16FromEEPROM` returns for a blank EEPROM (all bits set). -/
def blankEEPROM : StoredSwitchPoints where
  intakeNormal := -1
  exhaustNormal := -1
  intakeRace := -1
  exhaustRace := -1

/-- The enabled flags and solenoid pins of the cam actuator. -/
def NeoVVLManager.outputs (s : NeoVVLManager) : Bool × Bool × Level × Level :=
  (s.isIntakeEnabled, s.isExhaustEnabled, s.pinIntakeSolenoid, s.pinExhaustSolenoid)

/-- What one `DataMonitor::Update` call sees: the adapter readings and the
`diff` argument. -/
structure MonTick where
  r : Readings
  diff : Nat

/-- The monitor after a sequence of `Update` calls, first call first. -/
def DataMonitor.run (s : DataMonitor) (ts : List MonTick) : DataMonitor :=
  ts.foldl (fun m t => m.Update t.r t.diff) s

/-- The members that the RPM-signal section of `DataMonitor::Update` reads or
writes, with the pointer. -/
def DataMonitor.rpmFields (s : DataMonitor) : Bool × ParameterStatus × Nat × Nat × Nat × Nat :=
  (s.dataManager, s.rpmStatus, s.lastRPMValue, s.rpmInputCheckTimer, s.rpmFailureResetTimer,
    s.rpmErrorsCount)

/-- Whether an `Update` called in state `s` performs the fluctuation check: the
monitor is initialised, the RPM status is not `STATUS_ERROR` and the check timer
has reached `RPM_INPUT_CHECK_INTERVAL`. -/
def DataMonitor.checksNow (s : DataMonitor) : Bool :=
  s.dataManager && decide (s.rpmStatus ≠ STATUS_ERROR) &&
    decide (s.rpmInputCheckTimer ≥ RPM_INPUT_CHECK_INTERVAL)

/-- Whether an `Update` called in state `s` with readings `r` performs the
fluctuation check and finds `rpmDiff >= MAX_RPM_DIFF_BETWEEN_CHECKS`. -/
def DataMonitor.checkFails (s : DataMonitor) (r : Readings) : Bool :=
  s.checksNow && decide (s.rpmDiff r ≥ MAX_RPM_DIFF_BETWEEN_CHECKS)

/-- Number of `Update` calls in a run that perform the fluctuation check and find
`rpmDiff >= MAX_RPM_DIFF_BETWEEN_CHECKS`. -/
def DataMonitor.failedChecks : DataMonitor → List MonTick → Nat
  | _, [] => 0
  | s, t :: ts => (if s.checkFails t.r then 1 else 0) + failedChecks (s.Update t.r t.diff) ts

/-- Number of `Update` calls in a run that perform the fluctuation check and find
`rpmDiff < MAX_RPM_DIFF_BETWEEN_CHECKS`. -/
def DataMonitor.passedChecks : DataMonitor → List MonTick → Nat
  | _, [] => 0
  | s, t :: ts =>
    (if s.checksNow && !s.checkFails t.r then 1 else 0) + passedChecks (s.Update t.r t.diff) ts

/-- No `Update` of the run finds the error-reset timer at
`RPM_FAILURES_RESET_TIMER` or more. -/
def DataMonitor.noReset : DataMonitor → List MonTick → Bool
  | _, [] => true
  | s, t :: ts =>
    decide (s.rpmFailureResetTimer < RPM_FAILURES_RESET_TIMER) && noReset (s.Update t.r t.diff) ts

/-- Two ticks of 100 ms at 6000 RPM followed by two ticks of 100 ms at rest: the
fluctuation check runs on every second tick and sees the RPM jump by 6000. -/
def swingTicks : List MonTick :=
  [{ r := runningReadings 6000, diff := 100 }, { r := runningReadings 6000, diff := 100 },
   { r := restReadings, diff := 100 }, { r := restReadings, diff := 100 }]

/-- Ticks of 100 ms with the engine at rest. -/
def restTicks (n : Nat) : List MonTick :=
  List.replicate n { r := restReadings, diff := 100 }

/-- The members that the oil-pressure section of `DataMonitor::Update` reads or
writes. -/
def DataMonitor.oilFields (s : DataMonitor) : ParameterStatus × Bool × Nat :=
  (s.engOilPressureStatus, s.engineOilPressStatusCooldown, s.engineOilPressTimer)

/-- The members that the RPM-signal section of `DataMonitor::Update` neither reads
nor writes. -/
def DataMonitor.nonRpmFields (s : DataMonitor) :
    ParameterStatus × ParameterStatus × ParameterStatus × ParameterStatus × ParameterStatus ×
      ParameterStatus × Bool × Nat :=
  (s.engOilPressureStatus, s.engOilTempStatus, s.gbOilTempStatus, s.afrStatus, s.tpsStatus,
    s.voltageStatus, s.engineOilPressStatusCooldown, s.engineOilPressTimer)

/-- Sum of the `diff` arguments of a sequence of monitor ticks. -/
def MonTick.total (ts : List MonTick) : Nat :=
  (ts.map MonTick.diff).sum

/-- The adapter reports the engine on at every tick. -/
def MonTick.engineOn (ts : List MonTick) : Prop :=
  ∀ t ∈ ts, t.r.IsEngineOn = true

/-- Readings of a running engine with the given RPM, engine-oil temperature and
oil pressure. -/
def oilReadings (rpm : Nat) (temp pressure : ℚ) : Readings where
  rpm := rpm
  engineOilTemp := temp
  gearboxOilTemp := 80
  engineOilPressure := pressure
  afr := mkRat 147 10
  voltage := 14

/-- The sections of `DataMonitor::Update` that do not depend on the RPM signal or
on the engine being on: oil temperatures, TPS and voltage (`DataMonitor.cpp`
47-102). -/
def DataMonitor.classify (s : DataMonitor) (r : Readings) : DataMonitor :=
  DataMonitor.updateVoltage
    { DataMonitor.updateGbOilTemp (DataMonitor.updateEngOilTemp s r) r with
      tpsStatus := STATUS_OK } r

/-- The members and the pin of the intake camshaft. -/
def NeoVVLManager.intakeFields (s : NeoVVLManager) : Bool × Level × Bool × Nat :=
  (s.isIntakeEnabled, s.pinIntakeSolenoid, s.isIntakeInCooldown, s.intakeCamCooldownTimer)

/-- The members and the pin of the exhaust camshaft. -/
def NeoVVLManager.exhaustFields (s : NeoVVLManager) : Bool × Level × Bool × Nat :=
  (s.isExhaustEnabled, s.pinExhaustSolenoid, s.isExhaustInCooldown, s.exhaustCamCooldownTimer)

/-- The intake decision of the `ECU_MAP_NORMAL` and `ECU_MAP_RACE` branches of
`NeoVVLManager::Update` for the switchover point `T`. -/
def NeoVVLManager.decideIntake (s : NeoVVLManager) (rpm T : Nat) : NeoVVLManager :=
  if rpm ≥ T && !s.isIntakeEnabled then s.SwitchIntakeCam true
  else if rpm < T && s.isIntakeEnabled then s.SwitchIntakeCam false
  else s

/-- The exhaust decision of the `ECU_MAP_NORMAL` and `ECU_MAP_RACE` branches of
`NeoVVLManager::Update` for the switchover point `T`. -/
def NeoVVLManager.decideExhaust (s : NeoVVLManager) (rpm T : Nat) : NeoVVLManager :=
  if rpm ≥ T && !s.isExhaustEnabled then s.SwitchExhaustCam true
  else if rpm < T && s.isExhaustEnabled then s.SwitchExhaustCam false
  else s

/-- A cam actuator with both cams disabled and no cooldown running: the state
reached from construction by two `Update` calls 500 ms apart in normal mode with
the engine at rest. -/
def idleCams : NeoVVLManager :=
  (NeoVVLManager.new false false blankEEPROM).calls
    [NeoVVLManager.Call.Initialize,
     NeoVVLManager.Call.Update AuxManager.new.Initialize restReadings 500,
     NeoVVLManager.Call.Update AuxManager.new.Initialize restReadings 500]

/-! ## EEPROMManager -/

/-- Contents of the EEPROM of the board: the byte held at each index. -/
def EEPROM : Type := Nat → Nat

/-- The library call `EEPROM.write(idx, val)` with `val` a `uint8_t`. -/
def EEPROM.write (m : EEPROM) (idx val : Nat) : EEPROM :=
  fun i => if i = idx then val % 256 else m i

/-- The library call `EEPROM.read(idx)`. -/
def EEPROM.read (m : EEPROM) (idx : Nat) : Nat :=
  m idx

/-- An erased EEPROM: every byte is `0xFF`. -/
def EEPROM.erased : EEPROM :=
  fun _ => 255

/-- The `int16_t` whose two bytes, low byte first as on the AVR, are `b0` and `b1`. -/
def int16OfBytes (b0 b1 : Nat) : Int :=
  toInt16 ((b0 : Int) + 256 * (b1 : Int))

namespace EEPROMManager

/-- Model of `EEPROMManager::SaveToEEPROM(EEPROMDataAddress, int16_t)`: the value
returned and the EEPROM left. The union `u` gives the two bytes of `value`, low
byte first, and the loop writes them at `addr` and `addr + 1`. -/
def SaveToEEPROM_int16 (m : EEPROM) (addr : Nat) (value : Int) : Bool × EEPROM :=
  let b0 := toUInt16 value % 256
  let b1 := toUInt16 value / 256
  (true, (m.write (addr + 0) b0).write (addr + 1) b1)

/-- Model of `EEPROMManager::LoadInt16FromEEPROM`. The loop calls
`EEPROM.read(addr + i)` twice and drops both results; the local union `u` is
never assigned, so the value returned is what `u` happened to hold, the
argument `u`. -/
def LoadInt16FromEEPROM (m : EEPROM) (addr : Nat) (u : Int) : Int :=
  let _b0 := m.read (addr + 0)
  let _b1 := m.read (addr + 1)
  u

end EEPROMManager

def ADDR_INTAKE_RPM_SWITCHOVER_NORMAL : Nat := 8
def ADDR_EXHAUST_RPM_SWITCHOVER_NORMAL : Nat := 12
def ADDR_INTAKE_RPM_SWITCHOVER_RACE : Nat := 16
def ADDR_EXHAUST_RPM_SWITCHOVER_RACE : Nat := 20

/-! ## The scan loop -/

/-- The monitor and the arbiter together. -/
structure System where
  monitor : DataMonitor
  arbiter : AuxManager

/-- What one tick of the scan loop sees: the adapter readings, the input pins and
the elapsed time `diff`. -/
structure SysTick where
  r : Readings
  io : AuxInputs
  diff : Nat

/-- Both components constructed and initialised. -/
def System.init : System where
  monitor := DataMonitor.new.Initialize
  arbiter := AuxManager.new.Initialize

/-- One tick: `DataMonitor::Update`, then `AuxManager::Update`, which reads the
statuses just computed. -/
def System.tick (p : System) (t : SysTick) : System where
  monitor := p.monitor.Update t.r t.diff
  arbiter := p.arbiter.Update (p.monitor.Update t.r t.diff) t.r t.io t.diff

/-- The system after a sequence of ticks, first tick first. -/
def System.run (p : System) (ts : List SysTick) : System :=
  ts.foldl System.tick p

/-- The members of the control-button section of `AuxManager::Update`. -/
def AuxManager.buttonFields (s : AuxManager) : Commands × Nat × Nat × Bool :=
  (s.nextCommand, s.controlButtonTimer, s.controlButtonCooldownTimer,
    s.isControlButtonInCooldown)

/-- No safety override of `AuxManager::Update` applies on the tick: the RPM status
is neither `STATUS_DANGER` nor `STATUS_ERROR` and neither oil-temperature status
is `STATUS_DANGER`. -/
def AuxTick.calm (t : AuxTick) : Prop :=
  t.mon.GetRPMStatus ≠ STATUS_DANGER ∧ t.mon.GetRPMStatus ≠ STATUS_ERROR ∧
    t.mon.GetEngineOilTempStatus ≠ STATUS_DANGER ∧
    t.mon.GetGearboxOilTempStatus ≠ STATUS_DANGER

/-- The limiter flag is clear in `s` and after every `Update` of the run of `ts`
from `s`. -/
def AuxManager.limiterNeverSet (s : AuxManager) : List AuxTick → Bool
  | [] => !s.isLimiterEnabled
  | t :: ts => !s.isLimiterEnabled && (s.Update t.mon t.r t.io t.diff).limiterNeverSet ts

/-- No `Update` of the run of `ts` from `s` changes the stored map. -/
def AuxManager.mapSteady (s : AuxManager) : List AuxTick → Bool
  | [] => true
  | t :: ts => decide ((s.Update t.mon t.r t.io t.diff).currentECUMap = s.currentECUMap) &&
      (s.Update t.mon t.r t.io t.diff).mapSteady ts

/-- The state of the map-switch cooldown when the diffs of the `Update` calls
made since the last change of map sum to `S`: both pointers set, and either the
cooldown is active with its timer at `S` or less, or it is over and `S` is
`MAP_SWITCH_COOLDOWN` or more. -/
def AuxManager.cooling (s : AuxManager) (S : Nat) : Prop :=
  s.dataManager = true ∧ s.dataMonitor = true ∧
  ((s.isMapSwitchInCooldown = true ∧ s.mapSwitchCooldownTimer ≤ S) ∨
    (s.isMapSwitchInCooldown = false ∧ MAP_SWITCH_COOLDOWN ≤ S))

/-- Both pointers set, and the cooldown timer at 0 when no cooldown is active. -/
def AuxManager.timerIdle (s : AuxManager) : Prop :=
  s.dataManager = true ∧ s.dataMonitor = true ∧
  (s.isMapSwitchInCooldown = false → s.mapSwitchCooldownTimer = 0)

/-- A tick of the arbiter with the engine at rest, the gearbox-oil temperature
status at `STATUS_DANGER` and every other status at `STATUS_OK`. -/
def oilDangerTick (io : AuxInputs) (diff : Nat) : AuxTick where
  mon := { DataMonitor.new.Initialize with gbOilTempStatus := STATUS_DANGER }
  r := restReadings
  io := io
  diff := diff

/-- A tick of the scan loop with the engine running at the given `GetRPM()` value. -/
def runningTick (rpm : Nat) (io : AuxInputs) (diff : Nat) : SysTick where
  r := runningReadings rpm
  io := io
  diff := diff

/-- A tick of the arbiter with the control button at the given level, the map
switch low and every status at `STATUS_OK`. -/
def buttonTick (button : Level) (diff : Nat) : AuxTick where
  mon := DataMonitor.new.Initialize
  r := restReadings
  io := { mapsSwitchButton := Level.LOW, controlButton := button }
  diff := diff

/-! ## DataManager

The members and functions of the sensor adapter behind the getter results of
`Readings`: the RPM helper, the averaged getters and the DS18B20 reads. What
the hardware returns (`analogRead`, the one-wire bus) is an argument. -/

def ANALOG_TO_VOLTS : ℚ := mkRat 48828125 10000000000
def DALLAS_RAW_TO_CELSIUS : ℚ := mkRat 78125 10000000
def RPM_INPUT_HIGH_VALUE : Nat := 200
def RPM_INPUT_INTERVAL_MAX : Nat := 500000
def AVERAGE_RPM_COUNT_LIMIT : Nat := 5
def AVERAGE_AFR_COUNT_LIMIT : Nat := 5
def DEVICE_DISCONNECTED_RAW : Int := -7040
def TEMP_LSB : Nat := 0
def TEMP_MSB : Nat := 1
def SCRATCHPAD_CRC : Nat := 8

/-- Subtraction on `uint32_t`. -/
def sub32 (a b : Nat) : Nat :=
  (a + 2 ^ 32 - b % 2 ^ 32) % 2 ^ 32

/-- The array `a` after the assignment `a[i] = v`. -/
def setSlot (a : Nat → Nat) (i v : Nat) : Nat → Nat :=
  fun j => if j = i then v else a j

/-- The members of `class DataManager` that the functions modelled here read or
write. The arrays `_afr` and `_rpm` are slots 0..4 of `afr` and `rpm`. -/
structure DataManager where
  /-- An `int16_t`. -/
  engineOilTemp : Int
  /-- An `int16_t`. -/
  gearboxOilTemp : Int
  /-- The array `uint16_t _afr[AVERAGE_AFR_COUNT_LIMIT]`. -/
  afr : Nat → Nat
  /-- The array `uint32_t _rpm[AVERAGE_RPM_COUNT_LIMIT]`. -/
  rpm : Nat → Nat
  /-- A `uint8_t`. -/
  rpmIndex : Nat
  /-- A `uint8_t`. -/
  afrIndex : Nat
  /-- A `uint32_t`. -/
  micros : Nat
  /-- A `uint32_t`. -/
  rpmInterval : Nat
  rpmTriggerCooldown : Bool
  selectAuxRPMInput : Bool
  engOilTempRequested : Bool
  gbOilTempRequested : Bool

namespace DataManager

/-- The members above as the constructor `DataManager::DataManager()` leaves them. -/
def new : DataManager where
  engineOilTemp := 0
  gearboxOilTemp := 0
  afr := fun _ => 0
  rpm := fun _ => 0
  rpmIndex := 0
  afrIndex := 0
  micros := 0
  rpmInterval := 0
  rpmTriggerCooldown := false
  selectAuxRPMInput := false
  engOilTempRequested := false
  gbOilTempRequested := false

/-- The statements `++_rpmIndex; if (_rpmIndex >= AVERAGE_RPM_COUNT_LIMIT) _rpmIndex = 0;`. -/
def advanceRpmIndex (s : DataManager) : DataManager :=
  let i := (s.rpmIndex + 1) % 256
  { s with rpmIndex := if i ≥ AVERAGE_RPM_COUNT_LIMIT then 0 else i }

/-- Model of `DataManager::RetrieveRPM(uint32_t newMicros)`; `pin` is what
`analogRead(INPUT_RPM_SIGNAL)` returns. -/
def RetrieveRPM (s : DataManager) (newMicros pin : Nat) : DataManager :=
  let microDiff := sub32 newMicros s.micros
  let s1 := { s with micros := newMicros }
  let s2 := if newMicros < s1.micros then { s1 with micros := 0 } else s1
  if !s2.selectAuxRPMInput then s2
  else
    let rpmStatus := pin
    if !s2.rpmTriggerCooldown && decide (rpmStatus ≥ RPM_INPUT_HIGH_VALUE) then
      advanceRpmIndex
        { s2 with rpm := setSlot s2.rpm s2.rpmIndex s2.rpmInterval, rpmTriggerCooldown := true,
                  rpmInterval := 0 }
    else if rpmStatus < RPM_INPUT_HIGH_VALUE then
      let s3 :=
        if s2.rpmInterval ≤ RPM_INPUT_INTERVAL_MAX then
          { s2 with rpmInterval := add32 s2.rpmInterval microDiff }
        else
          advanceRpmIndex { s2 with rpm := setSlot s2.rpm s2.rpmIndex 0 }
      { s3 with rpmTriggerCooldown := false }
    else s2

/-- The local `averageRpm` of `GetRPM` in averaged mode: the five slots added up in
a `uint32_t`, divided by `AVERAGE_RPM_COUNT_LIMIT`. -/
def averageRpm (s : DataManager) : Nat :=
  ((List.range AVERAGE_RPM_COUNT_LIMIT).foldl (fun acc i => add32 acc (s.rpm i)) 0)
    / AVERAGE_RPM_COUNT_LIMIT

/-- Model of `DataManager::GetRPM(bool noAverage, bool raw)`. The result is `none`
where the source reads `_rpm[_rpmIndex - 1]` with `_rpmIndex` at 0, outside the
array, and where it would divide by zero. -/
def GetRPM (s : DataManager) (noAverage raw : Bool) : Option Nat :=
  if raw then
    if s.rpmIndex = 0 then none else some (s.rpm (s.rpmIndex - 1))
  else
    let average : Option Nat :=
      if noAverage then
        if s.rpmIndex = 0 then none else some (s.rpm (s.rpmIndex - 1))
      else some s.averageRpm
    match average with
    | none => none
    | some averageRpm =>
      if averageRpm ≤ 0 then some 0
      else if (averageRpm * 2) % 2 ^ 32 = 0 then none
      else some (60000000 / ((averageRpm * 2) % 2 ^ 32))

/-- The local `averageAfr` of `GetAFR` in averaged mode. -/
def averageAfr (s : DataManager) : Nat :=
  ((List.range AVERAGE_AFR_COUNT_LIMIT).foldl (fun acc i => add32 acc (s.afr i)) 0)
    / AVERAGE_AFR_COUNT_LIMIT

/-- The conversion of `GetAFR` from the ADC value `averageAfr` to an AFR
(`DataManager.cpp` 341-360). -/
def afrOfAverage (averageAfr : Nat) : ℚ :=
  let value : ℚ := (averageAfr : ℚ) * ANALOG_TO_VOLTS
  if value ≤ mkRat 5 10 then -1
  else if value ≥ mkRat 45 10 then mkRat 181 10
  else
    let value1 := value - mkRat 5 10
    let value2 := (mkRat 95 10 / (4 / value1)) + mkRat 85 10
    value2 + mkRat 5 10

/-- Model of `DataManager::GetAFR(bool noAverage, bool raw)`. The result is `none`
where the source reads `_afr[_afrIndex - 1]` with `_afrIndex` at 0. -/
def GetAFR (s : DataManager) (noAverage raw : Bool) : Option ℚ :=
  if raw then
    if s.afrIndex = 0 then none else some (s.afr (s.afrIndex - 1) : ℚ)
  else if noAverage then
    if s.afrIndex = 0 then none else some (afrOfAverage (s.afr (s.afrIndex - 1)))
  else some (afrOfAverage s.averageAfr)

/-- Model of `DataManager::Dallas_isAllZeros`. -/
def Dallas_isAllZeros (scratchPad : List Nat) (length : Nat) : Bool :=
  (List.range length).all (fun i => scratchPad.getD i 0 == 0)

/-- Model of `DataManager::Dallas_isConnected`: `readOk` is what
`Dallas_readScratchPad` returns, `scratchPad` the nine bytes it read and `crc`
what `wire->crc8(scratchPad, 8)` returns. -/
def Dallas_isConnected (readOk : Bool) (scratchPad : List Nat) (crc : Nat) : Bool :=
  readOk && !Dallas_isAllZeros scratchPad 9 && (crc == scratchPad.getD SCRATCHPAD_CRC 0)

/-- Model of `DataManager::Dallas_calculateTemperature`. -/
def Dallas_calculateTemperature (scratchPad : List Nat) : Int :=
  toInt16 ((((scratchPad.getD TEMP_MSB 0) <<< 11) ||| ((scratchPad.getD TEMP_LSB 0) <<< 3) : Nat)
    : Int)

/-- Model of `DataManager::Dallas_getTemp`. -/
def Dallas_getTemp (readOk : Bool) (scratchPad : List Nat) (crc : Nat) : Int :=
  if Dallas_isConnected readOk scratchPad crc then Dallas_calculateTemperature scratchPad
  else DEVICE_DISCONNECTED_RAW

/-- Model of `DataManager::RetrieveEngineOilTemp(bool requestCompleted)`. -/
def RetrieveEngineOilTemp (s : DataManager) (requestCompleted readOk : Bool)
    (scratchPad : List Nat) (crc : Nat) : DataManager :=
  if !requestCompleted then { s with engOilTempRequested := true }
  else { s with engineOilTemp := Dallas_getTemp readOk scratchPad crc }

/-- Model of `DataManager::RetrieveGearboxOilTemp(bool requestCompleted)`. -/
def RetrieveGearboxOilTemp (s : DataManager) (requestCompleted readOk : Bool)
    (scratchPad : List Nat) (crc : Nat) : DataManager :=
  if !requestCompleted then { s with gbOilTempRequested := true }
  else { s with gearboxOilTemp := Dallas_getTemp readOk scratchPad crc }

/-- Model of `DataManager::GetEngineOilTemp(bool raw)`. -/
def GetEngineOilTemp (s : DataManager) (raw : Bool) : ℚ :=
  if raw then (s.engineOilTemp : ℚ)
  else (s.engineOilTemp : ℚ) * DALLAS_RAW_TO_CELSIUS

/-- Model of `DataManager::GetGearboxOilTemp(bool raw)`. -/
def GetGearboxOilTemp (s : DataManager) (raw : Bool) : ℚ :=
  if raw then (s.gearboxOilTemp : ℚ)
  else (s.gearboxOilTemp : ℚ) * DALLAS_RAW_TO_CELSIUS

end DataManager

/-! ## CommsManager: the commands that set a cam switch point -/

namespace CommsManager

/-- The branch of `CommsManager::Update` taken for a command
`set INTAKE_RPM_SWITCHOVER_NORMAL`, `set EXHAUST_RPM_SWITCHOVER_NORMAL`,
`set INTAKE_RPM_SWITCHOVER_RACE` or `set EXHAUST_RPM_SWITCHOVER_RACE`
(`CommsManager.cpp` 125-176), the four differing only in the address: `value` is
the `int16_t` parsed from the command. The result says whether the value was
stored, in which case `LoadCamsSwitchPointsFromEEPROM` is called next, and gives
the EEPROM left. -/
def setCamSwitchover (m : EEPROM) (addr : Nat) (value : Int) : Bool × EEPROM :=
  if value ≠ 0 then
    if value < 2000 ∨ value > 8000 then (false, m)
    else (true, (EEPROMManager.SaveToEEPROM_int16 m addr value).2)
  else (false, m)

end CommsManager

/-- A run of the cam actuator from construction: initialisation, two calls of
`Update` of 500 ms at rest, which end the cooldown started by the constructor,
and then the given calls. -/
def camRun (cs : List NeoVVLManager.Call) : NeoVVLManager :=
  (NeoVVLManager.new false false blankEEPROM).calls
    ([NeoVVLManager.Call.Initialize,
      NeoVVLManager.Call.Update AuxManager.new.Initialize restReadings 500,
      NeoVVLManager.Call.Update AuxManager.new.Initialize restReadings 500] ++ cs)

/-- A call of `NeoVVLManager::Update` in mode `ECU_MAP_NORMAL` with the engine
running at the given `GetRPM()` value. -/
def normalUpdate (rpm diff : Nat) : NeoVVLManager.Call :=
  NeoVVLManager.Call.Update AuxManager.new.Initialize (runningReadings rpm) diff

/-- A tick of the monitor with the given readings. -/
def monTick (r : Readings) (diff : Nat) : MonTick where
  r := r
  diff := diff

/-- A sensor adapter in auxiliary RPM mode whose five interval slots hold 3000 µs
(10000 RPM) and whose interval accumulator has passed `RPM_INPUT_INTERVAL_MAX`. -/
def stalledAux : DataManager :=
  { DataManager.new with
    rpm := fun _ => 3000, selectAuxRPMInput := true, rpmInterval := 600000 }

/-- A sensor adapter in auxiliary RPM mode, polling a running engine: the five
interval slots hold 3000 µs, the interval accumulator 2000 µs, the trigger flag is
clear. -/
def auxPolling : DataManager :=
  { DataManager.new with
    rpm := fun _ => 3000, selectAuxRPMInput := true, rpmInterval := 2000 }

/-- The RPM invariant of the monitor: the error counter is at most 11, and at
most 9 unless the RPM status is `STATUS_ERROR`. -/
def DataMonitor.counterOk (s : DataMonitor) : Prop :=
  s.rpmErrorsCount ≤ 11 ∧ (s.rpmStatus ≠ STATUS_ERROR → s.rpmErrorsCount ≤ 9)

/-! ## Theorems -/

open ParameterStatus ECUMaps Commands


/-! ### AuxManager: frame and case lemmas -/

theorem updateAfrGauge_mapFields (s : AuxManager) (r : Readings) :
    (s.updateAfrGauge r).mapFields = s.mapFields := by
  simp only [AuxManager.updateAfrGauge, AuxManager.SwitchAFRGaugePower, AuxManager.mapFields]
  split_ifs <;> rfl

theorem updateLambda_mapFields (s : AuxManager) (mon : DataMonitor) (r : Readings) :
    (s.updateLambda mon r).mapFields = s.mapFields := by
  simp only [AuxManager.updateLambda, AuxManager.SetLambdaEmulation, AuxManager.mapFields]
  split_ifs <;> rfl

theorem updateControlButton_mapFields (s : AuxManager) (io : AuxInputs) (diff : Nat) :
    (s.updateControlButton io diff).mapFields = s.mapFields := by
  simp only [AuxManager.updateControlButton, AuxManager.mapFields]
  split_ifs <;> rfl

theorem aux_Update_mapFields (s : AuxManager) (mon : DataMonitor) (r : Readings)
    (io : AuxInputs) (diff : Nat) (hm : s.dataManager = true) (hd : s.dataMonitor = true) :
    (s.Update mon r io diff).mapFields = (s.mapPhase mon io diff).mapFields := by
  simp only [AuxManager.Update, hm, hd, Bool.not_true, Bool.or_self, Bool.false_eq_true, if_false,
    updateControlButton_mapFields, updateLambda_mapFields, updateAfrGauge_mapFields,
    AuxManager.mapPhase]

theorem selectMap_of_not_cooldown (s : AuxManager) (io : AuxInputs) (diff : Nat)
    (h : s.isMapSwitchInCooldown = false) :
    s.selectMap io diff =
      (s, if io.mapsSwitchButton = Level.HIGH then ECU_MAP_RACE else ECU_MAP_NORMAL) := by
  simp only [AuxManager.selectMap, h]
  split_ifs <;> simp_all

theorem selectMap_of_expired (s : AuxManager) (io : AuxInputs) (diff : Nat)
    (h : s.isMapSwitchInCooldown = true)
    (ht : (if s.isLimiterEnabled = true then RPM_LIMITER_HYSTERESIS else MAP_SWITCH_COOLDOWN) ≤
      s.mapSwitchCooldownTimer) :
    s.selectMap io diff =
      ({ s with mapSwitchCooldownTimer := 0, isMapSwitchInCooldown := false,
                isLimiterEnabled := false }, s.currentECUMap) := by
  simp only [AuxManager.selectMap, h, Bool.not_true, Bool.false_eq_true, if_false, ge_iff_le, ht,
    if_true]

theorem selectMap_of_running (s : AuxManager) (io : AuxInputs) (diff : Nat)
    (h : s.isMapSwitchInCooldown = true)
    (ht : s.mapSwitchCooldownTimer <
      (if s.isLimiterEnabled = true then RPM_LIMITER_HYSTERESIS else MAP_SWITCH_COOLDOWN)) :
    s.selectMap io diff =
      ({ s with mapSwitchCooldownTimer := add32 s.mapSwitchCooldownTimer diff },
        s.currentECUMap) := by
  simp only [AuxManager.selectMap, h, Bool.not_true, Bool.false_eq_true, if_false, ge_iff_le,
    Nat.not_le.mpr ht]

theorem selectMap_fst_currentECUMap (s : AuxManager) (io : AuxInputs) (diff : Nat) :
    (s.selectMap io diff).1.currentECUMap = s.currentECUMap := by
  simp only [AuxManager.selectMap]
  split_ifs <;> rfl

theorem selectMap_snd (s : AuxManager) (io : AuxInputs) (diff : Nat) :
    (s.selectMap io diff).2 =
      if s.isMapSwitchInCooldown = true then s.currentECUMap
      else if io.mapsSwitchButton = Level.HIGH then ECU_MAP_RACE
      else ECU_MAP_NORMAL := by
  simp only [AuxManager.selectMap]
  split_ifs <;> simp_all

theorem overrideMap_currentECUMap (s : AuxManager) (newMap : ECUMaps) (mon : DataMonitor) :
    (s.overrideMap newMap mon).currentECUMap =
      if mon.GetRPMStatus = STATUS_ERROR then ECU_MAP_EMERGENCY
      else if mon.GetRPMStatus = STATUS_DANGER ∨ mon.GetEngineOilTempStatus = STATUS_DANGER ∨
          mon.GetGearboxOilTempStatus = STATUS_DANGER then ECU_MAP_NORMAL
      else newMap := by
  simp only [AuxManager.overrideMap, AuxManager.SwitchMaps]
  split_ifs <;> simp_all

theorem aux_Update_currentECUMap (s : AuxManager) (mon : DataMonitor) (r : Readings)
    (io : AuxInputs) (diff : Nat) (hm : s.dataManager = true) (hd : s.dataMonitor = true) :
    (s.Update mon r io diff).currentECUMap =
      if mon.GetRPMStatus = STATUS_ERROR then ECU_MAP_EMERGENCY
      else if mon.GetRPMStatus = STATUS_DANGER ∨ mon.GetEngineOilTempStatus = STATUS_DANGER ∨
          mon.GetGearboxOilTempStatus = STATUS_DANGER then ECU_MAP_NORMAL
      else if s.isMapSwitchInCooldown = true then s.currentECUMap
      else if io.mapsSwitchButton = Level.HIGH then ECU_MAP_RACE
      else ECU_MAP_NORMAL := by
  have h := congrArg (fun p => p.2.2.1) (aux_Update_mapFields s mon r io diff hm hd)
  simp only [AuxManager.mapFields] at h
  rw [h, AuxManager.mapPhase, overrideMap_currentECUMap, selectMap_snd]

/-- With the RPM status at `STATUS_DANGER` and the stored map at `ECU_MAP_RACE`
the override switches to `ECU_MAP_NORMAL` and engages the limiter. -/
theorem overrideMap_danger_in_race (s : AuxManager) (newMap : ECUMaps) (mon : DataMonitor)
    (hrace : s.currentECUMap = ECU_MAP_RACE) (hdanger : mon.GetRPMStatus = STATUS_DANGER) :
    s.overrideMap newMap mon =
      { s with isLimiterEnabled := true, pinMapSwitch := Level.LOW,
               currentECUMap := ECU_MAP_NORMAL, isMapSwitchInCooldown := true } := by
  simp [AuxManager.overrideMap, AuxManager.SwitchMaps, hrace, hdanger]

/-- With a quiet RPM status and the stored map at `ECU_MAP_NORMAL`, an override
whose candidate is `ECU_MAP_NORMAL` changes nothing. -/
theorem overrideMap_quiet_normal (s : AuxManager) (mon : DataMonitor)
    (hn : s.currentECUMap = ECU_MAP_NORMAL) (h1 : mon.GetRPMStatus ≠ STATUS_DANGER)
    (h2 : mon.GetRPMStatus ≠ STATUS_ERROR) :
    s.overrideMap ECU_MAP_NORMAL mon = s := by
  simp [AuxManager.overrideMap, AuxManager.SwitchMaps, hn, h1, h2]

/-! ### AuxManager: map arbitration (C1, C5, C7, C8) -/

/-- C1, evaluated on the code. From construction, one `Update` with the RPM
status at `STATUS_DANGER` and the map switch low sets the limiter flag without
changing the map; the next `Update`, with the RPM status at `STATUS_ERROR`,
stores `ECU_MAP_EMERGENCY` but leaves the limiter flag set, so
`GetCurrentECUMap()` returns `ECU_MAP_RACE`, not `ECU_MAP_EMERGENCY`. The same
happens from race mode when `STATUS_ERROR` follows `STATUS_DANGER` before the
limiter cooldown has run out. -/
theorem C1_limiter_masks_emergency :
    (AuxManager.new.Initialize.run
        [restTick STATUS_DANGER pinsLow 10, restTick STATUS_ERROR pinsLow 10]).currentECUMap
      = ECU_MAP_EMERGENCY ∧
    (AuxManager.new.Initialize.run
        [restTick STATUS_DANGER pinsLow 10, restTick STATUS_ERROR pinsLow 10]).isLimiterEnabled
      = true ∧
    (AuxManager.new.Initialize.run
        [restTick STATUS_DANGER pinsLow 10, restTick STATUS_ERROR pinsLow 10]).GetCurrentECUMap.1
      = ECU_MAP_RACE ∧
    (raceState.run
        [restTick STATUS_DANGER pinsRace 10, restTick STATUS_ERROR pinsRace 10]).currentECUMap
      = ECU_MAP_EMERGENCY ∧
    (raceState.run
        [restTick STATUS_DANGER pinsRace 10, restTick STATUS_ERROR pinsRace 10]).GetCurrentECUMap.1
      = ECU_MAP_RACE := by
  decide

/-- C5. If the stored map is `ECU_MAP_RACE` and the RPM status is
`STATUS_DANGER` when `Update` runs, then afterwards the stored map is
`ECU_MAP_NORMAL`, the limiter flag is set, the map-select output is low and the
map-switch cooldown is active, whatever the switch level and cooldown state. -/
theorem C5_danger_in_race_engages_limiter (s : AuxManager) (mon : DataMonitor) (r : Readings)
    (io : AuxInputs) (diff : Nat) (hm : s.dataManager = true) (hd : s.dataMonitor = true)
    (hrace : s.currentECUMap = ECU_MAP_RACE) (hdanger : mon.GetRPMStatus = STATUS_DANGER) :
    (s.Update mon r io diff).currentECUMap = ECU_MAP_NORMAL ∧
    (s.Update mon r io diff).isLimiterEnabled = true ∧
    (s.Update mon r io diff).pinMapSwitch = Level.LOW ∧
    (s.Update mon r io diff).isMapSwitchInCooldown = true := by
  have h := aux_Update_mapFields s mon r io diff hm hd
  have hr : (s.selectMap io diff).1.currentECUMap = ECU_MAP_RACE := by
    rw [selectMap_fst_currentECUMap, hrace]
  rw [AuxManager.mapPhase, overrideMap_danger_in_race _ _ _ hr hdanger] at h
  simp only [AuxManager.mapFields, Prod.mk.injEq] at h
  exact ⟨h.2.2.1, h.2.2.2.2.1, h.2.2.2.2.2.2, h.2.2.2.1⟩

/-- An arbiter in race mode with no cooldown running. -/
theorem C5_witness :
    ({ AuxManager.new.Initialize with
        currentECUMap := ECU_MAP_RACE, pinMapSwitch := Level.HIGH }.Update
      (monitorWithRPMStatus STATUS_DANGER) (runningReadings 8600) pinsRace 10).currentECUMap
        = ECU_MAP_NORMAL ∧
    ({ AuxManager.new.Initialize with
        currentECUMap := ECU_MAP_RACE, pinMapSwitch := Level.HIGH }.Update
      (monitorWithRPMStatus STATUS_DANGER) (runningReadings 8600) pinsRace 10).isLimiterEnabled
        = true ∧
    ({ AuxManager.new.Initialize with
        currentECUMap := ECU_MAP_RACE, pinMapSwitch := Level.HIGH }.Update
      (monitorWithRPMStatus STATUS_DANGER) (runningReadings 8600) pinsRace 10).pinMapSwitch
        = Level.LOW ∧
    ({ AuxManager.new.Initialize with
        currentECUMap := ECU_MAP_RACE, pinMapSwitch := Level.HIGH }.Update
      (monitorWithRPMStatus STATUS_DANGER) (runningReadings 8600) pinsRace 10).isMapSwitchInCooldown
        = true :=
  C5_danger_in_race_engages_limiter _ _ _ _ _ rfl rfl rfl rfl

/-- C7. After `Update` the stored map is `ECU_MAP_EMERGENCY` if the RPM status is
`STATUS_ERROR`; otherwise `ECU_MAP_NORMAL` if the RPM status or either
oil-temperature status is `STATUS_DANGER`; otherwise the previous stored map if
the map-switch cooldown was active at the start of the `Update`; otherwise
`ECU_MAP_RACE` if the map switch reads high and `ECU_MAP_NORMAL` if it reads low.
In particular an oil-temperature `STATUS_DANGER` with an RPM status other than
`STATUS_ERROR` gives `ECU_MAP_NORMAL`, never `ECU_MAP_EMERGENCY`. -/
theorem C7_stored_map_after_Update (s : AuxManager) (mon : DataMonitor) (r : Readings)
    (io : AuxInputs) (diff : Nat) (hm : s.dataManager = true) (hd : s.dataMonitor = true) :
    (s.Update mon r io diff).currentECUMap =
      (if mon.GetRPMStatus = STATUS_ERROR then ECU_MAP_EMERGENCY
       else if mon.GetRPMStatus = STATUS_DANGER ∨ mon.GetEngineOilTempStatus = STATUS_DANGER ∨
          mon.GetGearboxOilTempStatus = STATUS_DANGER then ECU_MAP_NORMAL
       else if s.isMapSwitchInCooldown = true then s.currentECUMap
       else if io.mapsSwitchButton = Level.HIGH then ECU_MAP_RACE
       else ECU_MAP_NORMAL) ∧
    (mon.GetRPMStatus ≠ STATUS_ERROR →
      mon.GetEngineOilTempStatus = STATUS_DANGER ∨ mon.GetGearboxOilTempStatus = STATUS_DANGER →
      (s.Update mon r io diff).currentECUMap = ECU_MAP_NORMAL) := by
  have h := aux_Update_currentECUMap s mon r io diff hm hd
  refine ⟨h, fun h1 h2 => ?_⟩
  rw [h, if_neg h1, if_pos (Or.inr h2)]

/-- An initialised arbiter with the map switch high and gearbox oil at
`STATUS_DANGER`: the stored map stays `ECU_MAP_NORMAL`. -/
theorem C7_witness :
    (AuxManager.new.Initialize.Update
        { DataMonitor.new.Initialize with gbOilTempStatus := STATUS_DANGER }
        (runningReadings 3000) pinsRace 10).currentECUMap = ECU_MAP_NORMAL :=
  (C7_stored_map_after_Update AuxManager.new.Initialize
    { DataMonitor.new.Initialize with gbOilTempStatus := STATUS_DANGER }
    (runningReadings 3000) pinsRace 10 rfl rfl).2 (by decide) (Or.inr rfl)

/-- C8. The value returned by `GetCurrentECUMap()` is `ECU_MAP_RACE` if the
limiter flag is set and the stored map otherwise, and the call leaves every
member of the arbiter as it was. -/
theorem C8_GetCurrentECUMap (s : AuxManager) :
    s.GetCurrentECUMap.1 = (if s.isLimiterEnabled = true then ECU_MAP_RACE else s.currentECUMap) ∧
    s.GetCurrentECUMap.2 = s := by
  simp [AuxManager.GetCurrentECUMap]

/-! ### AuxManager: limiter hysteresis (C6) -/

theorem raceState_eq :
    raceState = { AuxManager.new.Initialize with
      currentECUMap := ECU_MAP_RACE, pinMapSwitch := Level.HIGH } := by
  decide

theorem run_append_one (s : AuxManager) (ts : List AuxTick) (t : AuxTick) :
    s.run (ts ++ [t]) = (s.run ts).Update t.mon t.r t.io t.diff := by
  simp [AuxManager.run, List.foldl_append]

theorem run_cons (s : AuxManager) (t : AuxTick) (ts : List AuxTick) :
    s.run (t :: ts) = (s.Update t.mon t.r t.io t.diff).run ts := by
  simp [AuxManager.run]

theorem total_cons (t : AuxTick) (ts : List AuxTick) :
    AuxTick.total (t :: ts) = t.diff + AuxTick.total ts := by
  simp [AuxTick.total]

/-- While the limiter is engaged and the cooldown timer is below 250, an
`Update` with a quiet RPM status only adds `diff` to the timer. -/
theorem limiting_step (s : AuxManager) (T : Nat) (mon : DataMonitor) (r : Readings)
    (io : AuxInputs) (diff : Nat) (h : s.limiting T) (hT : T < 250)
    (h1 : mon.GetRPMStatus ≠ STATUS_DANGER) (h2 : mon.GetRPMStatus ≠ STATUS_ERROR) :
    (s.Update mon r io diff).limiting (add32 T diff) := by
  obtain ⟨hm, hd, hn, hc, hl, ht⟩ := h
  have hf := aux_Update_mapFields s mon r io diff hm hd
  have hrun : s.mapSwitchCooldownTimer <
      (if s.isLimiterEnabled = true then RPM_LIMITER_HYSTERESIS else MAP_SWITCH_COOLDOWN) := by
    simp [hl, ht, RPM_LIMITER_HYSTERESIS, hT]
  have e : ({ s with mapSwitchCooldownTimer := add32 s.mapSwitchCooldownTimer diff } :
      AuxManager).overrideMap s.currentECUMap mon =
      { s with mapSwitchCooldownTimer := add32 s.mapSwitchCooldownTimer diff } := by
    rw [hn]
    exact overrideMap_quiet_normal _ mon rfl h1 h2
  rw [AuxManager.mapPhase, selectMap_of_running s io diff hc hrun, e] at hf
  simp only [AuxManager.mapFields, Prod.mk.injEq] at hf
  obtain ⟨a, b, c, d, e, f, -⟩ := hf
  exact ⟨a.trans hm, b.trans hd, c.trans hn, d.trans hc, e.trans hl, by rw [f, ht]⟩

/-- While the limiter is engaged, the first `Update` that finds the cooldown
timer at 250 or more clears the limiter flag and the cooldown and leaves the
stored map at `ECU_MAP_NORMAL`. -/
theorem limiting_clear (s : AuxManager) (T : Nat) (mon : DataMonitor) (r : Readings)
    (io : AuxInputs) (diff : Nat) (h : s.limiting T) (hT : 250 ≤ T)
    (h1 : mon.GetRPMStatus ≠ STATUS_DANGER) (h2 : mon.GetRPMStatus ≠ STATUS_ERROR) :
    (s.Update mon r io diff).dataManager = true ∧
    (s.Update mon r io diff).dataMonitor = true ∧
    (s.Update mon r io diff).currentECUMap = ECU_MAP_NORMAL ∧
    (s.Update mon r io diff).isMapSwitchInCooldown = false ∧
    (s.Update mon r io diff).isLimiterEnabled = false ∧
    (s.Update mon r io diff).mapSwitchCooldownTimer = 0 := by
  obtain ⟨hm, hd, hn, hc, hl, ht⟩ := h
  have hf := aux_Update_mapFields s mon r io diff hm hd
  have hexp : (if s.isLimiterEnabled = true then RPM_LIMITER_HYSTERESIS else MAP_SWITCH_COOLDOWN)
      ≤ s.mapSwitchCooldownTimer := by
    simp [hl, ht, RPM_LIMITER_HYSTERESIS, hT]
  have e : AuxManager.overrideMap
      { s with mapSwitchCooldownTimer := 0, isMapSwitchInCooldown := false,
               isLimiterEnabled := false } s.currentECUMap mon =
      { s with mapSwitchCooldownTimer := 0, isMapSwitchInCooldown := false,
               isLimiterEnabled := false } := by
    rw [hn]
    exact overrideMap_quiet_normal _ mon rfl h1 h2
  rw [AuxManager.mapPhase, selectMap_of_expired s io diff hc hexp, e] at hf
  simp only [AuxManager.mapFields, Prod.mk.injEq] at hf
  obtain ⟨a, b, c, d, e, f, -⟩ := hf
  exact ⟨a.trans hm, b.trans hd, c.trans hn, d, e, f⟩

/-- As long as the timer started at `T` plus all the diffs stays below 250, a run
of quiet ticks keeps the limiter engaged and the timer holds `T` plus the diffs. -/
theorem limiting_run (ts : List AuxTick) :
    ∀ (s : AuxManager) (T : Nat), s.limiting T → AuxTick.rpmQuiet ts →
      T + AuxTick.total ts < 250 → (s.run ts).limiting (T + AuxTick.total ts) := by
  induction ts with
  | nil => intro s T h _ _; simpa [AuxManager.run, AuxTick.total] using h
  | cons t ts ih =>
    intro s T h hq hlt
    rw [total_cons] at hlt
    have hqt := hq t (List.mem_cons_self t ts)
    have hstep := limiting_step s T t.mon t.r t.io t.diff h (by omega) hqt.1 hqt.2
    have hadd : add32 T t.diff = T + t.diff := by
      unfold add32
      exact Nat.mod_eq_of_lt (by omega)
    rw [hadd] at hstep
    have := ih (s.Update t.mon t.r t.io t.diff) (T + t.diff) hstep
      (fun u hu => hq u (List.mem_cons_of_mem t hu)) (by omega)
    rw [run_cons, total_cons]
    rwa [Nat.add_assoc] at this

/-- The `Update` that engages the limiter from race mode with no cooldown running
and the cooldown timer at 0 leaves the limiter engaged with the timer at 0. -/
theorem engage_limiting (s : AuxManager) (mon : DataMonitor) (r : Readings) (io : AuxInputs)
    (diff : Nat) (hm : s.dataManager = true) (hd : s.dataMonitor = true)
    (hrace : s.currentECUMap = ECU_MAP_RACE) (hcd : s.isMapSwitchInCooldown = false)
    (ht0 : s.mapSwitchCooldownTimer = 0) (hdanger : mon.GetRPMStatus = STATUS_DANGER) :
    (s.Update mon r io diff).limiting 0 := by
  have hf := aux_Update_mapFields s mon r io diff hm hd
  rw [AuxManager.mapPhase, selectMap_of_not_cooldown s io diff hcd,
    overrideMap_danger_in_race _ _ _ hrace hdanger] at hf
  simp only [AuxManager.mapFields, Prod.mk.injEq] at hf
  obtain ⟨a, b, c, d, e, f, -⟩ := hf
  exact ⟨a.trans hm, b.trans hd, c, d, e, f.trans ht0⟩

/-- C6 as stated fails on the code. From race mode with no cooldown running the
limiter engages; one later `Update` with `diff = 250` and a quiet RPM status
brings the diff accumulated since engagement to 250 ms, yet the limiter flag is
still set after it (the `Update` found the timer at 0 and only added 250); it is
the following `Update` that clears the flag. -/
theorem C6_counterexample :
    raceState.currentECUMap = ECU_MAP_RACE ∧ raceState.isMapSwitchInCooldown = false ∧
    (raceState.run [restTick STATUS_DANGER pinsRace 10]).isLimiterEnabled = true ∧
    AuxTick.total [restTick STATUS_OK pinsRace 250] = 250 ∧
    (raceState.run [restTick STATUS_DANGER pinsRace 10,
      restTick STATUS_OK pinsRace 250]).isLimiterEnabled = true ∧
    (raceState.run [restTick STATUS_DANGER pinsRace 10,
      restTick STATUS_OK pinsRace 250, restTick STATUS_OK pinsRace 10]).isLimiterEnabled
        = false := by
  decide

/-- C6, amended. Let the limiter engage at an `Update` that finds the stored map
at `ECU_MAP_RACE`, no map-switch cooldown active and the cooldown timer at 0, and
let the RPM status be neither `STATUS_DANGER` nor `STATUS_ERROR` on the later
ticks `pre ++ [t, u, v]`. If the diffs of `pre` sum to less than 250, the limiter
flag is still set after `t` (the `Update` that finds that sum). If moreover the
diffs of `pre` and `t` sum to 250 or more (and to less than `2 ^ 32`), then `u`,
the first `Update` that finds 250 or more, clears the limiter flag and the
cooldown and keeps `ECU_MAP_NORMAL`, and `v`, the `Update` after it, selects the
map from the manual switch again (unless an oil temperature is at
`STATUS_DANGER`). -/
theorem C6_limiter_hysteresis (s : AuxManager) (mon0 : DataMonitor) (r0 : Readings)
    (io0 : AuxInputs) (d0 : Nat) (pre : List AuxTick) (t u v : AuxTick)
    (hm : s.dataManager = true) (hd : s.dataMonitor = true)
    (hrace : s.currentECUMap = ECU_MAP_RACE) (hcd : s.isMapSwitchInCooldown = false)
    (ht0 : s.mapSwitchCooldownTimer = 0) (hdanger : mon0.GetRPMStatus = STATUS_DANGER)
    (hq : AuxTick.rpmQuiet (pre ++ [t, u, v])) (hpre : AuxTick.total pre < 250) :
    (s.Update mon0 r0 io0 d0).isLimiterEnabled = true ∧
    ((s.Update mon0 r0 io0 d0).run (pre ++ [t])).isLimiterEnabled = true ∧
    (250 ≤ AuxTick.total pre + t.diff → AuxTick.total pre + t.diff < 2 ^ 32 →
      ((s.Update mon0 r0 io0 d0).run (pre ++ [t, u])).isLimiterEnabled = false ∧
      ((s.Update mon0 r0 io0 d0).run (pre ++ [t, u])).isMapSwitchInCooldown = false ∧
      ((s.Update mon0 r0 io0 d0).run (pre ++ [t, u])).currentECUMap = ECU_MAP_NORMAL ∧
      ((s.Update mon0 r0 io0 d0).run (pre ++ [t, u, v])).currentECUMap =
        (if v.mon.GetEngineOilTempStatus = STATUS_DANGER ∨
            v.mon.GetGearboxOilTempStatus = STATUS_DANGER then ECU_MAP_NORMAL
         else if v.io.mapsSwitchButton = Level.HIGH then ECU_MAP_RACE
         else ECU_MAP_NORMAL)) := by
  have he := engage_limiting s mon0 r0 io0 d0 hm hd hrace hcd ht0 hdanger
  have hqpre : AuxTick.rpmQuiet pre := fun x hx => hq x (by simp [hx])
  have hqt := hq t (by simp)
  have hqu := hq u (by simp)
  have hqv := hq v (by simp)
  have hrun := limiting_run pre _ 0 he hqpre (by omega)
  rw [Nat.zero_add] at hrun
  have hstep := limiting_step _ _ t.mon t.r t.io t.diff hrun hpre hqt.1 hqt.2
  rw [← run_append_one] at hstep
  refine ⟨he.2.2.2.2.1, hstep.2.2.2.2.1, fun h250 h32 => ?_⟩
  have hadd : add32 (AuxTick.total pre) t.diff = AuxTick.total pre + t.diff := by
    unfold add32
    exact Nat.mod_eq_of_lt h32
  rw [hadd] at hstep
  have hclear := limiting_clear _ _ u.mon u.r u.io u.diff hstep h250 hqu.1 hqu.2
  rw [← run_append_one, List.append_assoc] at hclear
  simp only [List.singleton_append] at hclear
  obtain ⟨c1, c2, c3, c4, c5, -⟩ := hclear
  refine ⟨c5, c4, c3, ?_⟩
  have hv := aux_Update_currentECUMap _ v.mon v.r v.io v.diff c1 c2
  rw [← run_append_one, List.append_assoc] at hv
  simp only [List.cons_append, List.nil_append] at hv
  rw [hv, if_neg hqv.2, c4]
  simp [hqv.1]

/-- A run with ticks of 100 ms after the engagement: the `Update` that finds 200 ms
accumulated leaves the limiter flag set, and the next one, which finds 300 ms,
clears it. -/
theorem C6_witness :
    (({ AuxManager.new.Initialize with
        currentECUMap := ECU_MAP_RACE, pinMapSwitch := Level.HIGH }.Update
        (monitorWithRPMStatus STATUS_DANGER) (runningReadings 8600) pinsRace 10).run
      ([restTick STATUS_OK pinsRace 100, restTick STATUS_OK pinsRace 100] ++
        [restTick STATUS_OK pinsRace 100])).isLimiterEnabled = true ∧
    (({ AuxManager.new.Initialize with
        currentECUMap := ECU_MAP_RACE, pinMapSwitch := Level.HIGH }.Update
        (monitorWithRPMStatus STATUS_DANGER) (runningReadings 8600) pinsRace 10).run
      ([restTick STATUS_OK pinsRace 100, restTick STATUS_OK pinsRace 100] ++
        [restTick STATUS_OK pinsRace 100, restTick STATUS_OK pinsRace 100])).isLimiterEnabled
          = false :=
  have h := C6_limiter_hysteresis
    { AuxManager.new.Initialize with currentECUMap := ECU_MAP_RACE, pinMapSwitch := Level.HIGH }
    (monitorWithRPMStatus STATUS_DANGER) (runningReadings 8600) pinsRace 10
    [restTick STATUS_OK pinsRace 100, restTick STATUS_OK pinsRace 100]
    (restTick STATUS_OK pinsRace 100) (restTick STATUS_OK pinsRace 100)
    (restTick STATUS_OK pinsRace 100) rfl rfl rfl rfl rfl rfl
    (by unfold AuxTick.rpmQuiet; decide) (by decide)
  ⟨h.2.1, (h.2.2 (by decide) (by decide)).1⟩

/-! ### NeoVVLManager: polarity, construction and emergency (C2, C3, C4) -/

theorem intakeCooldown_outputs (s : NeoVVLManager) (diff : Nat) :
    (s.intakeCooldown diff).outputs = s.outputs := by
  simp only [NeoVVLManager.intakeCooldown, NeoVVLManager.outputs]
  split_ifs <;> rfl

theorem exhaustCooldown_outputs (s : NeoVVLManager) (diff : Nat) :
    (s.exhaustCooldown diff).outputs = s.outputs := by
  simp only [NeoVVLManager.exhaustCooldown, NeoVVLManager.outputs]
  split_ifs <;> rfl

theorem neovvl_Update_outputs (s : NeoVVLManager) (aux : AuxManager) (r : Readings) (diff : Nat)
    (hm : s.dataManager = true) :
    (s.Update aux r diff).outputs = (s.actuate aux.GetCurrentECUMap.1 r).outputs := by
  simp only [NeoVVLManager.Update, hm, Bool.not_true, Bool.false_eq_true, if_false,
    exhaustCooldown_outputs, intakeCooldown_outputs]

theorem polarityOk_of_outputs (s s1 : NeoVVLManager) (h : s1.outputs = s.outputs)
    (hs : s.polarityOk) : s1.polarityOk := by
  simp only [NeoVVLManager.outputs, Prod.mk.injEq] at h
  obtain ⟨a, b, c, d⟩ := h
  simpa only [NeoVVLManager.polarityOk, a, b, c, d] using hs

theorem polarityOk_SwitchIntakeCam (s : NeoVVLManager) (isOn : Bool) (hs : s.polarityOk) :
    (s.SwitchIntakeCam isOn).polarityOk := by
  simp only [NeoVVLManager.SwitchIntakeCam]
  split_ifs <;> simp_all [NeoVVLManager.polarityOk]

theorem polarityOk_SwitchExhaustCam (s : NeoVVLManager) (isOn : Bool) (hs : s.polarityOk) :
    (s.SwitchExhaustCam isOn).polarityOk := by
  simp only [NeoVVLManager.SwitchExhaustCam]
  split_ifs <;> simp_all [NeoVVLManager.polarityOk]

theorem polarityOk_actuate (s : NeoVVLManager) (m : ECUMaps) (r : Readings)
    (hs : s.polarityOk) : (s.actuate m r).polarityOk := by
  cases m <;> simp only [NeoVVLManager.actuate] <;> (try split_ifs) <;>
    first
    | exact hs
    | exact polarityOk_SwitchIntakeCam _ _ hs
    | exact polarityOk_SwitchExhaustCam _ _ hs
    | exact polarityOk_SwitchExhaustCam _ _ (polarityOk_SwitchIntakeCam _ _ hs)

theorem polarityOk_call (s : NeoVVLManager) (c : NeoVVLManager.Call) (hs : s.polarityOk) :
    (s.call c).polarityOk := by
  cases c with
  | Initialize => exact hs
  | Update aux r diff =>
    simp only [NeoVVLManager.call, NeoVVLManager.Update]
    split_ifs
    · exact hs
    · exact polarityOk_of_outputs _ _
        ((exhaustCooldown_outputs _ _).trans (intakeCooldown_outputs _ _))
        (polarityOk_actuate _ _ _ hs)
  | SwitchIntakeCam isOn => exact polarityOk_SwitchIntakeCam _ _ hs
  | SwitchExhaustCam isOn => exact polarityOk_SwitchExhaustCam _ _ hs
  | LoadCamsSwitchPointsFromEEPROM e => exact hs

theorem polarityOk_new (cdIntake cdExhaust : Bool) (e : StoredSwitchPoints) :
    (NeoVVLManager.new cdIntake cdExhaust e).polarityOk := by
  cases cdIntake <;> cases cdExhaust <;>
    simp [NeoVVLManager.new, NeoVVLManager.polarityOk, NeoVVLManager.SwitchIntakeCam,
      NeoVVLManager.SwitchExhaustCam, NeoVVLManager.LoadCamsSwitchPointsFromEEPROM]

theorem polarityOk_calls (cs : List NeoVVLManager.Call) :
    ∀ s : NeoVVLManager, s.polarityOk → (s.calls cs).polarityOk := by
  induction cs with
  | nil => intro s hs; exact hs
  | cons c cs ih => intro s hs; exact ih _ (polarityOk_call s c hs)

/-- C3. In every state reached from construction by any sequence of `Initialize`,
`Update`, `SwitchIntakeCam`, `SwitchExhaustCam` and
`LoadCamsSwitchPointsFromEEPROM` calls, each solenoid output is `HIGH` exactly
when that cam is enabled and `LOW` exactly when it is not. -/
theorem C3_solenoid_polarity (cdIntake cdExhaust : Bool) (e : StoredSwitchPoints)
    (cs : List NeoVVLManager.Call) :
    let s := (NeoVVLManager.new cdIntake cdExhaust e).calls cs
    (s.pinIntakeSolenoid = Level.HIGH ↔ s.isIntakeEnabled = true) ∧
    (s.pinIntakeSolenoid = Level.LOW ↔ s.isIntakeEnabled = false) ∧
    (s.pinExhaustSolenoid = Level.HIGH ↔ s.isExhaustEnabled = true) ∧
    (s.pinExhaustSolenoid = Level.LOW ↔ s.isExhaustEnabled = false) :=
  polarityOk_calls cs _ (polarityOk_new cdIntake cdExhaust e)

/-- C2, evaluated on the code. Right after construction both cams are disabled with
their cooldowns active; an `Update` under the effective map `ECU_MAP_EMERGENCY`,
here at 7000 RPM, calls `SwitchIntakeCam(true)` and `SwitchExhaustCam(true)`, and
both calls return at once because the cooldown is active: both cams are still
disabled after the `Update`, not enabled. -/
theorem C2_emergency_switch_dropped_in_cooldown :
    emergencyArbiter.GetCurrentECUMap.1 = ECU_MAP_EMERGENCY ∧
    (NeoVVLManager.new false false blankEEPROM).Initialize.isIntakeInCooldown = true ∧
    (NeoVVLManager.new false false blankEEPROM).Initialize.GetIntakeCamStatus
      = CAM_STATUS_DISABLED ∧
    ((NeoVVLManager.new false false blankEEPROM).Initialize.Update emergencyArbiter
      (runningReadings 7000) 10).GetIntakeCamStatus = CAM_STATUS_DISABLED ∧
    ((NeoVVLManager.new false false blankEEPROM).Initialize.Update emergencyArbiter
      (runningReadings 7000) 10).GetExhaustCamStatus = CAM_STATUS_DISABLED ∧
    CAM_STATUS_DISABLED ≠ CAM_STATUS_ENABLED := by
  decide

theorem SwitchIntakeCam_true_isIntakeEnabled (s : NeoVVLManager) :
    (s.SwitchIntakeCam true).isIntakeEnabled =
      (if s.isIntakeInCooldown = true then s.isIntakeEnabled else true) := by
  simp only [NeoVVLManager.SwitchIntakeCam]
  split_ifs <;> rfl

theorem SwitchExhaustCam_true_isExhaustEnabled (s : NeoVVLManager) :
    (s.SwitchExhaustCam true).isExhaustEnabled =
      (if s.isExhaustInCooldown = true then s.isExhaustEnabled else true) := by
  simp only [NeoVVLManager.SwitchExhaustCam]
  split_ifs <;> rfl

theorem SwitchExhaustCam_isIntakeEnabled (s : NeoVVLManager) (isOn : Bool) :
    (s.SwitchExhaustCam isOn).isIntakeEnabled = s.isIntakeEnabled := by
  simp only [NeoVVLManager.SwitchExhaustCam]
  split_ifs <;> rfl

theorem SwitchIntakeCam_exhaust (s : NeoVVLManager) (isOn : Bool) :
    (s.SwitchIntakeCam isOn).isExhaustEnabled = s.isExhaustEnabled ∧
    (s.SwitchIntakeCam isOn).isExhaustInCooldown = s.isExhaustInCooldown := by
  simp only [NeoVVLManager.SwitchIntakeCam]
  split_ifs <;> exact ⟨rfl, rfl⟩

/-- What the emergency branch does: if the arbiter's effective map is
`ECU_MAP_EMERGENCY` when `Update` runs, then afterwards each cam whose cooldown
was inactive at the start of the `Update` reports `CAM_STATUS_ENABLED`, whatever
the RPM and engine-on readings are, and each cam whose cooldown was active
reports what it reported before the `Update`. -/
theorem emergency_enables_cams_outside_cooldown (s : NeoVVLManager) (aux : AuxManager)
    (r : Readings) (diff : Nat) (hm : s.dataManager = true)
    (he : aux.GetCurrentECUMap.1 = ECU_MAP_EMERGENCY) :
    (s.isIntakeInCooldown = false →
      (s.Update aux r diff).GetIntakeCamStatus = CAM_STATUS_ENABLED) ∧
    (s.isIntakeInCooldown = true →
      (s.Update aux r diff).GetIntakeCamStatus = s.GetIntakeCamStatus) ∧
    (s.isExhaustInCooldown = false →
      (s.Update aux r diff).GetExhaustCamStatus = CAM_STATUS_ENABLED) ∧
    (s.isExhaustInCooldown = true →
      (s.Update aux r diff).GetExhaustCamStatus = s.GetExhaustCamStatus) := by
  have h := neovvl_Update_outputs s aux r diff hm
  rw [he] at h
  simp only [NeoVVLManager.actuate, NeoVVLManager.outputs, Prod.mk.injEq] at h
  obtain ⟨hi, hx, -, -⟩ := h
  rw [SwitchExhaustCam_isIntakeEnabled, SwitchIntakeCam_true_isIntakeEnabled] at hi
  rw [SwitchExhaustCam_true_isExhaustEnabled, (SwitchIntakeCam_exhaust s true).1,
    (SwitchIntakeCam_exhaust s true).2] at hx
  simp only [NeoVVLManager.GetIntakeCamStatus, NeoVVLManager.GetExhaustCamStatus, hi, hx]
  refine ⟨fun c => ?_, fun c => ?_, fun c => ?_, fun c => ?_⟩ <;> simp [c]

/-- An actuator with both cams disabled and no cooldown running; the effective
map is `ECU_MAP_EMERGENCY`. -/
theorem emergency_enables_cams_example :
    ({ (NeoVVLManager.new false false blankEEPROM).Initialize with
        isIntakeInCooldown := false, isExhaustInCooldown := false }.Update emergencyArbiter
      (runningReadings 1000) 10).GetIntakeCamStatus = CAM_STATUS_ENABLED ∧
    ({ (NeoVVLManager.new false false blankEEPROM).Initialize with
        isIntakeInCooldown := false, isExhaustInCooldown := false }.Update emergencyArbiter
      (runningReadings 1000) 10).GetExhaustCamStatus = CAM_STATUS_ENABLED :=
  have h := emergency_enables_cams_outside_cooldown
    { (NeoVVLManager.new false false blankEEPROM).Initialize with
        isIntakeInCooldown := false, isExhaustInCooldown := false }
    emergencyArbiter (runningReadings 1000) 10 rfl (by decide)
  ⟨h.1 rfl, h.2.2.1 rfl⟩

/-- C4 as stated fails on the code. Right after construction neither cam reports
`CAM_STATUS_ENABLED` and neither solenoid output is `HIGH`: the constructor calls
`SwitchIntakeCam(false)` and `SwitchExhaustCam(false)`. -/
theorem C4_counterexample :
    ¬ ((NeoVVLManager.new false false blankEEPROM).GetIntakeCamStatus = CAM_STATUS_ENABLED ∧
       (NeoVVLManager.new false false blankEEPROM).GetExhaustCamStatus = CAM_STATUS_ENABLED ∧
       (NeoVVLManager.new false false blankEEPROM).pinIntakeSolenoid = Level.HIGH ∧
       (NeoVVLManager.new false false blankEEPROM).pinExhaustSolenoid = Level.HIGH) := by
  decide

/-- C4, amended. Immediately after construction, before any `Update`, both cams
report `CAM_STATUS_DISABLED` and both solenoid outputs are `LOW` (relays
energised, low-RPM lobe), whatever the EEPROM holds. -/
theorem C4_after_construction (cdIntake cdExhaust : Bool) (e : StoredSwitchPoints) :
    (NeoVVLManager.new cdIntake cdExhaust e).GetIntakeCamStatus = CAM_STATUS_DISABLED ∧
    (NeoVVLManager.new cdIntake cdExhaust e).GetExhaustCamStatus = CAM_STATUS_DISABLED ∧
    (NeoVVLManager.new cdIntake cdExhaust e).pinIntakeSolenoid = Level.LOW ∧
    (NeoVVLManager.new cdIntake cdExhaust e).pinExhaustSolenoid = Level.LOW := by
  cases cdIntake <;> cases cdExhaust <;>
    simp [NeoVVLManager.new, NeoVVLManager.SwitchIntakeCam, NeoVVLManager.SwitchExhaustCam,
      NeoVVLManager.LoadCamsSwitchPointsFromEEPROM, NeoVVLManager.GetIntakeCamStatus,
      NeoVVLManager.GetExhaustCamStatus]

/-! ### DataMonitor: the RPM-signal section (C9, C10) -/

theorem updateEngOilTemp_rpmFields (s : DataMonitor) (r : Readings) :
    (s.updateEngOilTemp r).rpmFields = s.rpmFields := by
  simp only [DataMonitor.updateEngOilTemp, DataMonitor.rpmFields]
  split_ifs <;> rfl

theorem updateGbOilTemp_rpmFields (s : DataMonitor) (r : Readings) :
    (s.updateGbOilTemp r).rpmFields = s.rpmFields := by
  simp only [DataMonitor.updateGbOilTemp, DataMonitor.rpmFields]
  split_ifs <;> rfl

theorem updateVoltage_rpmFields (s : DataMonitor) (r : Readings) :
    (s.updateVoltage r).rpmFields = s.rpmFields := by
  simp only [DataMonitor.updateVoltage, DataMonitor.rpmFields]
  split_ifs <;> rfl

theorem updateOilPressure_rpmFields (s : DataMonitor) (r : Readings) (diff : Nat) :
    (s.updateOilPressure r diff).rpmFields = s.rpmFields := by
  simp only [DataMonitor.updateOilPressure, DataMonitor.rpmFields]
  split_ifs <;> rfl

theorem updateAFR_rpmFields (s : DataMonitor) (r : Readings) :
    (s.updateAFR r).rpmFields = s.rpmFields := by
  simp only [DataMonitor.updateAFR, DataMonitor.rpmFields]
  split_ifs <;> rfl

theorem rpmFields_eq_iff (s1 s : DataMonitor) :
    s1.rpmFields = s.rpmFields ↔
      s1.dataManager = s.dataManager ∧ s1.rpmStatus = s.rpmStatus ∧
      s1.lastRPMValue = s.lastRPMValue ∧ s1.rpmInputCheckTimer = s.rpmInputCheckTimer ∧
      s1.rpmFailureResetTimer = s.rpmFailureResetTimer ∧
      s1.rpmErrorsCount = s.rpmErrorsCount := by
  simp only [DataMonitor.rpmFields, Prod.mk.injEq]

theorem rpmLatch_congr (s s1 : DataMonitor) (h : s1.rpmFields = s.rpmFields) :
    s1.rpmLatch.rpmFields = s.rpmLatch.rpmFields := by
  rw [rpmFields_eq_iff] at h ⊢
  obtain ⟨h1, h2, h3, h4, h5, h6⟩ := h
  simp only [DataMonitor.rpmLatch, h6]
  split_ifs <;> simp_all

theorem rpmFailureReset_congr (s s1 : DataMonitor) (diff : Nat)
    (h : s1.rpmFields = s.rpmFields) :
    (s1.rpmFailureReset diff).rpmFields = (s.rpmFailureReset diff).rpmFields := by
  rw [rpmFields_eq_iff] at h ⊢
  obtain ⟨h1, h2, h3, h4, h5, h6⟩ := h
  simp only [DataMonitor.rpmFailureReset, h5]
  split_ifs <;> simp_all

theorem rpmInputCheck_congr (s s1 : DataMonitor) (r : Readings) (diff : Nat)
    (h : s1.rpmFields = s.rpmFields) :
    (s1.rpmInputCheck r diff).rpmFields = (s.rpmInputCheck r diff).rpmFields := by
  rw [rpmFields_eq_iff] at h ⊢
  obtain ⟨h1, h2, h3, h4, h5, h6⟩ := h
  simp only [DataMonitor.rpmInputCheck, DataMonitor.rpmDiff, h3, h4]
  split_ifs <;> simp_all

/-- The RPM-signal section reads no member outside `rpmFields`. -/
theorem updateRPM_congr (s s1 : DataMonitor) (r : Readings) (diff : Nat)
    (h : s1.rpmFields = s.rpmFields) :
    (s1.updateRPM r diff).rpmFields = (s.updateRPM r diff).rpmFields := by
  have h0 := (rpmFields_eq_iff s1 s).mp h
  obtain ⟨h1, h2, h3, h4, h5, h6⟩ := h0
  simp only [DataMonitor.updateRPM, h2, h5]
  split_ifs
  · apply rpmLatch_congr
    apply rpmFailureReset_congr
    apply rpmInputCheck_congr
    rw [rpmFields_eq_iff]
    refine ⟨?_, ?_, ?_, ?_, ?_, ?_⟩ <;> first | rfl | assumption
  · apply rpmLatch_congr
    apply rpmFailureReset_congr
    apply rpmInputCheck_congr
    rw [rpmFields_eq_iff]
    refine ⟨?_, ?_, ?_, ?_, ?_, ?_⟩ <;> first | rfl | assumption
  · rw [rpmFields_eq_iff]
    refine ⟨?_, ?_, ?_, ?_, ?_, ?_⟩ <;> first | rfl | assumption
  · rw [rpmFields_eq_iff]
    refine ⟨?_, ?_, ?_, ?_, ?_, ?_⟩ <;> first | rfl | assumption

theorem monitor_Update_rpmFields (s : DataMonitor) (r : Readings) (diff : Nat)
    (hm : s.dataManager = true) :
    (s.Update r diff).rpmFields = (s.updateRPM r diff).rpmFields := by
  have hpre : (DataMonitor.updateVoltage
      { s.updateEngOilTemp r |>.updateGbOilTemp r with tpsStatus := STATUS_OK } r).rpmFields
      = s.rpmFields := by
    rw [updateVoltage_rpmFields]
    exact (updateGbOilTemp_rpmFields _ r).trans (updateEngOilTemp_rpmFields s r)
  simp only [DataMonitor.Update, hm, Bool.not_true, Bool.false_eq_true, if_false]
  split_ifs
  · rw [updateAFR_rpmFields, updateOilPressure_rpmFields]
    exact updateRPM_congr _ _ r diff hpre
  · exact updateRPM_congr _ _ r diff hpre

/-- The fluctuation check leaves the RPM status and the reset timer alone and,
from a counter of at most 253, adds to the counter at least 1 when it runs and
finds `rpmDiff >= MAX_RPM_DIFF_BETWEEN_CHECKS`, and at most 2. -/
theorem rpmInputCheck_count (s : DataMonitor) (r : Readings) (diff : Nat)
    (hc : s.rpmErrorsCount ≤ 253) :
    (s.rpmInputCheck r diff).rpmStatus = s.rpmStatus ∧
    (s.rpmInputCheck r diff).rpmFailureResetTimer = s.rpmFailureResetTimer ∧
    (s.rpmInputCheck r diff).rpmErrorsCount ≤ 255 ∧
    s.rpmErrorsCount +
      (if s.rpmInputCheckTimer ≥ RPM_INPUT_CHECK_INTERVAL ∧
          s.rpmDiff r ≥ MAX_RPM_DIFF_BETWEEN_CHECKS then 1 else 0) ≤
      (s.rpmInputCheck r diff).rpmErrorsCount := by
  simp only [DataMonitor.rpmInputCheck]
  split_ifs <;> simp_all <;> omega

/-- With the reset timer below `RPM_FAILURES_RESET_TIMER` the reset step leaves
the RPM status and the counter alone. -/
theorem rpmFailureReset_of_lt (s : DataMonitor) (diff : Nat)
    (h : s.rpmFailureResetTimer < RPM_FAILURES_RESET_TIMER) :
    (s.rpmFailureReset diff).rpmStatus = s.rpmStatus ∧
    (s.rpmFailureReset diff).rpmErrorsCount = s.rpmErrorsCount := by
  simp only [DataMonitor.rpmFailureReset, ge_iff_le, Nat.not_le.mpr h, if_false, and_self]

/-- After the latch step the RPM status is `STATUS_ERROR` or the counter is
below `MAX_RPM_SIGNAL_ERRORS`; the counter is unchanged. -/
theorem rpmLatch_spec (s : DataMonitor) :
    s.rpmLatch.rpmErrorsCount = s.rpmErrorsCount ∧
    (s.rpmLatch.rpmStatus = STATUS_ERROR ∨
      (s.rpmErrorsCount ≤ 9 ∧ s.rpmLatch.rpmStatus = s.rpmStatus)) := by
  simp only [DataMonitor.rpmLatch, MAX_RPM_SIGNAL_ERRORS]
  split_ifs with h
  · exact ⟨rfl, Or.inl rfl⟩
  · exact ⟨rfl, Or.inr ⟨by omega, rfl⟩⟩

/-- One RPM-signal step that finds the reset timer below
`RPM_FAILURES_RESET_TIMER`: a latched `STATUS_ERROR` stays, and otherwise either
the status becomes `STATUS_ERROR` or the counter ends at 9 or less, having grown
by at least 1 if the fluctuation check ran and failed. -/
theorem updateRPM_step (s : DataMonitor) (r : Readings) (diff k : Nat)
    (hJ : s.rpmStatus = STATUS_ERROR ∨ (s.rpmErrorsCount ≤ 253 ∧ k ≤ s.rpmErrorsCount))
    (hr : s.rpmFailureResetTimer < RPM_FAILURES_RESET_TIMER) :
    (s.updateRPM r diff).rpmStatus = STATUS_ERROR ∨
    ((s.updateRPM r diff).rpmErrorsCount ≤ 9 ∧
      k + (if s.rpmStatus ≠ STATUS_ERROR ∧ s.rpmInputCheckTimer ≥ RPM_INPUT_CHECK_INTERVAL ∧
          s.rpmDiff r ≥ MAX_RPM_DIFF_BETWEEN_CHECKS then 1 else 0) ≤
        (s.updateRPM r diff).rpmErrorsCount) := by
  by_cases he : s.rpmStatus = STATUS_ERROR
  · left
    simp only [DataMonitor.updateRPM, he, ne_eq, not_true_eq_false, if_false, ge_iff_le,
      Nat.not_le.mpr hr]
  · obtain ⟨hc, hk⟩ := hJ.resolve_left he
    simp only [DataMonitor.updateRPM, ne_eq, he, not_false_eq_true, if_true, true_and]
    generalize hs1 : (if DataMonitor.rpms r ≥ EMERGENCY_REV_LIMITER then
        ({ s with rpmStatus := STATUS_DANGER } : DataMonitor)
      else { s with rpmStatus := STATUS_OK }) = s1
    have e1 : s1.rpmErrorsCount = s.rpmErrorsCount ∧ s1.rpmInputCheckTimer = s.rpmInputCheckTimer
        ∧ s1.rpmFailureResetTimer = s.rpmFailureResetTimer ∧ s1.rpmDiff r = s.rpmDiff r := by
      rw [← hs1]
      split_ifs <;> exact ⟨rfl, rfl, rfl, rfl⟩
    obtain ⟨e1c, e1t, e1r, e1d⟩ := e1
    obtain ⟨-, c2, c3, c4⟩ := rpmInputCheck_count s1 r diff (by omega)
    obtain ⟨-, d2⟩ := rpmFailureReset_of_lt (s1.rpmInputCheck r diff) diff (by omega)
    obtain ⟨l1, l2⟩ := rpmLatch_spec ((s1.rpmInputCheck r diff).rpmFailureReset diff)
    rcases l2 with l2 | ⟨l2, -⟩
    · exact Or.inl l2
    · right
      rw [l1, d2]
      rw [d2] at l2
      rw [e1c, e1t, e1d] at c4
      exact ⟨l2, by omega⟩

/-- For RPM readings below 32768 the `rpmDiff` computed by the fluctuation check
is the absolute change of the reading since the previous check. -/
theorem rpmDiff_eq_abs (s : DataMonitor) (r : Readings) (h1 : r.rpm < 32768)
    (h2 : s.lastRPMValue < 32768) :
    s.rpmDiff r = |(r.rpm : Int) - (s.lastRPMValue : Int)| := by
  simp only [DataMonitor.rpmDiff, DataMonitor.rpms, toInt16]
  rcases abs_cases ((r.rpm : Int) - (s.lastRPMValue : Int)) with ⟨ha, _⟩ | ⟨ha, _⟩ <;>
    rw [ha] <;> split_ifs <;> omega

theorem monitor_run_cons (s : DataMonitor) (t : MonTick) (ts : List MonTick) :
    s.run (t :: ts) = (s.Update t.r t.diff).run ts := by
  simp [DataMonitor.run]

/-- One `Update` that finds the reset timer below `RPM_FAILURES_RESET_TIMER`
keeps the invariant: the RPM status is `STATUS_ERROR`, or the counter has not
wrapped, is at least the number `k` of failed checks so far and, once an
`Update` has run, is at most 9. -/
theorem monitor_Update_step (s : DataMonitor) (r : Readings) (diff k : Nat)
    (hJ : s.rpmStatus = STATUS_ERROR ∨
      (s.rpmErrorsCount ≤ 253 ∧ k ≤ s.rpmErrorsCount ∧ (1 ≤ k → s.rpmErrorsCount ≤ 9)))
    (hr : s.rpmFailureResetTimer < RPM_FAILURES_RESET_TIMER) :
    (s.Update r diff).rpmStatus = STATUS_ERROR ∨
      ((s.Update r diff).rpmErrorsCount ≤ 253 ∧
        k + (if s.checkFails r = true then 1 else 0) ≤ (s.Update r diff).rpmErrorsCount ∧
        (1 ≤ k + (if s.checkFails r = true then 1 else 0) →
          (s.Update r diff).rpmErrorsCount ≤ 9)) := by
  cases hm : s.dataManager with
  | false =>
    have hU : s.Update r diff = s := by simp [DataMonitor.Update, hm]
    have hF : s.checkFails r = false := by
      simp [DataMonitor.checkFails, DataMonitor.checksNow, hm]
    rw [hU, hF]
    simpa using hJ
  | true =>
    have hf := (rpmFields_eq_iff _ _).mp (monitor_Update_rpmFields s r diff hm)
    obtain ⟨-, f2, -, -, -, f6⟩ := hf
    rw [f2, f6]
    have hJ1 : s.rpmStatus = STATUS_ERROR ∨ (s.rpmErrorsCount ≤ 253 ∧ k ≤ s.rpmErrorsCount) :=
      hJ.imp id (fun h => ⟨h.1, h.2.1⟩)
    have hinc : (if s.checkFails r = true then 1 else 0) =
        (if s.rpmStatus ≠ STATUS_ERROR ∧ s.rpmInputCheckTimer ≥ RPM_INPUT_CHECK_INTERVAL ∧
          s.rpmDiff r ≥ MAX_RPM_DIFF_BETWEEN_CHECKS then 1 else 0) := by
      simp [DataMonitor.checkFails, DataMonitor.checksNow, hm, and_assoc]
    rw [hinc]
    rcases updateRPM_step s r diff k hJ1 hr with h | ⟨h1, h2⟩
    · exact Or.inl h
    · exact Or.inr ⟨by omega, h2, fun _ => h1⟩

/-- The invariant of `monitor_Update_step` along a run in which no `Update` finds
the reset timer at `RPM_FAILURES_RESET_TIMER` or more. -/
theorem monitor_run_invariant (ts : List MonTick) :
    ∀ (s : DataMonitor) (k : Nat),
      (s.rpmStatus = STATUS_ERROR ∨
        (s.rpmErrorsCount ≤ 253 ∧ k ≤ s.rpmErrorsCount ∧ (1 ≤ k → s.rpmErrorsCount ≤ 9))) →
      s.noReset ts = true →
      ((s.run ts).rpmStatus = STATUS_ERROR ∨
        ((s.run ts).rpmErrorsCount ≤ 253 ∧ k + s.failedChecks ts ≤ (s.run ts).rpmErrorsCount ∧
          (1 ≤ k + s.failedChecks ts → (s.run ts).rpmErrorsCount ≤ 9))) := by
  induction ts with
  | nil =>
    intro s k hJ _
    simpa [DataMonitor.run, DataMonitor.failedChecks] using hJ
  | cons t ts ih =>
    intro s k hJ hn
    simp only [DataMonitor.noReset, Bool.and_eq_true, decide_eq_true_eq] at hn
    have hstep := monitor_Update_step s t.r t.diff k hJ hn.1
    have := ih (s.Update t.r t.diff) _ hstep hn.2
    rw [monitor_run_cons]
    simp only [DataMonitor.failedChecks]
    simpa only [Nat.add_assoc] using this

set_option maxRecDepth 100000 in
/-- C10 as stated fails on the code. From construction, 32 ticks of 100 ms at rest
bring the error-reset timer to 3200 with the RPM status at `STATUS_OK`. In the
next 20 ticks of 100 ms the fluctuation check runs 10 times, on every second
tick, and each time finds the RPM changed by 6000 since the previous check; no
check in between passes. The first nine bring the error counter to 9; the 19th
tick finds the reset timer at 5000 and zeroes the counter; the tenth check, on
the 20th tick, brings it to 1. After the `Update` that performs the tenth check
the RPM status is `STATUS_OK`, not `STATUS_ERROR`. -/
theorem C10_counterexample :
    (DataMonitor.new.Initialize.run (restTicks 32)).rpmStatus = STATUS_OK ∧
    (DataMonitor.new.Initialize.run (restTicks 32)).failedChecks
      (List.replicate 5 swingTicks).flatten = 10 ∧
    (DataMonitor.new.Initialize.run (restTicks 32)).passedChecks
      (List.replicate 5 swingTicks).flatten = 0 ∧
    ((DataMonitor.new.Initialize.run (restTicks 32)).run
      ((List.replicate 5 swingTicks).flatten.take 19)).checkFails restReadings = true ∧
    ((DataMonitor.new.Initialize.run (restTicks 32)).run
      ((List.replicate 5 swingTicks).flatten.take 18)).rpmErrorsCount = 9 ∧
    ((DataMonitor.new.Initialize.run (restTicks 32)).run
      ((List.replicate 5 swingTicks).flatten.take 19)).rpmErrorsCount = 0 ∧
    ((DataMonitor.new.Initialize.run (restTicks 32)).run
      (List.replicate 5 swingTicks).flatten).rpmErrorsCount = 1 ∧
    ((DataMonitor.new.Initialize.run (restTicks 32)).run
      (List.replicate 5 swingTicks).flatten).GetRPMStatus = STATUS_OK := by
  decide

/-- C10, amended. For every monitor state whose error counter is below 254 and
every run of `Update` calls none of which finds the error-reset timer at 5000 or
more: if 10 of the fluctuation checks made in the run find `rpmDiff >= 5000`
(the absolute RPM change since the previous check, for readings below 32768),
the RPM status is `STATUS_ERROR` at the end of the run, in particular right
after the `Update` that performs the tenth such check. A check is only made
while the RPM status is not `STATUS_ERROR`. -/
theorem C10_ten_failed_checks_latch_error (s : DataMonitor) (ts : List MonTick)
    (hc : s.rpmErrorsCount < 254)
    (hn : s.noReset ts = true) (hf : 10 ≤ s.failedChecks ts) :
    (s.run ts).GetRPMStatus = STATUS_ERROR := by
  have hJ : s.rpmStatus = STATUS_ERROR ∨
      (s.rpmErrorsCount ≤ 253 ∧ 0 ≤ s.rpmErrorsCount ∧ (1 ≤ 0 → s.rpmErrorsCount ≤ 9)) :=
    Or.inr ⟨by omega, by omega, by omega⟩
  rcases monitor_run_invariant ts s 0 hJ hn with h | ⟨-, h2, h3⟩
  · exact h
  · have := h3 (by omega)
    omega

set_option maxRecDepth 100000 in
/-- From construction, 20 ticks of 100 ms in which every second tick sees the RPM
jump by 6000: ten failed checks, no reset, and the status ends at `STATUS_ERROR`. -/
theorem C10_witness :
    (DataMonitor.new.Initialize.run (List.replicate 5 swingTicks).flatten).GetRPMStatus
      = STATUS_ERROR :=
  C10_ten_failed_checks_latch_error DataMonitor.new.Initialize
    (List.replicate 5 swingTicks).flatten (by decide) (by decide) (by decide)

/-- C9, evaluated on the code. With `GetRPM()` at 40000 the local `rpms`, an
`int16_t`, holds -25536, the comparison `rpms >= EMERGENCY_REV_LIMITER` fails
and `Update` leaves the RPM status at `STATUS_OK` although the reading is above
8500 and no error is latched (the error counter is 0). -/
theorem C9_overrev_above_int16_reads_ok :
    DataMonitor.new.Initialize.rpmStatus ≠ STATUS_ERROR ∧
    (8500 : Nat) ≤ (runningReadings 40000).rpm ∧
    DataMonitor.rpms (runningReadings 40000) = -25536 ∧
    (DataMonitor.new.Initialize.Update (runningReadings 40000) 10).rpmErrorsCount = 0 ∧
    (DataMonitor.new.Initialize.Update (runningReadings 40000) 10).GetRPMStatus = STATUS_OK := by
  decide


theorem updateRPM_of_not_error (s : DataMonitor) (r : Readings) (diff : Nat)
    (hs : s.rpmStatus ≠ STATUS_ERROR) :
    s.updateRPM r diff =
      DataMonitor.rpmLatch (DataMonitor.rpmFailureReset (DataMonitor.rpmInputCheck
        (if DataMonitor.rpms r ≥ EMERGENCY_REV_LIMITER then { s with rpmStatus := STATUS_DANGER }
         else { s with rpmStatus := STATUS_OK }) r diff) diff) := by
  unfold DataMonitor.updateRPM
  rw [if_pos hs]

theorem latch_chain_rpmStatus (s1 : DataMonitor) (r : Readings) (diff : Nat)
    (h1 : (DataMonitor.rpmLatch ((s1.rpmInputCheck r diff).rpmFailureReset diff)).rpmStatus
        ≠ STATUS_ERROR) :
    (DataMonitor.rpmLatch ((s1.rpmInputCheck r diff).rpmFailureReset diff)).rpmStatus
        = s1.rpmStatus := by
  obtain ⟨-, l2⟩ := rpmLatch_spec ((s1.rpmInputCheck r diff).rpmFailureReset diff)
  rcases l2 with l2 | ⟨-, l2⟩
  · exact absurd l2 h1
  · have a : ((s1.rpmInputCheck r diff).rpmFailureReset diff).rpmStatus =
        (s1.rpmInputCheck r diff).rpmStatus := by
      simp only [DataMonitor.rpmFailureReset]
      split_ifs <;> rfl
    have b : (s1.rpmInputCheck r diff).rpmStatus = s1.rpmStatus := by
      simp only [DataMonitor.rpmInputCheck]
      split_ifs <;> rfl
    rw [l2, a, b]

theorem overrev_test_rpmStatus (s : DataMonitor) (r : Readings) :
    (if DataMonitor.rpms r ≥ EMERGENCY_REV_LIMITER then
      ({ s with rpmStatus := STATUS_DANGER } : DataMonitor)
    else { s with rpmStatus := STATUS_OK }).rpmStatus =
      if DataMonitor.rpms r ≥ EMERGENCY_REV_LIMITER then STATUS_DANGER else STATUS_OK := by
  split_ifs <;> rfl

/-- What the over-rev test of `Update` computes: from an RPM status other than
`STATUS_ERROR`, and unless this `Update` latches `STATUS_ERROR`, the status is
`STATUS_DANGER` exactly when `rpms`, that is `GetRPM()` narrowed to `int16_t`, is
`EMERGENCY_REV_LIMITER` or more. -/
theorem monitor_Update_rpmStatus (s : DataMonitor) (r : Readings) (diff : Nat)
    (hm : s.dataManager = true) (hs : s.rpmStatus ≠ STATUS_ERROR)
    (hl : (s.Update r diff).rpmStatus ≠ STATUS_ERROR) :
    (s.Update r diff).rpmStatus =
      if DataMonitor.rpms r ≥ EMERGENCY_REV_LIMITER then STATUS_DANGER else STATUS_OK := by
  have hf := (rpmFields_eq_iff _ _).mp (monitor_Update_rpmFields s r diff hm)
  have f2 := hf.2.1
  have hl2 : (s.updateRPM r diff).rpmStatus ≠ STATUS_ERROR := fun h => hl (f2.trans h)
  rw [updateRPM_of_not_error s r diff hs] at hl2
  rw [f2, updateRPM_of_not_error s r diff hs, latch_chain_rpmStatus _ r diff hl2]
  exact overrev_test_rpmStatus s r

/-! ### DataMonitor: frame lemmas of the classification sections -/

theorem rpmLatch_nonRpmFields (s : DataMonitor) : s.rpmLatch.nonRpmFields = s.nonRpmFields := by
  simp only [DataMonitor.rpmLatch, DataMonitor.nonRpmFields]
  split_ifs <;> rfl

theorem rpmFailureReset_nonRpmFields (s : DataMonitor) (diff : Nat) :
    (s.rpmFailureReset diff).nonRpmFields = s.nonRpmFields := by
  simp only [DataMonitor.rpmFailureReset, DataMonitor.nonRpmFields]
  split_ifs <;> rfl

theorem rpmInputCheck_nonRpmFields (s : DataMonitor) (r : Readings) (diff : Nat) :
    (s.rpmInputCheck r diff).nonRpmFields = s.nonRpmFields := by
  simp only [DataMonitor.rpmInputCheck, DataMonitor.nonRpmFields]
  split_ifs <;> rfl

/-- The RPM-signal section writes no member outside `rpmFields`. -/
theorem updateRPM_nonRpmFields (s : DataMonitor) (r : Readings) (diff : Nat) :
    (s.updateRPM r diff).nonRpmFields = s.nonRpmFields := by
  unfold DataMonitor.updateRPM
  split_ifs
  · rw [rpmLatch_nonRpmFields, rpmFailureReset_nonRpmFields, rpmInputCheck_nonRpmFields]
    rfl
  · rw [rpmLatch_nonRpmFields, rpmFailureReset_nonRpmFields, rpmInputCheck_nonRpmFields]
    rfl
  · rfl
  · rfl

theorem nonRpmFields_eq_iff (s1 s : DataMonitor) :
    s1.nonRpmFields = s.nonRpmFields ↔
      s1.engOilPressureStatus = s.engOilPressureStatus ∧
      s1.engOilTempStatus = s.engOilTempStatus ∧ s1.gbOilTempStatus = s.gbOilTempStatus ∧
      s1.afrStatus = s.afrStatus ∧ s1.tpsStatus = s.tpsStatus ∧
      s1.voltageStatus = s.voltageStatus ∧
      s1.engineOilPressStatusCooldown = s.engineOilPressStatusCooldown ∧
      s1.engineOilPressTimer = s.engineOilPressTimer := by
  simp only [DataMonitor.nonRpmFields, Prod.mk.injEq]

/-- The engine-oil temperature status written by its section. -/
theorem updateEngOilTemp_status (s : DataMonitor) (r : Readings) :
    (s.updateEngOilTemp r).engOilTempStatus =
      if r.engineOilTemp = -55 then STATUS_ERROR
      else if r.engineOilTemp < 70 then STATUS_COLD
      else if r.engineOilTemp < 110 then STATUS_OK
      else if r.engineOilTemp < 120 then STATUS_WARNING
      else STATUS_DANGER := by
  simp only [DataMonitor.updateEngOilTemp, DS18B20_ERROR_TEMP, ENGINE_OIL_COLD_TEMP_LIMIT,
    ENGINE_OIL_TEMP_WARNING, ENGINE_OIL_TEMP_DANGER]
  split_ifs with h1 h2 h3 h4 h5
  · rfl
  · rfl
  · rfl
  · rfl
  · rfl
  · exact absurd (not_lt.mp h4) h5

/-- The gearbox-oil temperature status written by its section. -/
theorem updateGbOilTemp_status (s : DataMonitor) (r : Readings) :
    (s.updateGbOilTemp r).gbOilTempStatus =
      if r.gearboxOilTemp = -55 then STATUS_ERROR
      else if r.gearboxOilTemp < 70 then STATUS_COLD
      else if r.gearboxOilTemp < 100 then STATUS_OK
      else if r.gearboxOilTemp < 110 then STATUS_WARNING
      else STATUS_DANGER := by
  simp only [DataMonitor.updateGbOilTemp, DS18B20_ERROR_TEMP, GEARBOX_OIL_COLD_TEMP_LIMIT,
    GEARBOX_OIL_TEMP_WARNING, GEARBOX_OIL_TEMP_DANGER]
  split_ifs with h1 h2 h3 h4 h5
  · rfl
  · rfl
  · rfl
  · rfl
  · rfl
  · exact absurd (not_lt.mp h4) h5

theorem updateGbOilTemp_engOilTempStatus (s : DataMonitor) (r : Readings) :
    (s.updateGbOilTemp r).engOilTempStatus = s.engOilTempStatus := by
  simp only [DataMonitor.updateGbOilTemp]
  split_ifs <;> rfl

theorem updateVoltage_temps (s : DataMonitor) (r : Readings) :
    (s.updateVoltage r).engOilTempStatus = s.engOilTempStatus ∧
    (s.updateVoltage r).gbOilTempStatus = s.gbOilTempStatus := by
  simp only [DataMonitor.updateVoltage]
  split_ifs <;> exact ⟨rfl, rfl⟩

theorem updateOilPressure_classes (s : DataMonitor) (r : Readings) (diff : Nat) :
    (s.updateOilPressure r diff).engOilTempStatus = s.engOilTempStatus ∧
    (s.updateOilPressure r diff).gbOilTempStatus = s.gbOilTempStatus ∧
    (s.updateOilPressure r diff).voltageStatus = s.voltageStatus := by
  simp only [DataMonitor.updateOilPressure]
  split_ifs <;> exact ⟨rfl, rfl, rfl⟩

theorem updateAFR_classes (s : DataMonitor) (r : Readings) :
    (s.updateAFR r).engOilTempStatus = s.engOilTempStatus ∧
    (s.updateAFR r).gbOilTempStatus = s.gbOilTempStatus ∧
    (s.updateAFR r).voltageStatus = s.voltageStatus ∧
    (s.updateAFR r).oilFields = s.oilFields := by
  simp only [DataMonitor.updateAFR, DataMonitor.oilFields]
  split_ifs <;> exact ⟨rfl, rfl, rfl, rfl⟩

/-- An initialised monitor runs the classification sections, then the RPM-signal
section, then the engine-on or the engine-off branch. -/
theorem monitor_Update_eq (s : DataMonitor) (r : Readings) (diff : Nat)
    (hm : s.dataManager = true) :
    s.Update r diff =
      if r.IsEngineOn = true then
        DataMonitor.updateAFR
          (DataMonitor.updateOilPressure ((s.classify r).updateRPM r diff) r diff) r
      else
        { (s.classify r).updateRPM r diff with
          afrStatus := STATUS_COLD, engOilPressureStatus := STATUS_OK } := by
  simp only [DataMonitor.Update, hm, Bool.not_true, Bool.false_eq_true, if_false,
    DataMonitor.classify]

theorem updateEngOilTemp_oilFields (s : DataMonitor) (r : Readings) :
    (s.updateEngOilTemp r).oilFields = s.oilFields := by
  simp only [DataMonitor.updateEngOilTemp, DataMonitor.oilFields]
  split_ifs <;> rfl

theorem updateGbOilTemp_oilFields (s : DataMonitor) (r : Readings) :
    (s.updateGbOilTemp r).oilFields = s.oilFields := by
  simp only [DataMonitor.updateGbOilTemp, DataMonitor.oilFields]
  split_ifs <;> rfl

theorem updateVoltage_oilFields (s : DataMonitor) (r : Readings) :
    (s.updateVoltage r).oilFields = s.oilFields := by
  simp only [DataMonitor.updateVoltage, DataMonitor.oilFields]
  split_ifs <;> rfl

theorem classify_oilFields (s : DataMonitor) (r : Readings) :
    (s.classify r).oilFields = s.oilFields := by
  unfold DataMonitor.classify
  rw [updateVoltage_oilFields]
  exact (updateGbOilTemp_oilFields _ r).trans (updateEngOilTemp_oilFields s r)

theorem classify_engOilTempStatus (s : DataMonitor) (r : Readings) :
    (s.classify r).engOilTempStatus = (s.updateEngOilTemp r).engOilTempStatus := by
  unfold DataMonitor.classify
  rw [(updateVoltage_temps _ r).1]
  exact updateGbOilTemp_engOilTempStatus _ r

theorem classify_gbOilTempStatus (s : DataMonitor) (r : Readings) :
    (s.classify r).gbOilTempStatus =
      ((s.updateEngOilTemp r).updateGbOilTemp r).gbOilTempStatus := by
  unfold DataMonitor.classify
  rw [(updateVoltage_temps _ r).2]

theorem updateRPM_oilFields (s : DataMonitor) (r : Readings) (diff : Nat) :
    (s.updateRPM r diff).oilFields = s.oilFields := by
  have h := (nonRpmFields_eq_iff _ _).mp (updateRPM_nonRpmFields s r diff)
  simp only [DataMonitor.oilFields, h.1, h.2.2.2.2.2.2.1, h.2.2.2.2.2.2.2]

/-- After `Update` the three classification statuses are those of the
classification sections. -/
theorem monitor_Update_classes (s : DataMonitor) (r : Readings) (diff : Nat)
    (hm : s.dataManager = true) :
    (s.Update r diff).engOilTempStatus = (s.classify r).engOilTempStatus ∧
    (s.Update r diff).gbOilTempStatus = (s.classify r).gbOilTempStatus ∧
    (s.Update r diff).voltageStatus = (s.classify r).voltageStatus := by
  have h := (nonRpmFields_eq_iff _ _).mp (updateRPM_nonRpmFields (s.classify r) r diff)
  rw [monitor_Update_eq s r diff hm]
  split_ifs
  · obtain ⟨a1, a2, a3, -⟩ := updateAFR_classes
      (DataMonitor.updateOilPressure ((s.classify r).updateRPM r diff) r diff) r
    obtain ⟨p1, p2, p3⟩ := updateOilPressure_classes ((s.classify r).updateRPM r diff) r diff
    exact ⟨a1.trans (p1.trans h.2.1), a2.trans (p2.trans h.2.2.1),
      a3.trans (p3.trans h.2.2.2.2.2.1)⟩
  · exact ⟨h.2.1, h.2.2.1, h.2.2.2.2.2.1⟩

/-- C14. After `Update` the engine-oil temperature status is `STATUS_ERROR` if the
reading is -55, else `STATUS_COLD` below 70, else `STATUS_OK` below 110, else
`STATUS_WARNING` below 120, else `STATUS_DANGER`; the gearbox-oil temperature
status follows the same rule with 70, 100 and 110. The previous statuses do not
appear in the result; a reading of exactly 70 gives `STATUS_OK`. -/
theorem C14_oil_temperature_status (s : DataMonitor) (r : Readings) (diff : Nat)
    (hm : s.dataManager = true) :
    (s.Update r diff).GetEngineOilTempStatus =
      (if r.engineOilTemp = -55 then STATUS_ERROR
       else if r.engineOilTemp < 70 then STATUS_COLD
       else if r.engineOilTemp < 110 then STATUS_OK
       else if r.engineOilTemp < 120 then STATUS_WARNING
       else STATUS_DANGER) ∧
    (s.Update r diff).GetGearboxOilTempStatus =
      (if r.gearboxOilTemp = -55 then STATUS_ERROR
       else if r.gearboxOilTemp < 70 then STATUS_COLD
       else if r.gearboxOilTemp < 100 then STATUS_OK
       else if r.gearboxOilTemp < 110 then STATUS_WARNING
       else STATUS_DANGER) ∧
    (r.engineOilTemp = 70 → (s.Update r diff).GetEngineOilTempStatus = STATUS_OK) ∧
    (r.gearboxOilTemp = 70 → (s.Update r diff).GetGearboxOilTempStatus = STATUS_OK) := by
  obtain ⟨h1, h2, -⟩ := monitor_Update_classes s r diff hm
  have e : (s.Update r diff).GetEngineOilTempStatus = _ :=
    h1.trans ((classify_engOilTempStatus s r).trans (updateEngOilTemp_status s r))
  have g : (s.Update r diff).GetGearboxOilTempStatus = _ :=
    h2.trans ((classify_gbOilTempStatus s r).trans (updateGbOilTemp_status _ r))
  refine ⟨e, g, fun h70 => ?_, fun h70 => ?_⟩
  · rw [e, h70]; norm_num
  · rw [g, h70]; norm_num

/-- An initialised monitor reading 70 for the engine oil and -55 for the gearbox
oil. -/
theorem C14_witness :
    (DataMonitor.new.Initialize.Update
      { restReadings with engineOilTemp := 70, gearboxOilTemp := -55 } 10).GetEngineOilTempStatus
        = STATUS_OK :=
  (C14_oil_temperature_status DataMonitor.new.Initialize
    { restReadings with engineOilTemp := 70, gearboxOilTemp := -55 } 10 rfl).2.2.1 rfl

theorem voltage_thresholds :
    VOLTAGE_LOW_DANGER_ENGINE_ON = 11 + 12 / 10 ∧ VOLTAGE_LOW_WARNING_ENGINE_ON = 118 / 10 + 12 / 10 ∧
    VOLTAGE_LOW_DANGER = 11 + 0 ∧ VOLTAGE_LOW_WARNING = 118 / 10 + 0 := by
  simp only [VOLTAGE_LOW_DANGER_ENGINE_ON, VOLTAGE_LOW_WARNING_ENGINE_ON, VOLTAGE_LOW_DANGER,
    VOLTAGE_LOW_WARNING, Rat.mkRat_eq_div]
  norm_num

/-- The voltage status written by its section. -/
theorem updateVoltage_status (s : DataMonitor) (r : Readings) :
    (s.updateVoltage r).voltageStatus =
      if r.voltage ≤ 11 + (if r.IsEngineOn = true then 12 / 10 else 0) then STATUS_DANGER
      else if r.voltage ≤ 118 / 10 + (if r.IsEngineOn = true then 12 / 10 else 0) then
        STATUS_WARNING
      else if r.voltage < 15 then STATUS_OK
      else if r.voltage < 16 then STATUS_WARNING
      else STATUS_DANGER := by
  obtain ⟨e1, e2, e3, e4⟩ := voltage_thresholds
  simp only [DataMonitor.updateVoltage, e1, e2, e3, e4, VOLTAGE_HIGH_WARNING, VOLTAGE_HIGH_DANGER]
  cases hon : r.IsEngineOn <;> simp only [Bool.false_eq_true, if_false, if_true] <;>
    split_ifs <;> first | rfl | (exfalso; linarith)

/-- C15. After `Update` the voltage status is, with the low-side offset `d = 1.2`
when the engine is on and `d = 0` otherwise: `STATUS_DANGER` if `V <= 11.0 + d`,
else `STATUS_WARNING` if `V <= 11.8 + d`, else `STATUS_OK` if `V < 15.0`, else
`STATUS_WARNING` if `V < 16.0`, else `STATUS_DANGER` (exact arithmetic). -/
theorem C15_voltage_status (s : DataMonitor) (r : Readings) (diff : Nat)
    (hm : s.dataManager = true) :
    (s.Update r diff).GetVoltageStatus =
      if r.voltage ≤ 11 + (if r.IsEngineOn = true then 12 / 10 else 0) then STATUS_DANGER
      else if r.voltage ≤ 118 / 10 + (if r.IsEngineOn = true then 12 / 10 else 0) then
        STATUS_WARNING
      else if r.voltage < 15 then STATUS_OK
      else if r.voltage < 16 then STATUS_WARNING
      else STATUS_DANGER := by
  obtain ⟨-, -, h3⟩ := monitor_Update_classes s r diff hm
  exact h3.trans (updateVoltage_status _ r)

/-- An initialised monitor with the engine on and 12 V: below `11.0 + 1.2`. -/
theorem C15_witness :
    (DataMonitor.new.Initialize.Update { runningReadings 3000 with voltage := 12 } 10).GetVoltageStatus
      = STATUS_DANGER :=
  (C15_voltage_status DataMonitor.new.Initialize { runningReadings 3000 with voltage := 12 } 10
    rfl).trans (by
      have h : ({ runningReadings 3000 with voltage := 12 } : Readings).IsEngineOn = true := by
        decide
      simp only [h, if_true]
      norm_num)

/-- The AFR status written by its section, which runs with the engine on. -/
theorem updateAFR_status (s : DataMonitor) (r : Readings) :
    (s.updateAFR r).afrStatus =
      if r.afr = -1 then STATUS_COLD
      else if r.afr ≤ 9 then (if r.engineOilTemp ≥ 50 then STATUS_DANGER else STATUS_OK)
      else if r.afr ≤ 10 then (if r.engineOilTemp ≥ 50 then STATUS_WARNING else STATUS_OK)
      else if r.afr < 152 / 10 then STATUS_OK
      else if r.afr < 16 then STATUS_WARNING
      else STATUS_DANGER := by
  have e : AFR_LEAN_WARNING = 152 / 10 := by
    simp only [AFR_LEAN_WARNING, Rat.mkRat_eq_div]
    norm_num
  simp only [DataMonitor.updateAFR, AFR_RICH_DANGER, AFR_RICH_WARNING, e, AFR_LEAN_DANGER]
  split_ifs <;> first | rfl | (exfalso; linarith)

/-- C16. With the engine on, after `Update` the AFR status is `STATUS_COLD` if the
AFR reading is -1; else, if it is at most 9, `STATUS_DANGER` when the engine-oil
temperature is at least 50 and `STATUS_OK` when it is below 50; else, if it is at
most 10, `STATUS_WARNING` when the temperature is at least 50 and `STATUS_OK`
when it is below 50; else `STATUS_OK` below 15.2; else `STATUS_WARNING` below 16;
else `STATUS_DANGER`. -/
theorem C16_afr_status (s : DataMonitor) (r : Readings) (diff : Nat)
    (hm : s.dataManager = true) (hon : r.IsEngineOn = true) :
    (s.Update r diff).GetAFRStatus =
      if r.afr = -1 then STATUS_COLD
      else if r.afr ≤ 9 then (if r.engineOilTemp ≥ 50 then STATUS_DANGER else STATUS_OK)
      else if r.afr ≤ 10 then (if r.engineOilTemp ≥ 50 then STATUS_WARNING else STATUS_OK)
      else if r.afr < 152 / 10 then STATUS_OK
      else if r.afr < 16 then STATUS_WARNING
      else STATUS_DANGER := by
  have h : (s.Update r diff).GetAFRStatus = (DataMonitor.updateAFR
      (DataMonitor.updateOilPressure ((s.classify r).updateRPM r diff) r diff) r).afrStatus := by
    rw [monitor_Update_eq s r diff hm, if_pos hon]
    rfl
  exact h.trans (updateAFR_status _ r)

/-- An initialised monitor with the engine on, a rich AFR of 8 and cold oil. -/
theorem C16_witness :
    (DataMonitor.new.Initialize.Update
      { runningReadings 3000 with afr := 8, engineOilTemp := 40 } 10).GetAFRStatus = STATUS_OK :=
  (C16_afr_status DataMonitor.new.Initialize
    { runningReadings 3000 with afr := 8, engineOilTemp := 40 } 10 rfl (by decide)).trans
    (by norm_num)

/-- C17. On a tick on which `IsEngineOn()` is false, after `Update` the AFR status
is `STATUS_COLD` and the oil-pressure status is `STATUS_OK`, whatever the
readings and the previous statuses are. -/
theorem C17_engine_off_statuses (s : DataMonitor) (r : Readings) (diff : Nat)
    (hm : s.dataManager = true) (hoff : r.IsEngineOn = false) :
    (s.Update r diff).GetAFRStatus = STATUS_COLD ∧
    (s.Update r diff).GetEngineOilPressureStatus = STATUS_OK := by
  rw [monitor_Update_eq s r diff hm, hoff]
  exact ⟨rfl, rfl⟩

/-- A monitor whose statuses are both `STATUS_DANGER` before a tick with the
engine at rest. -/
theorem C17_witness :
    ({ DataMonitor.new.Initialize with
        afrStatus := STATUS_DANGER, engOilPressureStatus := STATUS_DANGER }.Update
      restReadings 10).GetAFRStatus = STATUS_COLD ∧
    ({ DataMonitor.new.Initialize with
        afrStatus := STATUS_DANGER, engOilPressureStatus := STATUS_DANGER }.Update
      restReadings 10).GetEngineOilPressureStatus = STATUS_OK :=
  C17_engine_off_statuses _ restReadings 10 rfl (by decide)

/-! ### DataMonitor: oil pressure (C12, C13) -/

theorem oilFields_eq_iff (s1 s : DataMonitor) :
    s1.oilFields = s.oilFields ↔
      s1.engOilPressureStatus = s.engOilPressureStatus ∧
      s1.engineOilPressStatusCooldown = s.engineOilPressStatusCooldown ∧
      s1.engineOilPressTimer = s.engineOilPressTimer := by
  simp only [DataMonitor.oilFields, Prod.mk.injEq]

/-- The oil-pressure section reads no member outside `oilFields`. -/
theorem updateOilPressure_congr (s s1 : DataMonitor) (r : Readings) (diff : Nat)
    (h : s1.oilFields = s.oilFields) :
    (s1.updateOilPressure r diff).oilFields = (s.updateOilPressure r diff).oilFields := by
  obtain ⟨h1, h2, h3⟩ := (oilFields_eq_iff s1 s).mp h
  simp only [DataMonitor.updateOilPressure, h2, h3]
  split_ifs <;> simp only [DataMonitor.oilFields, h1, h2, h3]

/-- With the engine on, the oil-pressure members after `Update` are those that the
oil-pressure section computes from the members before it. -/
theorem monitor_Update_oilFields_on (s : DataMonitor) (r : Readings) (diff : Nat)
    (hm : s.dataManager = true) (hon : r.IsEngineOn = true) :
    (s.Update r diff).oilFields = (s.updateOilPressure r diff).oilFields := by
  rw [monitor_Update_eq s r diff hm, if_pos hon, (updateAFR_classes _ r).2.2.2]
  exact updateOilPressure_congr _ _ r diff
    ((updateRPM_oilFields _ r diff).trans (classify_oilFields s r))

/-- With the engine off, `Update` forces the oil-pressure status to `STATUS_OK` and
leaves the dwell latch and its timer as they were. -/
theorem monitor_Update_oilFields_off (s : DataMonitor) (r : Readings) (diff : Nat)
    (hm : s.dataManager = true) (hoff : r.IsEngineOn = false) :
    (s.Update r diff).oilFields =
      (STATUS_OK, s.engineOilPressStatusCooldown, s.engineOilPressTimer) := by
  have h := (oilFields_eq_iff _ _).mp
    ((updateRPM_oilFields (s.classify r) r diff).trans (classify_oilFields s r))
  rw [monitor_Update_eq s r diff hm, hoff]
  simp only [Bool.false_eq_true, if_false, DataMonitor.oilFields, h.2.1, h.2.2]

theorem updateRPM_dataManager (s : DataMonitor) (r : Readings) (diff : Nat) :
    (s.updateRPM r diff).dataManager = s.dataManager := by
  have a : ∀ x : DataMonitor, x.rpmLatch.dataManager = x.dataManager := by
    intro x
    simp only [DataMonitor.rpmLatch]
    split_ifs <;> rfl
  have b : ∀ x : DataMonitor, (x.rpmFailureReset diff).dataManager = x.dataManager := by
    intro x
    simp only [DataMonitor.rpmFailureReset]
    split_ifs <;> rfl
  have c : ∀ x : DataMonitor, (x.rpmInputCheck r diff).dataManager = x.dataManager := by
    intro x
    simp only [DataMonitor.rpmInputCheck]
    split_ifs <;> rfl
  unfold DataMonitor.updateRPM
  split_ifs
  · rw [a, b, c]
  · rw [a, b, c]
  · rfl
  · rfl

theorem monitor_Update_dataManager (s : DataMonitor) (r : Readings) (diff : Nat) :
    (s.Update r diff).dataManager = s.dataManager := by
  cases hm : s.dataManager with
  | false => simp [DataMonitor.Update, hm]
  | true =>
    have h := (rpmFields_eq_iff _ _).mp (monitor_Update_rpmFields s r diff hm)
    rw [h.1, updateRPM_dataManager, hm]

theorem rpms_of_lt (r : Readings) (h : r.rpm < 32768) : DataMonitor.rpms r = (r.rpm : Int) := by
  simp only [DataMonitor.rpms, toInt16]
  split_ifs <;> omega

/-- What the oil-pressure section computes when the dwell latch is inactive and
the RPM reading is below 32768. -/
theorem updateOilPressure_idle (s : DataMonitor) (r : Readings) (diff : Nat)
    (hcd : s.engineOilPressStatusCooldown = false) (hr : r.rpm < 32768) :
    (s.updateOilPressure r diff).oilFields =
      if (r.engineOilTemp ≤ 70 ∧ r.engineOilPressure < 1) ∨
          (r.engineOilTemp > 70 ∧ r.engineOilPressure < 6 / 10) ∨
          (r.rpm ≥ 4000 ∧ r.engineOilPressure < 3) then
        (STATUS_DANGER, true, s.engineOilPressTimer)
      else (STATUS_OK, false, s.engineOilPressTimer) := by
  have e : ENGINE_OIL_PRESS_MIN_HOT = 6 / 10 := by
    simp only [ENGINE_OIL_PRESS_MIN_HOT, Rat.mkRat_eq_div]
    norm_num
  have hrpm : DataMonitor.rpms r ≥ ENGINE_OIL_PRESS_RPM_CHECK ↔ r.rpm ≥ 4000 := by
    rw [rpms_of_lt r hr, ENGINE_OIL_PRESS_RPM_CHECK]
    omega
  simp only [DataMonitor.updateOilPressure, hcd, Bool.false_eq_true, if_false,
    ENGINE_OIL_COLD_TEMP_LIMIT, ENGINE_OIL_PRESS_MIN, e, ENGINE_OIL_PRESS_MIN_RPMS, hrpm,
    DataMonitor.oilFields]
  by_cases h1 : r.engineOilTemp ≤ 70 <;> by_cases h2 : r.engineOilPressure < 1 <;>
    by_cases h3 : r.engineOilPressure < 6 / 10 <;> by_cases h4 : r.rpm ≥ 4000 <;>
    by_cases h5 : r.engineOilPressure < 3 <;>
    simp [h1, h2, h3, h4, h5, hcd, not_le.mp, lt_of_not_le] <;>
    linarith

/-- C13 as stated fails on the code. With the engine on (1000 RPM), the dwell
latch inactive, an engine-oil temperature of exactly 70 and a pressure of 0.8,
none of the three conditions of the claim holds, yet `Update` sets the
oil-pressure status to `STATUS_DANGER`: the cold minimum of 1.0 applies for
`engOilTemp <= 70`. -/
theorem C13_counterexample :
    (oilReadings 1000 70 (mkRat 8 10)).IsEngineOn = true ∧
    DataMonitor.new.Initialize.engineOilPressStatusCooldown = false ∧
    ¬ (((oilReadings 1000 70 (mkRat 8 10)).engineOilTemp < 70 ∧
          (oilReadings 1000 70 (mkRat 8 10)).engineOilPressure < 1) ∨
        ((oilReadings 1000 70 (mkRat 8 10)).engineOilTemp > 70 ∧
          (oilReadings 1000 70 (mkRat 8 10)).engineOilPressure < mkRat 6 10) ∨
        ((oilReadings 1000 70 (mkRat 8 10)).rpm ≥ 4000 ∧
          (oilReadings 1000 70 (mkRat 8 10)).engineOilPressure < 3)) ∧
    (DataMonitor.new.Initialize.Update (oilReadings 1000 70 (mkRat 8 10))
      10).GetEngineOilPressureStatus = STATUS_DANGER := by
  decide

/-- C13, amended. On a tick with the engine on, the dwell latch inactive at the
start of `Update` and the RPM reading below 32768, the oil-pressure status after
`Update` is `STATUS_DANGER` if (engine-oil temperature <= 70 and pressure < 1.0)
or (temperature > 70 and pressure < 0.6) or (RPM >= 4000 and pressure < 3.0), and
`STATUS_OK` otherwise; the dwell latch is armed after `Update` exactly when the
status is `STATUS_DANGER`. -/
theorem C13_oil_pressure_status (s : DataMonitor) (r : Readings) (diff : Nat)
    (hm : s.dataManager = true) (hon : r.IsEngineOn = true)
    (hcd : s.engineOilPressStatusCooldown = false) (hr : r.rpm < 32768) :
    (s.Update r diff).GetEngineOilPressureStatus =
      (if (r.engineOilTemp ≤ 70 ∧ r.engineOilPressure < 1) ∨
          (r.engineOilTemp > 70 ∧ r.engineOilPressure < 6 / 10) ∨
          (r.rpm ≥ 4000 ∧ r.engineOilPressure < 3) then STATUS_DANGER
       else STATUS_OK) ∧
    ((s.Update r diff).GetEngineOilPressureStatus = STATUS_DANGER ∨
      (s.Update r diff).GetEngineOilPressureStatus = STATUS_OK) ∧
    ((s.Update r diff).engineOilPressStatusCooldown = true ↔
      (s.Update r diff).GetEngineOilPressureStatus = STATUS_DANGER) := by
  have h := (monitor_Update_oilFields_on s r diff hm hon).trans
    (updateOilPressure_idle s r diff hcd hr)
  simp only [DataMonitor.oilFields] at h
  simp only [DataMonitor.GetEngineOilPressureStatus]
  split_ifs at h ⊢ with hb
  · simp only [Prod.mk.injEq] at h
    simp [h.1, h.2.1]
  · simp only [Prod.mk.injEq] at h
    simp [h.1, h.2.1]

/-- A warm engine at 4500 RPM with 2.5 bar: below the minimum of 3.0. -/
theorem C13_witness :
    (DataMonitor.new.Initialize.Update (oilReadings 4500 90 (mkRat 25 10))
      10).GetEngineOilPressureStatus = STATUS_DANGER :=
  ((C13_oil_pressure_status DataMonitor.new.Initialize (oilReadings 4500 90 (mkRat 25 10)) 10
    rfl (by decide) rfl (by decide)).1).trans (by
      simp only [oilReadings, Rat.mkRat_eq_div]
      norm_num)

theorem monitor_total_cons (t : MonTick) (ts : List MonTick) :
    MonTick.total (t :: ts) = t.diff + MonTick.total ts := by
  simp [MonTick.total]

/-- While the dwell latch is armed with its timer below 200 and the engine is on,
`Update` keeps the oil-pressure status and only adds `diff` to the timer. -/
theorem dwell_step (s : DataMonitor) (r : Readings) (diff T : Nat) (st : ParameterStatus)
    (hm : s.dataManager = true) (hon : r.IsEngineOn = true)
    (hs : s.oilFields = (st, true, T)) (hT : T < 200) :
    (s.Update r diff).oilFields = (st, true, add32 T diff) := by
  simp only [DataMonitor.oilFields, Prod.mk.injEq] at hs
  obtain ⟨h1, h2, h3⟩ := hs
  rw [monitor_Update_oilFields_on s r diff hm hon]
  simp only [DataMonitor.updateOilPressure, h2, if_true, h3, MIN_OIL_PRESS_DANGER_TIMER, ge_iff_le,
    Nat.not_le.mpr hT, if_false, DataMonitor.oilFields, h1]

/-- A run of engine-on ticks whose diffs, added to the timer `T` of the armed dwell
latch, stay below 200 keeps the oil-pressure status. -/
theorem dwell_run (ts : List MonTick) :
    ∀ (s : DataMonitor) (T : Nat) (st : ParameterStatus), s.dataManager = true →
      s.oilFields = (st, true, T) → MonTick.engineOn ts → T + MonTick.total ts < 200 →
      (s.run ts).oilFields = (st, true, T + MonTick.total ts) := by
  induction ts with
  | nil =>
    intro s T st _ hs _ _
    simpa [DataMonitor.run, MonTick.total] using hs
  | cons t ts ih =>
    intro s T st hm hs hon hlt
    rw [monitor_total_cons] at hlt
    have hstep := dwell_step s t.r t.diff T st hm (hon t (List.mem_cons_self t ts)) hs
      (by omega)
    have hadd : add32 T t.diff = T + t.diff := by
      unfold add32
      exact Nat.mod_eq_of_lt (by omega)
    rw [hadd] at hstep
    have := ih (s.Update t.r t.diff) (T + t.diff) st
      ((monitor_Update_dataManager s t.r t.diff).trans hm) hstep
      (fun u hu => hon u (List.mem_cons_of_mem t hu)) (by omega)
    rw [monitor_run_cons, monitor_total_cons]
    rwa [Nat.add_assoc] at this

/-- Along every run the timer of the dwell latch is 0 while the latch is inactive,
if it was so at the start (as it is at construction). -/
theorem dwell_timer_zero_of_inactive (ts : List MonTick) :
    ∀ s : DataMonitor, (s.engineOilPressStatusCooldown = false → s.engineOilPressTimer = 0) →
      ((s.run ts).engineOilPressStatusCooldown = false → (s.run ts).engineOilPressTimer = 0) := by
  induction ts with
  | nil => intro s h; simpa [DataMonitor.run] using h
  | cons t ts ih =>
    intro s h
    rw [monitor_run_cons]
    apply ih
    cases hm : s.dataManager with
    | false =>
      have hU : s.Update t.r t.diff = s := by simp [DataMonitor.Update, hm]
      rw [hU]
      exact h
    | true =>
      cases hon : t.r.IsEngineOn with
      | false =>
        have hf := monitor_Update_oilFields_off s t.r t.diff hm hon
        simp only [DataMonitor.oilFields, Prod.mk.injEq] at hf
        rw [hf.2.1, hf.2.2]
        exact h
      | true =>
        have hf := (oilFields_eq_iff _ _).mp (monitor_Update_oilFields_on s t.r t.diff hm hon)
        rw [hf.2.1, hf.2.2]
        simp only [DataMonitor.updateOilPressure]
        split_ifs <;> simp_all

/-- The dwell with the engine on. If an `Update` that finds the dwell latch inactive
(its timer at 0) sets the oil-pressure status to `STATUS_DANGER`, then after each
subsequent `Update` the status is still `STATUS_DANGER`, whatever the later
readings are, as long as the adapter reports the engine on at each of these ticks
and the diffs accumulated since the triggering `Update` total less than 200 ms. -/
theorem oil_pressure_dwell_engine_on (s : DataMonitor) (r0 : Readings) (d0 : Nat)
    (ts : List MonTick)
    (hm : s.dataManager = true) (hcd : s.engineOilPressStatusCooldown = false)
    (ht : s.engineOilPressTimer = 0)
    (htrig : (s.Update r0 d0).GetEngineOilPressureStatus = STATUS_DANGER)
    (hon : MonTick.engineOn ts) (hlt : MonTick.total ts < 200) :
    ((s.Update r0 d0).run ts).GetEngineOilPressureStatus = STATUS_DANGER := by
  have hon0 : r0.IsEngineOn = true := by
    cases h : r0.IsEngineOn with
    | true => rfl
    | false =>
      have hoff := monitor_Update_oilFields_off s r0 d0 hm h
      simp only [DataMonitor.oilFields, Prod.mk.injEq] at hoff
      have h1 : (s.Update r0 d0).engOilPressureStatus = STATUS_DANGER := htrig
      rw [h1] at hoff
      exact absurd hoff.1 (by decide)
  have hf := monitor_Update_oilFields_on s r0 d0 hm hon0
  have harm : (s.Update r0 d0).oilFields = (STATUS_DANGER, true, 0) := by
    have h1 : (s.Update r0 d0).engOilPressureStatus = STATUS_DANGER := htrig
    rw [oilFields_eq_iff] at hf
    obtain ⟨f1, f2, f3⟩ := hf
    rw [h1] at f1
    simp only [DataMonitor.oilFields, Prod.mk.injEq]
    refine ⟨h1, ?_, ?_⟩
    · rw [f2]
      revert f1
      simp only [DataMonitor.updateOilPressure, hcd, Bool.false_eq_true, if_false]
      split_ifs <;> simp
    · rw [f3, ← ht]
      simp only [DataMonitor.updateOilPressure, hcd, Bool.false_eq_true, if_false]
      split_ifs <;> rfl
  have hrun := dwell_run ts (s.Update r0 d0) 0 STATUS_DANGER
    ((monitor_Update_dataManager s r0 d0).trans hm) harm hon (by omega)
  simp only [DataMonitor.oilFields, Prod.mk.injEq] at hrun
  exact hrun.1

/-- From construction: a pressure of 0.5 at 600 RPM triggers the status, and three
later ticks of 50 ms with the pressure back at 4 bar keep it. -/
theorem oil_pressure_dwell_example :
    ((DataMonitor.new.Initialize.Update (oilReadings 600 80 (mkRat 5 10)) 10).run
      [{ r := runningReadings 3000, diff := 50 }, { r := runningReadings 3000, diff := 50 },
       { r := runningReadings 3000, diff := 50 }]).GetEngineOilPressureStatus = STATUS_DANGER :=
  oil_pressure_dwell_engine_on DataMonitor.new.Initialize (oilReadings 600 80 (mkRat 5 10)) 10
    [{ r := runningReadings 3000, diff := 50 }, { r := runningReadings 3000, diff := 50 },
     { r := runningReadings 3000, diff := 50 }]
    rfl rfl rfl (by decide) (by unfold MonTick.engineOn; decide) (by decide)

/-! ### DataMonitor: the error latch (C11) -/

set_option maxRecDepth 100000 in
/-- C11, evaluated on the code. From construction, ten failed fluctuation checks
latch the RPM status at `STATUS_ERROR`. A later `Update` with `diff = 5000` brings
the reset timer to 5000, the next `Update` sets the status to `STATUS_DANGER`,
and the `Update` after that, which finds a status other than `STATUS_ERROR` and
an RPM below 8500, sets it to `STATUS_OK`. -/
theorem C11_error_latch_reverts_to_ok :
    (DataMonitor.new.Initialize.run (List.replicate 5 swingTicks).flatten).GetRPMStatus
      = STATUS_ERROR ∧
    (DataMonitor.new.Initialize.run ((List.replicate 5 swingTicks).flatten ++
      [{ r := restReadings, diff := 5000 }])).GetRPMStatus = STATUS_ERROR ∧
    (DataMonitor.new.Initialize.run ((List.replicate 5 swingTicks).flatten ++
      [{ r := restReadings, diff := 5000 }, { r := restReadings, diff := 10 }])).GetRPMStatus
        = STATUS_DANGER ∧
    (DataMonitor.new.Initialize.run ((List.replicate 5 swingTicks).flatten ++
      [{ r := restReadings, diff := 5000 }, { r := restReadings, diff := 10 },
       { r := restReadings, diff := 10 }])).GetRPMStatus = STATUS_OK := by
  decide

/-! ### NeoVVLManager: engine off, cooldown and switchover (C18, C19, C20) -/

theorem SwitchIntakeCam_exhaustFields (s : NeoVVLManager) (isOn : Bool) :
    (s.SwitchIntakeCam isOn).exhaustFields = s.exhaustFields := by
  simp only [NeoVVLManager.SwitchIntakeCam, NeoVVLManager.exhaustFields]
  split_ifs <;> rfl

theorem SwitchExhaustCam_intakeFields (s : NeoVVLManager) (isOn : Bool) :
    (s.SwitchExhaustCam isOn).intakeFields = s.intakeFields := by
  simp only [NeoVVLManager.SwitchExhaustCam, NeoVVLManager.intakeFields]
  split_ifs <;> rfl

theorem SwitchIntakeCam_of_cooldown (s : NeoVVLManager) (isOn : Bool)
    (h : s.isIntakeInCooldown = true) : s.SwitchIntakeCam isOn = s := by
  simp only [NeoVVLManager.SwitchIntakeCam, h, if_true]

theorem SwitchExhaustCam_of_cooldown (s : NeoVVLManager) (isOn : Bool)
    (h : s.isExhaustInCooldown = true) : s.SwitchExhaustCam isOn = s := by
  simp only [NeoVVLManager.SwitchExhaustCam, h, if_true]

theorem SwitchIntakeCam_isIntakeInCooldown (s : NeoVVLManager) (isOn : Bool) :
    (s.SwitchIntakeCam isOn).isIntakeInCooldown = true := by
  simp only [NeoVVLManager.SwitchIntakeCam]
  split_ifs with h1 h2
  · exact h1
  · rfl
  · rfl

theorem SwitchExhaustCam_isExhaustInCooldown (s : NeoVVLManager) (isOn : Bool) :
    (s.SwitchExhaustCam isOn).isExhaustInCooldown = true := by
  simp only [NeoVVLManager.SwitchExhaustCam]
  split_ifs with h1 h2
  · exact h1
  · rfl
  · rfl

/-- C19. While the intake cooldown is active `SwitchIntakeCam(b)` leaves the whole
state unchanged, for either `b`; a `SwitchIntakeCam` call always leaves the
cooldown active, so a second call right after it gives the same state as the
first alone. The same holds for `SwitchExhaustCam`, and neither call changes the
enabled flag, solenoid output, cooldown flag or cooldown timer of the other
camshaft. -/
theorem C19_switch_idempotent_in_cooldown (s : NeoVVLManager) (b b2 : Bool) :
    (s.isIntakeInCooldown = true → s.SwitchIntakeCam b = s) ∧
    (s.SwitchIntakeCam b).SwitchIntakeCam b2 = s.SwitchIntakeCam b ∧
    (s.isExhaustInCooldown = true → s.SwitchExhaustCam b = s) ∧
    (s.SwitchExhaustCam b).SwitchExhaustCam b2 = s.SwitchExhaustCam b ∧
    (s.SwitchIntakeCam b).exhaustFields = s.exhaustFields ∧
    (s.SwitchExhaustCam b).intakeFields = s.intakeFields :=
  ⟨SwitchIntakeCam_of_cooldown s b,
   SwitchIntakeCam_of_cooldown _ b2 (SwitchIntakeCam_isIntakeInCooldown s b),
   SwitchExhaustCam_of_cooldown s b,
   SwitchExhaustCam_of_cooldown _ b2 (SwitchExhaustCam_isExhaustInCooldown s b),
   SwitchIntakeCam_exhaustFields s b, SwitchExhaustCam_intakeFields s b⟩

/-- Right after construction the intake cooldown is active: a call that asks for
the high-RPM lobe changes nothing. -/
theorem C19_witness :
    (NeoVVLManager.new false false blankEEPROM).SwitchIntakeCam true
      = NeoVVLManager.new false false blankEEPROM :=
  (C19_switch_idempotent_in_cooldown (NeoVVLManager.new false false blankEEPROM) true true).1 rfl

theorem actuate_normal_on (s : NeoVVLManager) (r : Readings) (hon : r.IsEngineOn = true) :
    s.actuate ECU_MAP_NORMAL r =
      (s.decideIntake (r.rpm % 65536) INTAKE_RPM_SWITCHOVER_NORMAL).decideExhaust
        (r.rpm % 65536) EXHAUST_RPM_SWITCHOVER_NORMAL := by
  simp only [NeoVVLManager.actuate, hon, if_true, NeoVVLManager.decideIntake,
    NeoVVLManager.decideExhaust]

theorem actuate_race_on (s : NeoVVLManager) (r : Readings) (hon : r.IsEngineOn = true) :
    s.actuate ECU_MAP_RACE r =
      (s.decideIntake (r.rpm % 65536) INTAKE_RPM_SWITCHOVER_RACE).decideExhaust
        (r.rpm % 65536) EXHAUST_RPM_SWITCHOVER_RACE := by
  simp only [NeoVVLManager.actuate, hon, if_true, NeoVVLManager.decideIntake,
    NeoVVLManager.decideExhaust]

theorem actuate_off (s : NeoVVLManager) (m : ECUMaps) (r : Readings)
    (hoff : r.IsEngineOn = false) (hm : m ≠ ECU_MAP_EMERGENCY) : s.actuate m r = s := by
  cases m with
  | ECU_MAP_NORMAL => simp only [NeoVVLManager.actuate, hoff, Bool.false_eq_true, if_false]
  | ECU_MAP_RACE => simp only [NeoVVLManager.actuate, hoff, Bool.false_eq_true, if_false]
  | ECU_MAP_EMERGENCY => exact absurd rfl hm

/-- With the intake cooldown inactive the intake decision leaves the cam enabled
exactly when the RPM is at or above the switchover point. -/
theorem decideIntake_enabled (s : NeoVVLManager) (rpm T : Nat)
    (hcd : s.isIntakeInCooldown = false) :
    ((s.decideIntake rpm T).isIntakeEnabled = true ↔ rpm ≥ T) := by
  simp only [NeoVVLManager.decideIntake, NeoVVLManager.SwitchIntakeCam, hcd]
  by_cases hr : rpm ≥ T
  · have hlt : ¬ rpm < T := Nat.not_lt.mpr hr
    cases he : s.isIntakeEnabled <;> simp [hr, he, hlt]
  · have hlt : rpm < T := Nat.lt_of_not_ge hr
    cases he : s.isIntakeEnabled <;> simp [hr, he, hlt]

theorem decideIntake_exhaustFields (s : NeoVVLManager) (rpm T : Nat) :
    (s.decideIntake rpm T).exhaustFields = s.exhaustFields := by
  simp only [NeoVVLManager.decideIntake]
  split_ifs
  · exact SwitchIntakeCam_exhaustFields s true
  · exact SwitchIntakeCam_exhaustFields s false
  · rfl

/-- With the exhaust cooldown inactive the exhaust decision leaves the cam enabled
exactly when the RPM is at or above the switchover point. -/
theorem decideExhaust_enabled (s : NeoVVLManager) (rpm T : Nat)
    (hcd : s.isExhaustInCooldown = false) :
    ((s.decideExhaust rpm T).isExhaustEnabled = true ↔ rpm ≥ T) := by
  simp only [NeoVVLManager.decideExhaust, NeoVVLManager.SwitchExhaustCam, hcd]
  by_cases hr : rpm ≥ T
  · have hlt : ¬ rpm < T := Nat.not_lt.mpr hr
    cases he : s.isExhaustEnabled <;> simp [hr, he, hlt]
  · have hlt : rpm < T := Nat.lt_of_not_ge hr
    cases he : s.isExhaustEnabled <;> simp [hr, he, hlt]

theorem decideExhaust_intakeFields (s : NeoVVLManager) (rpm T : Nat) :
    (s.decideExhaust rpm T).intakeFields = s.intakeFields := by
  simp only [NeoVVLManager.decideExhaust]
  split_ifs
  · exact SwitchExhaustCam_intakeFields s true
  · exact SwitchExhaustCam_intakeFields s false
  · rfl

/-- Both decisions in a row, each camshaft with its own switchover point and its
own cooldown. -/
theorem decide_both (s : NeoVVLManager) (rpm Ti Te : Nat) :
    (s.isIntakeInCooldown = false →
      (((s.decideIntake rpm Ti).decideExhaust rpm Te).isIntakeEnabled = true ↔ rpm ≥ Ti)) ∧
    (s.isExhaustInCooldown = false →
      (((s.decideIntake rpm Ti).decideExhaust rpm Te).isExhaustEnabled = true ↔ rpm ≥ Te)) := by
  constructor
  · intro hcd
    have h := decideExhaust_intakeFields (s.decideIntake rpm Ti) rpm Te
    simp only [NeoVVLManager.intakeFields, Prod.mk.injEq] at h
    rw [h.1]
    exact decideIntake_enabled s rpm Ti hcd
  · intro hcd
    have h := decideIntake_exhaustFields s rpm Ti
    simp only [NeoVVLManager.exhaustFields, Prod.mk.injEq] at h
    exact decideExhaust_enabled _ rpm Te (h.2.2.1.trans hcd)

theorem camStatus_enabled_iff (b : Bool) :
    ((if b = true then CAM_STATUS_ENABLED else CAM_STATUS_DISABLED) = CAM_STATUS_ENABLED) ↔
      b = true := by
  cases b <;> simp [CAM_STATUS_ENABLED, CAM_STATUS_DISABLED]

/-- C20. On a tick with the engine on and an RPM reading in 0..65535: in effective
mode `ECU_MAP_NORMAL`, after `Update` the intake cam, if its cooldown was
inactive at the start, is enabled iff the RPM is at least 5600, and the exhaust
cam, if its cooldown was inactive, is enabled iff the RPM is at least 5600; in
effective mode `ECU_MAP_RACE` the switchover points are 5500 for the intake and
5700 for the exhaust. Each camshaft is decided from its own cooldown and
switchover point only. -/
theorem C20_switchover_outside_cooldown (s : NeoVVLManager) (aux : AuxManager) (r : Readings)
    (diff : Nat) (hm : s.dataManager = true) (hon : r.IsEngineOn = true)
    (hr : r.rpm ≤ 65535) :
    (aux.GetCurrentECUMap.1 = ECU_MAP_NORMAL →
      (s.isIntakeInCooldown = false →
        ((s.Update aux r diff).GetIntakeCamStatus = CAM_STATUS_ENABLED ↔ r.rpm ≥ 5600)) ∧
      (s.isExhaustInCooldown = false →
        ((s.Update aux r diff).GetExhaustCamStatus = CAM_STATUS_ENABLED ↔ r.rpm ≥ 5600))) ∧
    (aux.GetCurrentECUMap.1 = ECU_MAP_RACE →
      (s.isIntakeInCooldown = false →
        ((s.Update aux r diff).GetIntakeCamStatus = CAM_STATUS_ENABLED ↔ r.rpm ≥ 5500)) ∧
      (s.isExhaustInCooldown = false →
        ((s.Update aux r diff).GetExhaustCamStatus = CAM_STATUS_ENABLED ↔ r.rpm ≥ 5700))) := by
  have h := neovvl_Update_outputs s aux r diff hm
  simp only [NeoVVLManager.outputs, Prod.mk.injEq] at h
  obtain ⟨hi, hx, -, -⟩ := h
  have hmod : r.rpm % 65536 = r.rpm := Nat.mod_eq_of_lt (by omega)
  simp only [NeoVVLManager.GetIntakeCamStatus, NeoVVLManager.GetExhaustCamStatus,
    camStatus_enabled_iff, hi, hx]
  constructor
  · intro hmode
    rw [hmode, actuate_normal_on s r hon, hmod]
    exact decide_both s r.rpm INTAKE_RPM_SWITCHOVER_NORMAL EXHAUST_RPM_SWITCHOVER_NORMAL
  · intro hmode
    rw [hmode, actuate_race_on s r hon, hmod]
    exact decide_both s r.rpm INTAKE_RPM_SWITCHOVER_RACE EXHAUST_RPM_SWITCHOVER_RACE

/-- In race mode at 5600 RPM with no cooldown running: the intake cam (5500) is
enabled and the exhaust cam (5700) is not. -/
theorem C20_witness :
    (idleCams.Update raceState (runningReadings 5600) 10).GetIntakeCamStatus
      = CAM_STATUS_ENABLED ∧
    ¬ (idleCams.Update raceState (runningReadings 5600) 10).GetExhaustCamStatus
      = CAM_STATUS_ENABLED :=
  have h := (C20_switchover_outside_cooldown idleCams raceState (runningReadings 5600) 10
    (by decide) (by decide) (by decide)).2 (by decide)
  ⟨(h.1 (by decide)).mpr (by decide), fun c => absurd ((h.2 (by decide)).mp c) (by decide)⟩

/-- C18 as stated fails on the code. With both cams disabled, no cooldown running
and the engine at rest, an `Update` under the effective map `ECU_MAP_EMERGENCY`
enables both cams and drives both solenoid outputs `HIGH`: the emergency branch
does not test `IsEngineOn()`. -/
theorem C18_counterexample :
    restReadings.IsEngineOn = false ∧
    emergencyArbiter.GetCurrentECUMap.1 = ECU_MAP_EMERGENCY ∧
    idleCams.isIntakeEnabled = false ∧ idleCams.pinIntakeSolenoid = Level.LOW ∧
    idleCams.isExhaustEnabled = false ∧ idleCams.pinExhaustSolenoid = Level.LOW ∧
    (idleCams.Update emergencyArbiter restReadings 10).isIntakeEnabled = true ∧
    (idleCams.Update emergencyArbiter restReadings 10).pinIntakeSolenoid = Level.HIGH ∧
    (idleCams.Update emergencyArbiter restReadings 10).isExhaustEnabled = true ∧
    (idleCams.Update emergencyArbiter restReadings 10).pinExhaustSolenoid = Level.HIGH := by
  decide

/-- C18, amended. For every cam state and every tick on which the engine is off,
`Update` under the effective map `ECU_MAP_NORMAL` or `ECU_MAP_RACE` leaves both
enabled flags and both solenoid outputs exactly as they were. -/
theorem C18_engine_off_no_actuation (s : NeoVVLManager) (aux : AuxManager) (r : Readings)
    (diff : Nat) (hoff : r.IsEngineOn = false)
    (hmode : aux.GetCurrentECUMap.1 = ECU_MAP_NORMAL ∨ aux.GetCurrentECUMap.1 = ECU_MAP_RACE) :
    (s.Update aux r diff).isIntakeEnabled = s.isIntakeEnabled ∧
    (s.Update aux r diff).isExhaustEnabled = s.isExhaustEnabled ∧
    (s.Update aux r diff).pinIntakeSolenoid = s.pinIntakeSolenoid ∧
    (s.Update aux r diff).pinExhaustSolenoid = s.pinExhaustSolenoid := by
  cases hm : s.dataManager with
  | false =>
    have hU : s.Update aux r diff = s := by simp [NeoVVLManager.Update, hm]
    rw [hU]
    exact ⟨rfl, rfl, rfl, rfl⟩
  | true =>
    have hne : aux.GetCurrentECUMap.1 ≠ ECU_MAP_EMERGENCY := by
      rcases hmode with h | h <;> rw [h] <;> decide
    have h := neovvl_Update_outputs s aux r diff hm
    rw [actuate_off s _ r hoff hne] at h
    simpa only [NeoVVLManager.outputs, Prod.mk.injEq] using h

/-- Both cams enabled, race mode, engine at rest: the cams stay enabled. -/
theorem C18_witness :
    ({ idleCams with isIntakeEnabled := true, pinIntakeSolenoid := Level.HIGH }.Update raceState
      restReadings 10).isIntakeEnabled = true :=
  (C18_engine_off_no_actuation
    { idleCams with isIntakeEnabled := true, pinIntakeSolenoid := Level.HIGH } raceState
    restReadings 10 (by decide) (Or.inr (by decide))).1

/-! ### Settings store and cam switch points (C21, C22, C23) -/

/-- C21, evaluated on the code. With 6000 returned by the settings store for the
intake-normal threshold, `LoadCamsSwitchPointsFromEEPROM` stores 6000 in
`_intakeSwitchNormal`; yet in effective mode `ECU_MAP_NORMAL`, with the engine on
at 5700 RPM and no cooldown running, `Update` enables the intake cam: it
compares the RPM with the compiled constant 5600, not with the loaded member. -/
theorem C21_loaded_switch_point_not_used :
    (idleCams.LoadCamsSwitchPointsFromEEPROM
      { blankEEPROM with intakeNormal := 6000 }).intakeSwitchNormal = 6000 ∧
    (idleCams.LoadCamsSwitchPointsFromEEPROM
      { blankEEPROM with intakeNormal := 6000 }).isIntakeInCooldown = false ∧
    AuxManager.new.Initialize.GetCurrentECUMap.1 = ECU_MAP_NORMAL ∧
    (runningReadings 5700).IsEngineOn = true ∧
    ((idleCams.LoadCamsSwitchPointsFromEEPROM { blankEEPROM with intakeNormal := 6000 }).Update
      AuxManager.new.Initialize (runningReadings 5700) 10).GetIntakeCamStatus
        = CAM_STATUS_ENABLED := by
  decide

/-- C22. After `LoadCamsSwitchPointsFromEEPROM` each of the four switch points is
the value returned by the settings store when that value is in 2000..7000 and
its compiled default (5600, 5600, 5500, 5700) otherwise, each decided from its
own stored value; so every switch point lies in 2000..7000, and a stored 1500
gives 5600. The other members are left as they were. -/
theorem C22_switch_points_after_load (s : NeoVVLManager) (e : StoredSwitchPoints) :
    (s.LoadCamsSwitchPointsFromEEPROM e).intakeSwitchNormal =
      (if 2000 ≤ e.intakeNormal ∧ e.intakeNormal ≤ 7000 then e.intakeNormal else 5600) ∧
    (s.LoadCamsSwitchPointsFromEEPROM e).exhaustSwitchNormal =
      (if 2000 ≤ e.exhaustNormal ∧ e.exhaustNormal ≤ 7000 then e.exhaustNormal else 5600) ∧
    (s.LoadCamsSwitchPointsFromEEPROM e).intakeSwitchRace =
      (if 2000 ≤ e.intakeRace ∧ e.intakeRace ≤ 7000 then e.intakeRace else 5500) ∧
    (s.LoadCamsSwitchPointsFromEEPROM e).exhaustSwitchRace =
      (if 2000 ≤ e.exhaustRace ∧ e.exhaustRace ≤ 7000 then e.exhaustRace else 5700) ∧
    (2000 ≤ (s.LoadCamsSwitchPointsFromEEPROM e).intakeSwitchNormal ∧
      (s.LoadCamsSwitchPointsFromEEPROM e).intakeSwitchNormal ≤ 7000) ∧
    (2000 ≤ (s.LoadCamsSwitchPointsFromEEPROM e).exhaustSwitchNormal ∧
      (s.LoadCamsSwitchPointsFromEEPROM e).exhaustSwitchNormal ≤ 7000) ∧
    (2000 ≤ (s.LoadCamsSwitchPointsFromEEPROM e).intakeSwitchRace ∧
      (s.LoadCamsSwitchPointsFromEEPROM e).intakeSwitchRace ≤ 7000) ∧
    (2000 ≤ (s.LoadCamsSwitchPointsFromEEPROM e).exhaustSwitchRace ∧
      (s.LoadCamsSwitchPointsFromEEPROM e).exhaustSwitchRace ≤ 7000) ∧
    (s.LoadCamsSwitchPointsFromEEPROM { e with intakeNormal := 1500 }).intakeSwitchNormal
      = 5600 ∧
    (s.LoadCamsSwitchPointsFromEEPROM e).outputs = s.outputs ∧
    (s.LoadCamsSwitchPointsFromEEPROM e).intakeFields = s.intakeFields ∧
    (s.LoadCamsSwitchPointsFromEEPROM e).exhaustFields = s.exhaustFields := by
  simp only [NeoVVLManager.LoadCamsSwitchPointsFromEEPROM, INTAKE_RPM_SWITCHOVER_NORMAL,
    EXHAUST_RPM_SWITCHOVER_NORMAL, INTAKE_RPM_SWITCHOVER_RACE, EXHAUST_RPM_SWITCHOVER_RACE,
    NeoVVLManager.outputs, NeoVVLManager.intakeFields, NeoVVLManager.exhaustFields]
  refine ⟨?_, ?_, ?_, ?_, ?_, ?_, ?_, ?_, ?_, ?_, ?_, ?_⟩ <;>
    first
    | trivial
    | rfl
    | (split_ifs <;> first | rfl | omega)

/-- What `SaveToEEPROM` leaves at `addr` and `addr + 1` are the two bytes of the
value: decoded low byte first they give the value back. -/
theorem SaveToEEPROM_int16_bytes (m : EEPROM) (addr : Nat) (v : Int)
    (hv : -32768 ≤ v ∧ v ≤ 32767) :
    int16OfBytes ((EEPROMManager.SaveToEEPROM_int16 m addr v).2.read addr)
      ((EEPROMManager.SaveToEEPROM_int16 m addr v).2.read (addr + 1)) = v := by
  simp only [EEPROMManager.SaveToEEPROM_int16, EEPROM.read, EEPROM.write, int16OfBytes,
    toUInt16, toInt16, Nat.add_zero, if_true, Nat.succ_ne_self, if_false,
    show addr ≠ addr + 1 by omega]
  have h1 : ((v % 65536).toNat : Int) = v % 65536 := Int.toNat_of_nonneg (by omega)
  push_cast
  split_ifs <;> omega

/-- The value returned by `LoadInt16FromEEPROM` does not depend on the EEPROM. -/
theorem LoadInt16FromEEPROM_eq (m : EEPROM) (addr : Nat) (u : Int) :
    EEPROMManager.LoadInt16FromEEPROM m addr u = u := rfl

/-- C23, evaluated on the code. After `SaveToEEPROM(ADDR_INTAKE_RPM_SWITCHOVER_NORMAL,
6000)` the two bytes at the address are those of 6000 (0x70, 0x17), but
`LoadInt16FromEEPROM` at the same address returns what its unassigned local
union held, here 0, not 6000. -/
theorem C23_load_ignores_stored_bytes :
    (EEPROMManager.SaveToEEPROM_int16 EEPROM.erased ADDR_INTAKE_RPM_SWITCHOVER_NORMAL 6000).2.read
      ADDR_INTAKE_RPM_SWITCHOVER_NORMAL = 112 ∧
    (EEPROMManager.SaveToEEPROM_int16 EEPROM.erased ADDR_INTAKE_RPM_SWITCHOVER_NORMAL 6000).2.read
      (ADDR_INTAKE_RPM_SWITCHOVER_NORMAL + 1) = 23 ∧
    int16OfBytes 112 23 = 6000 ∧
    EEPROMManager.LoadInt16FromEEPROM
      (EEPROMManager.SaveToEEPROM_int16 EEPROM.erased ADDR_INTAKE_RPM_SWITCHOVER_NORMAL 6000).2
      ADDR_INTAKE_RPM_SWITCHOVER_NORMAL 0 = 0 := by
  decide

/-! ### AuxManager: pending command and control button (C24, C25, C26) -/

/-- C26. The call `GetNextCommand()` returns the pending command and leaves the
pending slot at `COMMAND_NONE`, changing no other member; a second call right
after it returns `COMMAND_NONE`. -/
theorem C26_GetNextCommand (s : AuxManager) :
    s.GetNextCommand.1 = s.nextCommand ∧
    s.GetNextCommand.2 = { s with nextCommand := COMMAND_NONE } ∧
    s.GetNextCommand.2.GetNextCommand.1 = COMMAND_NONE :=
  ⟨rfl, rfl, rfl⟩

theorem selectMap_buttonFields (s : AuxManager) (io : AuxInputs) (diff : Nat) :
    (s.selectMap io diff).1.buttonFields = s.buttonFields := by
  simp only [AuxManager.selectMap, AuxManager.buttonFields]
  split_ifs <;> rfl

theorem overrideMap_buttonFields (s : AuxManager) (newMap : ECUMaps) (mon : DataMonitor) :
    (s.overrideMap newMap mon).buttonFields = s.buttonFields := by
  simp only [AuxManager.overrideMap, AuxManager.SwitchMaps, AuxManager.buttonFields]
  split_ifs <;> rfl

theorem updateAfrGauge_buttonFields (s : AuxManager) (r : Readings) :
    (s.updateAfrGauge r).buttonFields = s.buttonFields := by
  simp only [AuxManager.updateAfrGauge, AuxManager.SwitchAFRGaugePower, AuxManager.buttonFields]
  split_ifs <;> rfl

theorem updateLambda_buttonFields (s : AuxManager) (mon : DataMonitor) (r : Readings) :
    (s.updateLambda mon r).buttonFields = s.buttonFields := by
  simp only [AuxManager.updateLambda, AuxManager.SetLambdaEmulation, AuxManager.buttonFields]
  split_ifs <;> rfl

theorem buttonFields_eq_iff (s1 s : AuxManager) :
    s1.buttonFields = s.buttonFields ↔
      s1.nextCommand = s.nextCommand ∧ s1.controlButtonTimer = s.controlButtonTimer ∧
      s1.controlButtonCooldownTimer = s.controlButtonCooldownTimer ∧
      s1.isControlButtonInCooldown = s.isControlButtonInCooldown := by
  simp only [AuxManager.buttonFields, Prod.mk.injEq]

/-- The control-button section reads and writes the button members only. -/
theorem updateControlButton_congr (s s1 : AuxManager) (io : AuxInputs) (diff : Nat)
    (h : s1.buttonFields = s.buttonFields) :
    (s1.updateControlButton io diff).buttonFields
      = (s.updateControlButton io diff).buttonFields := by
  obtain ⟨h1, h2, h3, h4⟩ := (buttonFields_eq_iff _ _).mp h
  simp only [AuxManager.updateControlButton, h2, h3, h4]
  split_ifs <;> (rw [buttonFields_eq_iff]; refine ⟨?_, ?_, ?_, ?_⟩ <;> first | rfl | assumption)

theorem aux_Update_buttonFields (s : AuxManager) (mon : DataMonitor) (r : Readings)
    (io : AuxInputs) (diff : Nat) (hm : s.dataManager = true) (hd : s.dataMonitor = true) :
    (s.Update mon r io diff).buttonFields = (s.updateControlButton io diff).buttonFields := by
  simp only [AuxManager.Update, hm, hd, Bool.not_true, Bool.or_self, Bool.false_eq_true, if_false]
  apply updateControlButton_congr
  rw [updateLambda_buttonFields, updateAfrGauge_buttonFields, overrideMap_buttonFields,
    selectMap_buttonFields]

/-- C24. For an initialised arbiter: with the control-button lockout inactive and
the button read `HIGH`, the `Update` that finds the hold timer at 2000 or more
sets the pending command to `COMMAND_CHANGE_SCREEN`, the hold timer to 0 and the
lockout active. With the lockout active, whatever the button level, `Update`
leaves the pending command and the hold timer as they were, and the lockout is
inactive afterwards iff the lockout timer was found at 2000 or more. -/
theorem C24_control_button_lockout (s : AuxManager) (mon : DataMonitor) (r : Readings)
    (io : AuxInputs) (diff : Nat) (hm : s.dataManager = true) (hd : s.dataMonitor = true) :
    (s.isControlButtonInCooldown = false → io.controlButton = Level.HIGH →
      2000 ≤ s.controlButtonTimer →
        (s.Update mon r io diff).nextCommand = COMMAND_CHANGE_SCREEN ∧
        (s.Update mon r io diff).controlButtonTimer = 0 ∧
        (s.Update mon r io diff).isControlButtonInCooldown = true) ∧
    (s.isControlButtonInCooldown = true →
        (s.Update mon r io diff).nextCommand = s.nextCommand ∧
        (s.Update mon r io diff).controlButtonTimer = s.controlButtonTimer ∧
        ((s.Update mon r io diff).isControlButtonInCooldown = false ↔
          2000 ≤ s.controlButtonCooldownTimer)) := by
  obtain ⟨h1, h2, -, h4⟩ :=
    (buttonFields_eq_iff _ _).mp (aux_Update_buttonFields s mon r io diff hm hd)
  rw [h1, h2, h4]
  constructor
  · intro hc hb ht
    simp only [AuxManager.updateControlButton, hc, hb, INTERVAL_SWITCH_TFT_MODE, ge_iff_le, ht,
      Bool.not_false, if_true]
    refine ⟨?_, ?_, ?_⟩ <;> trivial
  · intro hc
    simp only [AuxManager.updateControlButton, hc, INTERVAL_COOLDOWN, ge_iff_le,
      Bool.not_true, Bool.false_eq_true, if_false]
    split_ifs with ht
    · exact ⟨rfl, rfl, iff_of_true rfl ht⟩
    · exact ⟨rfl, rfl, iff_of_false (by simp [hc]) ht⟩

set_option maxRecDepth 100000 in
/-- From construction: the button held for 1900 ms and 200 ms more (hold timer
2100), then one `Update` with the button still held emits
`COMMAND_CHANGE_SCREEN`, zeroes the hold timer and activates the lockout; a
further `Update` with the button released, and one with it held, leave the
pending command and the hold timer alone; after the lockout timer has reached
2000 the lockout is released. -/
theorem C24_witness :
    ((AuxManager.new.Initialize.run
        [buttonTick Level.HIGH 1900, buttonTick Level.HIGH 200, buttonTick Level.HIGH 10]).nextCommand
        = COMMAND_CHANGE_SCREEN ∧
      (AuxManager.new.Initialize.run
        [buttonTick Level.HIGH 1900, buttonTick Level.HIGH 200,
          buttonTick Level.HIGH 10]).controlButtonTimer = 0 ∧
      (AuxManager.new.Initialize.run
        [buttonTick Level.HIGH 1900, buttonTick Level.HIGH 200,
          buttonTick Level.HIGH 10]).isControlButtonInCooldown = true) ∧
    ((AuxManager.new.Initialize.run
        [buttonTick Level.HIGH 1900, buttonTick Level.HIGH 200, buttonTick Level.HIGH 10,
          buttonTick Level.LOW 2000, buttonTick Level.HIGH 10]).isControlButtonInCooldown = false) :=
  ⟨(C24_control_button_lockout
      (AuxManager.new.Initialize.run [buttonTick Level.HIGH 1900, buttonTick Level.HIGH 200])
      (buttonTick Level.HIGH 10).mon (buttonTick Level.HIGH 10).r (buttonTick Level.HIGH 10).io 10
      (by decide) (by decide)).1 (by decide) (by decide) (by decide),
   ((C24_control_button_lockout
      (AuxManager.new.Initialize.run [buttonTick Level.HIGH 1900, buttonTick Level.HIGH 200,
        buttonTick Level.HIGH 10, buttonTick Level.LOW 2000])
      (buttonTick Level.HIGH 10).mon (buttonTick Level.HIGH 10).r (buttonTick Level.HIGH 10).io 10
      (by decide) (by decide)).2 (by decide)).2.2.mpr (by decide)⟩

set_option maxRecDepth 100000 in
/-- C25, evaluated on the code. From construction, with the lockout inactive
throughout: the button is read `HIGH` by an `Update` of 1900 ms and by one of
200 ms, which leaves the hold timer at 2100 and no pending command; the next
`Update` reads the button released and sets the pending command to
`COMMAND_CHANGE_BRIGHTNESS`, although the accumulated hold time is 2000 ms or
more: the release branch tests only that the hold timer is above 0. -/
theorem C25_release_after_long_hold_emits_brightness :
    (AuxManager.new.Initialize.run
      [buttonTick Level.HIGH 1900, buttonTick Level.HIGH 200]).controlButtonTimer = 2100 ∧
    (AuxManager.new.Initialize.run
      [buttonTick Level.HIGH 1900, buttonTick Level.HIGH 200]).isControlButtonInCooldown = false ∧
    (AuxManager.new.Initialize.run
      [buttonTick Level.HIGH 1900, buttonTick Level.HIGH 200]).nextCommand = COMMAND_NONE ∧
    (AuxManager.new.Initialize.run
      [buttonTick Level.HIGH 1900, buttonTick Level.HIGH 200,
        buttonTick Level.LOW 10]).nextCommand = COMMAND_CHANGE_BRIGHTNESS ∧
    (AuxManager.new.Initialize.run
      [buttonTick Level.HIGH 1900, buttonTick Level.HIGH 200,
        buttonTick Level.LOW 10]).isControlButtonInCooldown = false := by
  decide

/-! ### The scan loop: Emergency and the limiter (C27, C28, C29) -/

theorem system_run_append_one (p : System) (ts : List SysTick) (t : SysTick) :
    p.run (ts ++ [t]) = (p.run ts).tick t := by
  simp [System.run, List.foldl_append]

/-- A latched `STATUS_ERROR` is followed by `STATUS_ERROR` or by `STATUS_DANGER`. -/
theorem monitor_Update_from_error (s : DataMonitor) (r : Readings) (diff : Nat)
    (hm : s.dataManager = true) (he : s.rpmStatus = STATUS_ERROR) :
    (s.Update r diff).rpmStatus = STATUS_ERROR ∨ (s.Update r diff).rpmStatus = STATUS_DANGER := by
  have hf := (rpmFields_eq_iff _ _).mp (monitor_Update_rpmFields s r diff hm)
  rw [hf.2.1]
  simp only [DataMonitor.updateRPM, he, ne_eq, not_true_eq_false, if_false]
  split_ifs
  · exact Or.inr rfl
  · exact Or.inl rfl

theorem selectMap_pointers (s : AuxManager) (io : AuxInputs) (diff : Nat) :
    (s.selectMap io diff).1.dataManager = s.dataManager ∧
    (s.selectMap io diff).1.dataMonitor = s.dataMonitor := by
  simp only [AuxManager.selectMap]
  split_ifs <;> exact ⟨rfl, rfl⟩

theorem overrideMap_pointers (s : AuxManager) (newMap : ECUMaps) (mon : DataMonitor) :
    (s.overrideMap newMap mon).dataManager = s.dataManager ∧
    (s.overrideMap newMap mon).dataMonitor = s.dataMonitor := by
  simp only [AuxManager.overrideMap, AuxManager.SwitchMaps]
  split_ifs <;> exact ⟨rfl, rfl⟩

/-- Pointers of the arbiter after `Update`. -/
theorem aux_Update_pointers (s : AuxManager) (mon : DataMonitor) (r : Readings)
    (io : AuxInputs) (diff : Nat) (hm : s.dataManager = true) (hd : s.dataMonitor = true) :
    (s.Update mon r io diff).dataManager = true ∧ (s.Update mon r io diff).dataMonitor = true := by
  have hf := aux_Update_mapFields s mon r io diff hm hd
  simp only [AuxManager.mapFields, Prod.mk.injEq] at hf
  obtain ⟨a, b, -⟩ := hf
  have ho := overrideMap_pointers (s.selectMap io diff).1 (s.selectMap io diff).2 mon
  have hs := selectMap_pointers s io diff
  rw [AuxManager.mapPhase] at a b
  exact ⟨a.trans (ho.1.trans (hs.1.trans hm)), b.trans (ho.2.trans (hs.2.trans hd))⟩

/-- One tick of the scan loop keeps the pointers set and keeps the stored map at
`ECU_MAP_EMERGENCY` exactly when the RPM status is `STATUS_ERROR`. -/
theorem system_tick_emergency (p : System) (t : SysTick)
    (hmm : p.monitor.dataManager = true) (hm : p.arbiter.dataManager = true)
    (hd : p.arbiter.dataMonitor = true)
    (hi : p.arbiter.currentECUMap = ECU_MAP_EMERGENCY ↔ p.monitor.rpmStatus = STATUS_ERROR) :
    (p.tick t).monitor.dataManager = true ∧ (p.tick t).arbiter.dataManager = true ∧
    (p.tick t).arbiter.dataMonitor = true ∧
    ((p.tick t).arbiter.currentECUMap = ECU_MAP_EMERGENCY ↔
      (p.tick t).monitor.rpmStatus = STATUS_ERROR) := by
  have hp := aux_Update_pointers p.arbiter (p.monitor.Update t.r t.diff) t.r t.io t.diff hm hd
  refine ⟨(monitor_Update_dataManager _ _ _).trans hmm, hp.1, hp.2, ?_⟩
  simp only [System.tick]
  rw [aux_Update_currentECUMap _ _ _ _ _ hm hd]
  simp only [DataMonitor.GetRPMStatus]
  by_cases he : (p.monitor.Update t.r t.diff).rpmStatus = STATUS_ERROR
  · simp only [he, if_true]
  · simp only [he, if_false, iff_false]
    split_ifs with h1 h2 h3
    · decide
    · intro hc
      rcases monitor_Update_from_error p.monitor t.r t.diff hmm (hi.mp hc) with h | h
      · exact he h
      · exact h1 (Or.inl h)
    · decide
    · decide

/-- Invariant of the scan loop from the initial state. -/
theorem system_run_emergency (ts : List SysTick) :
    (System.init.run ts).monitor.dataManager = true ∧
    (System.init.run ts).arbiter.dataManager = true ∧
    (System.init.run ts).arbiter.dataMonitor = true ∧
    ((System.init.run ts).arbiter.currentECUMap = ECU_MAP_EMERGENCY ↔
      (System.init.run ts).monitor.rpmStatus = STATUS_ERROR) := by
  induction ts using List.reverseRecOn with
  | nil => decide
  | append_singleton ts t ih =>
    rw [system_run_append_one]
    exact system_tick_emergency _ t ih.1 ih.2.1 ih.2.2.1 ih.2.2.2

/-- C27. For every run of ticks from the initial state, each tick being
`DataMonitor::Update` followed by `AuxManager::Update`, and every further tick
`t`: the stored ECU map after the tick is `ECU_MAP_EMERGENCY` iff
`GetRPMStatus()` after the monitor update of that tick is `STATUS_ERROR`. So
is it at the end of every run. -/
theorem C27_emergency_iff_rpm_error (ts : List SysTick) (t : SysTick) :
    (((System.init.run ts).tick t).arbiter.currentECUMap = ECU_MAP_EMERGENCY ↔
      ((System.init.run ts).monitor.Update t.r t.diff).GetRPMStatus = STATUS_ERROR) ∧
    ((System.init.run ts).arbiter.currentECUMap = ECU_MAP_EMERGENCY ↔
      (System.init.run ts).monitor.GetRPMStatus = STATUS_ERROR) := by
  have h := system_run_emergency ts
  exact ⟨(system_tick_emergency _ t h.1 h.2.1 h.2.2.1 h.2.2.2).2.2.2, h.2.2.2⟩

set_option maxRecDepth 100000 in
/-- C28, evaluated on the code. In the initial state the stored map is
`ECU_MAP_NORMAL` and the limiter flag is clear; one tick with the engine at 9000
RPM and the map switch low gives the RPM status `STATUS_DANGER` and sets the
limiter flag, the stored map being `ECU_MAP_NORMAL` before and after. -/
theorem C28_limiter_set_in_normal_mode :
    System.init.arbiter.currentECUMap = ECU_MAP_NORMAL ∧
    System.init.arbiter.isLimiterEnabled = false ∧
    (System.init.run [runningTick 9000 pinsLow 10]).monitor.GetRPMStatus = STATUS_DANGER ∧
    (System.init.run [runningTick 9000 pinsLow 10]).arbiter.isLimiterEnabled = true ∧
    (System.init.run [runningTick 9000 pinsLow 10]).arbiter.currentECUMap = ECU_MAP_NORMAL := by
  decide

set_option maxRecDepth 100000 in
/-- C29, evaluated on the code. From the initial state, a tick at 9000 RPM with the
map switch low sets the limiter flag without starting a cooldown; the next
tick, at 3000 RPM with the map switch high, stores `ECU_MAP_RACE` and drives the
map-select output `HIGH` while the limiter flag is still set. -/
theorem C29_limiter_set_with_race_output :
    (System.init.run [runningTick 9000 pinsLow 10]).arbiter.isLimiterEnabled = true ∧
    (System.init.run [runningTick 9000 pinsLow 10]).arbiter.isMapSwitchInCooldown = false ∧
    (System.init.run [runningTick 9000 pinsLow 10, runningTick 3000 pinsRace 10]).arbiter.isLimiterEnabled
      = true ∧
    (System.init.run [runningTick 9000 pinsLow 10, runningTick 3000 pinsRace 10]).arbiter.currentECUMap
      = ECU_MAP_RACE ∧
    (System.init.run [runningTick 9000 pinsLow 10, runningTick 3000 pinsRace 10]).arbiter.pinMapSwitch
      = Level.HIGH := by
  decide

/-! ### AuxManager: time between map changes (C30) -/

theorem run_append (s : AuxManager) (xs ys : List AuxTick) :
    s.run (xs ++ ys) = (s.run xs).run ys := by
  simp [AuxManager.run, List.foldl_append]

theorem total_append (xs ys : List AuxTick) :
    AuxTick.total (xs ++ ys) = AuxTick.total xs + AuxTick.total ys := by
  simp [AuxTick.total]

theorem add32_le (a b : Nat) : add32 a b ≤ a + b :=
  Nat.mod_le _ _

/-- The override never touches the cooldown timer; it leaves the cooldown flag
alone when it does not change the map and sets it when it does. -/
theorem overrideMap_cooldown (s : AuxManager) (newMap : ECUMaps) (mon : DataMonitor) :
    (s.overrideMap newMap mon).mapSwitchCooldownTimer = s.mapSwitchCooldownTimer ∧
    ((s.overrideMap newMap mon).currentECUMap = s.currentECUMap →
      (s.overrideMap newMap mon).isMapSwitchInCooldown = s.isMapSwitchInCooldown) ∧
    ((s.overrideMap newMap mon).currentECUMap ≠ s.currentECUMap →
      (s.overrideMap newMap mon).isMapSwitchInCooldown = true) := by
  simp only [AuxManager.overrideMap, AuxManager.SwitchMaps]
  split_ifs <;> simp_all

/-- Cooldown members after `Update`, read off the map-selection part. -/
theorem aux_Update_cooldown (s : AuxManager) (mon : DataMonitor) (r : Readings)
    (io : AuxInputs) (diff : Nat) (hm : s.dataManager = true) (hd : s.dataMonitor = true) :
    (s.Update mon r io diff).currentECUMap = (s.mapPhase mon io diff).currentECUMap ∧
    (s.Update mon r io diff).isMapSwitchInCooldown = (s.mapPhase mon io diff).isMapSwitchInCooldown ∧
    (s.Update mon r io diff).mapSwitchCooldownTimer
      = (s.mapPhase mon io diff).mapSwitchCooldownTimer := by
  have hf := aux_Update_mapFields s mon r io diff hm hd
  simp only [AuxManager.mapFields, Prod.mk.injEq] at hf
  obtain ⟨-, -, c, d, -, f, -⟩ := hf
  exact ⟨c, d, f⟩

/-- An `Update` keeps the cooldown timer at 0 while no cooldown is active. -/
theorem timerIdle_step (s : AuxManager) (mon : DataMonitor) (r : Readings) (io : AuxInputs)
    (diff : Nat) (h : s.timerIdle) : (s.Update mon r io diff).timerIdle := by
  obtain ⟨hm, hd, h0⟩ := h
  obtain ⟨-, hc, ht⟩ := aux_Update_cooldown s mon r io diff hm hd
  obtain ⟨hp1, hp2⟩ := aux_Update_pointers s mon r io diff hm hd
  refine ⟨hp1, hp2, ?_⟩
  rw [hc, ht, AuxManager.mapPhase]
  obtain ⟨o1, o2, o3⟩ := overrideMap_cooldown (s.selectMap io diff).1 (s.selectMap io diff).2 mon
  rw [o1]
  intro hfalse
  by_cases hch : ((s.selectMap io diff).1.overrideMap (s.selectMap io diff).2 mon).currentECUMap
      = (s.selectMap io diff).1.currentECUMap
  · rw [o2 hch] at hfalse
    cases hcd : s.isMapSwitchInCooldown with
    | false => rw [selectMap_of_not_cooldown s io diff hcd]; exact h0 hcd
    | true =>
      by_cases hexp : (if s.isLimiterEnabled = true then RPM_LIMITER_HYSTERESIS
          else MAP_SWITCH_COOLDOWN) ≤ s.mapSwitchCooldownTimer
      · rw [selectMap_of_expired s io diff hcd hexp]
      · rw [selectMap_of_running s io diff hcd (Nat.not_le.mp hexp)] at hfalse
        exact absurd (hcd.symm.trans hfalse) (by decide)
  · rw [o3 hch] at hfalse
    exact absurd hfalse (by decide)

/-- Every state reached from construction and initialisation has its pointers set
and its cooldown timer at 0 while no cooldown is active. -/
theorem timerIdle_run (ts : List AuxTick) : (AuxManager.new.Initialize.run ts).timerIdle := by
  induction ts using List.reverseRecOn with
  | nil => exact ⟨rfl, rfl, fun _ => rfl⟩
  | append_singleton ts t ih =>
    rw [run_append_one]
    exact timerIdle_step _ _ _ _ _ ih

/-- A change of map made by an `Update` on which no override applies: the cooldown
was inactive before it, is active after it, and the timer is untouched. -/
theorem calm_change (s : AuxManager) (t : AuxTick) (hm : s.dataManager = true)
    (hd : s.dataMonitor = true) (hcalm : t.calm)
    (hch : (s.Update t.mon t.r t.io t.diff).currentECUMap ≠ s.currentECUMap) :
    s.isMapSwitchInCooldown = false ∧
    (s.Update t.mon t.r t.io t.diff).isMapSwitchInCooldown = true ∧
    (s.Update t.mon t.r t.io t.diff).mapSwitchCooldownTimer = s.mapSwitchCooldownTimer := by
  obtain ⟨c1, c2, c3, c4⟩ := hcalm
  have hcd : s.isMapSwitchInCooldown = false := by
    cases hcd : s.isMapSwitchInCooldown with
    | false => rfl
    | true =>
      exfalso
      apply hch
      rw [aux_Update_currentECUMap s t.mon t.r t.io t.diff hm hd]
      simp only [c1, c2, c3, c4, hcd, or_self, if_false, if_true]
  obtain ⟨hc, hcc, ht⟩ := aux_Update_cooldown s t.mon t.r t.io t.diff hm hd
  rw [hc] at hch
  rw [hcc, ht]
  rw [AuxManager.mapPhase, selectMap_of_not_cooldown s t.io t.diff hcd] at *
  obtain ⟨o1, -, o3⟩ := overrideMap_cooldown s
    (if t.io.mapsSwitchButton = Level.HIGH then ECU_MAP_RACE else ECU_MAP_NORMAL) t.mon
  exact ⟨hcd, o3 hch, o1⟩

/-- One `Update` inside the cooldown that follows a change of map: with the limiter
flag clear and the map not changed by this `Update`, the cooldown is either
still active with its timer grown by `diff` at most, or it is over and 1000 ms
or more had accumulated. -/
theorem cooling_step (s : AuxManager) (S : Nat) (t : AuxTick) (h : s.cooling S)
    (hl : s.isLimiterEnabled = false)
    (hst : (s.Update t.mon t.r t.io t.diff).currentECUMap = s.currentECUMap) :
    (s.Update t.mon t.r t.io t.diff).cooling (S + t.diff) := by
  obtain ⟨hm, hd, hQ⟩ := h
  obtain ⟨hc, hcc, ht⟩ := aux_Update_cooldown s t.mon t.r t.io t.diff hm hd
  obtain ⟨hp1, hp2⟩ := aux_Update_pointers s t.mon t.r t.io t.diff hm hd
  refine ⟨hp1, hp2, ?_⟩
  rw [hc] at hst
  rw [hcc, ht]
  rw [AuxManager.mapPhase] at *
  obtain ⟨o1, o2, -⟩ :=
    overrideMap_cooldown (s.selectMap t.io t.diff).1 (s.selectMap t.io t.diff).2 t.mon
  rw [← selectMap_fst_currentECUMap s t.io t.diff] at hst
  rw [o1, o2 hst]
  rcases hQ with ⟨hcd, hle⟩ | ⟨hcd, hle⟩
  · by_cases hexp : (if s.isLimiterEnabled = true then RPM_LIMITER_HYSTERESIS
        else MAP_SWITCH_COOLDOWN) ≤ s.mapSwitchCooldownTimer
    · rw [selectMap_of_expired s t.io t.diff hcd hexp]
      right
      simp only [hl, Bool.false_eq_true, if_false] at hexp
      exact ⟨rfl, by omega⟩
    · rw [selectMap_of_running s t.io t.diff hcd (Nat.not_le.mp hexp)]
      left
      have := add32_le s.mapSwitchCooldownTimer t.diff
      exact ⟨hcd, by show add32 s.mapSwitchCooldownTimer t.diff ≤ S + t.diff; omega⟩
  · rw [selectMap_of_not_cooldown s t.io t.diff hcd]
    right
    exact ⟨hcd, by omega⟩

theorem limiterNeverSet_cons (s : AuxManager) (t : AuxTick) (ts : List AuxTick) :
    s.limiterNeverSet (t :: ts) = true ↔
      s.isLimiterEnabled = false ∧
        (s.Update t.mon t.r t.io t.diff).limiterNeverSet ts = true := by
  simp [AuxManager.limiterNeverSet]

theorem limiterNeverSet_head (s : AuxManager) (ts : List AuxTick)
    (h : s.limiterNeverSet ts = true) : s.isLimiterEnabled = false := by
  cases ts with
  | nil => simpa [AuxManager.limiterNeverSet] using h
  | cons t ts => exact ((limiterNeverSet_cons s t ts).mp h).1

theorem limiterNeverSet_append (xs : List AuxTick) :
    ∀ (s : AuxManager) (ys : List AuxTick), s.limiterNeverSet (xs ++ ys) = true →
      s.limiterNeverSet xs = true ∧ (s.run xs).limiterNeverSet ys = true := by
  induction xs with
  | nil =>
    intro s ys h
    refine ⟨?_, h⟩
    have := limiterNeverSet_head s _ h
    simp [AuxManager.limiterNeverSet, this]
  | cons x xs ih =>
    intro s ys h
    rw [List.cons_append, limiterNeverSet_cons] at h
    obtain ⟨h1, h2⟩ := ih _ ys h.2
    exact ⟨(limiterNeverSet_cons s x xs).mpr ⟨h.1, h1⟩, by rwa [run_cons]⟩

theorem mapSteady_cons (s : AuxManager) (t : AuxTick) (ts : List AuxTick) :
    s.mapSteady (t :: ts) = true ↔
      (s.Update t.mon t.r t.io t.diff).currentECUMap = s.currentECUMap ∧
        (s.Update t.mon t.r t.io t.diff).mapSteady ts = true := by
  simp [AuxManager.mapSteady]

/-- Through a run that sets no limiter flag and changes no map, the cooldown that
follows a change of map is either still active or 1000 ms or more have passed. -/
theorem cooling_run (ts : List AuxTick) :
    ∀ (s : AuxManager) (S : Nat), s.cooling S → s.limiterNeverSet ts = true →
      s.mapSteady ts = true → (s.run ts).cooling (S + AuxTick.total ts) := by
  induction ts with
  | nil => intro s S h _ _; simpa [AuxManager.run, AuxTick.total] using h
  | cons t ts ih =>
    intro s S h hl hs
    rw [limiterNeverSet_cons] at hl
    rw [mapSteady_cons] at hs
    have := ih _ _ (cooling_step s S t h hl.1 hs.1) hl.2 hs.2
    rw [run_cons, total_cons]
    rwa [Nat.add_assoc] at this

/-- A change of map made by an `Update` that found no cooldown running, whatever
made it: the cooldown is active after it and the timer is untouched. -/
theorem change_outside_cooldown (s : AuxManager) (t : AuxTick) (hm : s.dataManager = true)
    (hd : s.dataMonitor = true) (hcd : s.isMapSwitchInCooldown = false)
    (hch : (s.Update t.mon t.r t.io t.diff).currentECUMap ≠ s.currentECUMap) :
    (s.Update t.mon t.r t.io t.diff).isMapSwitchInCooldown = true ∧
    (s.Update t.mon t.r t.io t.diff).mapSwitchCooldownTimer = s.mapSwitchCooldownTimer := by
  obtain ⟨hc, hcc, ht⟩ := aux_Update_cooldown s t.mon t.r t.io t.diff hm hd
  rw [hc] at hch
  rw [hcc, ht]
  rw [AuxManager.mapPhase, selectMap_of_not_cooldown s t.io t.diff hcd] at *
  obtain ⟨o1, -, o3⟩ := overrideMap_cooldown s
    (if t.io.mapsSwitchButton = Level.HIGH then ECU_MAP_RACE else ECU_MAP_NORMAL) t.mon
  exact ⟨o3 hch, o1⟩

set_option maxRecDepth 100000 in
/-- C30 as stated fails on the code. From the initial state, an `Update` with the
map switch high stores `ECU_MAP_RACE`, and the next one, 10 ms later, finds the
gearbox-oil temperature status at `STATUS_DANGER` and stores `ECU_MAP_NORMAL`:
the safety override is applied after the cooldown test, on every `Update`. The
limiter flag is never set in this run. -/
theorem C30_counterexample :
    AuxManager.new.Initialize.limiterNeverSet
      [restTick STATUS_OK pinsRace 10, oilDangerTick pinsRace 10] = true ∧
    AuxManager.new.Initialize.currentECUMap = ECU_MAP_NORMAL ∧
    (AuxManager.new.Initialize.run [restTick STATUS_OK pinsRace 10]).currentECUMap
      = ECU_MAP_RACE ∧
    (AuxManager.new.Initialize.run [restTick STATUS_OK pinsRace 10]).isMapSwitchInCooldown
      = true ∧
    (AuxManager.new.Initialize.run
      [restTick STATUS_OK pinsRace 10, oilDangerTick pinsRace 10]).currentECUMap
      = ECU_MAP_NORMAL ∧
    ¬ 1000 ≤ AuxTick.total ([] ++ [oilDangerTick pinsRace 10]) := by
  decide

set_option maxRecDepth 100000 in
/-- A change of map made while a cooldown is running does not restart the cooldown
timer: `SwitchMaps` sets the cooldown flag and leaves the timer alone. From the
initial state, the oil-temperature override changes the map 1000 ms into the
cooldown started by a manual change and leaves the timer at 1000; the cooldown
runs out on the next `Update` and the one after it stores `ECU_MAP_RACE` again from
the switch, 20 ms after the change before it. -/
theorem change_in_cooldown_keeps_timer :
    (AuxManager.new.Initialize.run
      [restTick STATUS_OK pinsRace 10, restTick STATUS_OK pinsRace 990]).currentECUMap
      = ECU_MAP_RACE ∧
    (AuxManager.new.Initialize.run
      [restTick STATUS_OK pinsRace 10, restTick STATUS_OK pinsRace 990]).isMapSwitchInCooldown
      = true ∧
    (AuxManager.new.Initialize.run
      [restTick STATUS_OK pinsRace 10, restTick STATUS_OK pinsRace 990,
        oilDangerTick pinsRace 10]).currentECUMap = ECU_MAP_NORMAL ∧
    (AuxManager.new.Initialize.run
      [restTick STATUS_OK pinsRace 10, restTick STATUS_OK pinsRace 990,
        oilDangerTick pinsRace 10]).mapSwitchCooldownTimer = 1000 ∧
    (AuxManager.new.Initialize.run
      [restTick STATUS_OK pinsRace 10, restTick STATUS_OK pinsRace 990,
        oilDangerTick pinsRace 10, restTick STATUS_OK pinsRace 10]).currentECUMap
      = ECU_MAP_NORMAL ∧
    (AuxManager.new.Initialize.run
      [restTick STATUS_OK pinsRace 10, restTick STATUS_OK pinsRace 990,
        oilDangerTick pinsRace 10, restTick STATUS_OK pinsRace 10,
        restTick STATUS_OK pinsRace 10]).currentECUMap = ECU_MAP_RACE ∧
    AuxTick.total [restTick STATUS_OK pinsRace 10, restTick STATUS_OK pinsRace 10] = 20 := by
  decide

/-- C30, amended. In a run from the initial state in which the limiter flag is
never set, let two consecutive changes of the stored map be made by the `Update`
calls `a` and `b`, with the calls `mid` between them changing no map. If `a`
found no map-switch cooldown running, whatever made its change, and `b` saw no
safety override (RPM status neither `STATUS_DANGER` nor `STATUS_ERROR`, no
oil-temperature status at `STATUS_DANGER`), then the diffs of `mid` and `b` sum to
1000 or more, and so do those of `mid` alone. -/
theorem C30_changes_one_cooldown_apart (pre mid : List AuxTick) (a b : AuxTick)
    (hlim : AuxManager.new.Initialize.limiterNeverSet (pre ++ [a] ++ mid ++ [b]) = true)
    (ha : (AuxManager.new.Initialize.run pre).isMapSwitchInCooldown = false) (hb : b.calm)
    (hca : (AuxManager.new.Initialize.run (pre ++ [a])).currentECUMap
      ≠ (AuxManager.new.Initialize.run pre).currentECUMap)
    (hmid : (AuxManager.new.Initialize.run (pre ++ [a])).mapSteady mid = true)
    (hcb : (AuxManager.new.Initialize.run (pre ++ [a] ++ mid ++ [b])).currentECUMap
      ≠ (AuxManager.new.Initialize.run (pre ++ [a] ++ mid)).currentECUMap) :
    1000 ≤ AuxTick.total (mid ++ [b]) ∧ 1000 ≤ AuxTick.total mid := by
  obtain ⟨hm0, hd0, h0⟩ := timerIdle_run pre
  rw [run_append_one] at hca
  obtain ⟨hcda, hta⟩ := change_outside_cooldown _ a hm0 hd0 ha hca
  obtain ⟨hma, hda⟩ := aux_Update_pointers _ a.mon a.r a.io a.diff hm0 hd0
  have hcool : (AuxManager.new.Initialize.run (pre ++ [a])).cooling 0 := by
    rw [run_append_one]
    exact ⟨hma, hda, Or.inl ⟨hcda, by rw [hta, h0 ha]⟩⟩
  have hl1 := (limiterNeverSet_append _ _ _ hlim).1
  have hl2 := (limiterNeverSet_append _ _ _ hl1).2
  obtain ⟨hmm, hdm, hQ⟩ := cooling_run mid _ 0 hcool hl2 hmid
  rw [run_append_one, run_append _ (pre ++ [a]) mid] at hcb
  obtain ⟨hcdm, -, -⟩ := calm_change _ b hmm hdm hb hcb
  have hmid1000 : 1000 ≤ AuxTick.total mid := by
    rcases hQ with ⟨hc, -⟩ | ⟨-, hle⟩
    · exact absurd (hc.symm.trans hcdm) (by decide)
    · simpa [MAP_SWITCH_COOLDOWN] using hle
  refine ⟨?_, hmid1000⟩
  rw [total_append]
  omega

set_option maxRecDepth 100000 in
/-- A run in which the first change is made by an override. The switch is set high
(`ECU_MAP_RACE`) and the cooldown runs out; then an `Update` that finds no
cooldown running and the gearbox-oil temperature status at `STATUS_DANGER` stores
`ECU_MAP_NORMAL`; three calls of 600, 600 and 10 ms follow with the status back at
`STATUS_OK`, and the next call stores `ECU_MAP_RACE` from the switch: the two
changes are 1220 ms apart. -/
theorem C30_witness :
    (AuxManager.new.Initialize.run
      [restTick STATUS_OK pinsRace 10, restTick STATUS_OK pinsRace 1000,
        restTick STATUS_OK pinsRace 10]).currentECUMap = ECU_MAP_RACE ∧
    (AuxManager.new.Initialize.run
      ([restTick STATUS_OK pinsRace 10, restTick STATUS_OK pinsRace 1000,
        restTick STATUS_OK pinsRace 10] ++ [oilDangerTick pinsRace 10])).currentECUMap
      = ECU_MAP_NORMAL ∧
    (AuxManager.new.Initialize.run
      ([restTick STATUS_OK pinsRace 10, restTick STATUS_OK pinsRace 1000,
        restTick STATUS_OK pinsRace 10] ++ [oilDangerTick pinsRace 10] ++
        [restTick STATUS_OK pinsLow 600, restTick STATUS_OK pinsLow 600,
          restTick STATUS_OK pinsLow 10] ++ [restTick STATUS_OK pinsRace 10])).currentECUMap
      = ECU_MAP_RACE ∧
    1000 ≤ AuxTick.total ([restTick STATUS_OK pinsLow 600, restTick STATUS_OK pinsLow 600,
      restTick STATUS_OK pinsLow 10] ++ [restTick STATUS_OK pinsRace 10]) :=
  ⟨by decide, by decide, by decide,
    (C30_changes_one_cooldown_apart
      [restTick STATUS_OK pinsRace 10, restTick STATUS_OK pinsRace 1000,
        restTick STATUS_OK pinsRace 10]
      [restTick STATUS_OK pinsLow 600, restTick STATUS_OK pinsLow 600,
        restTick STATUS_OK pinsLow 10]
      (oilDangerTick pinsRace 10) (restTick STATUS_OK pinsRace 10)
      (by decide) (by decide) (by unfold AuxTick.calm; decide)
      (by decide) (by decide) (by decide)).1⟩

/-! ### NeoVVLManager: time between two switches of a solenoid (C31) -/

set_option maxRecDepth 100000 in
/-- C31, evaluated on the code. From construction, once the start-up cooldown has
run out: an `Update` of 500 ms at 6000 RPM enables the intake cam, and its own
cooldown section, which runs after the switch, adds these 500 ms to the cooldown
timer; the next `Update`, of 1 ms, finds the timer at 500 and ends the cooldown;
the one after it, of 1 ms at 3000 RPM, disables the intake cam again. The two
switches of the intake solenoid are 2 ms apart. -/
theorem C31_switches_two_ms_apart :
    (camRun []).isIntakeEnabled = false ∧
    (camRun []).pinIntakeSolenoid = Level.LOW ∧
    (camRun [normalUpdate 6000 500]).isIntakeEnabled = true ∧
    (camRun [normalUpdate 6000 500]).pinIntakeSolenoid = Level.HIGH ∧
    (camRun [normalUpdate 6000 500]).intakeCamCooldownTimer = 500 ∧
    (camRun [normalUpdate 6000 500, normalUpdate 6000 1]).isIntakeEnabled = true ∧
    (camRun [normalUpdate 6000 500, normalUpdate 6000 1]).isIntakeInCooldown = false ∧
    (camRun [normalUpdate 6000 500, normalUpdate 6000 1,
      normalUpdate 3000 1]).isIntakeEnabled = false ∧
    (camRun [normalUpdate 6000 500, normalUpdate 6000 1,
      normalUpdate 3000 1]).pinIntakeSolenoid = Level.LOW := by
  decide

/-! ### DataMonitor: oil pressure and the RPM latch (C32, C33, C37) -/

set_option maxRecDepth 100000 in
/-- C32, evaluated on the code. From construction, with the oil at 80 degrees and no
oil pressure: an `Update` at 600 RPM (engine on) reports `STATUS_DANGER` and arms
the dwell latch; an `Update` at 400 RPM (engine off) reports `STATUS_OK` and
leaves the latch armed; the next `Update` at 600 RPM, engine on with the pressure
below the minimum of 0.6 bar, takes the latch branch and leaves the oil-pressure
status at `STATUS_OK`. Also, with the latch inactive, an `Update` at 40000 RPM and
2 bar, below the minimum of 3 bar from 4000 RPM up, reports `STATUS_OK`: the RPM
is compared after its narrowing to `int16_t`. -/
theorem C32_violation_reads_ok :
    (oilReadings 600 80 0).IsEngineOn = true ∧
    (oilReadings 400 80 0).IsEngineOn = false ∧
    (DataMonitor.new.Initialize.run
      [monTick (oilReadings 600 80 0) 10]).GetEngineOilPressureStatus = STATUS_DANGER ∧
    (DataMonitor.new.Initialize.run
      [monTick (oilReadings 600 80 0) 10,
        monTick (oilReadings 400 80 0) 10]).GetEngineOilPressureStatus = STATUS_OK ∧
    (DataMonitor.new.Initialize.run
      [monTick (oilReadings 600 80 0) 10,
        monTick (oilReadings 400 80 0) 10]).engineOilPressStatusCooldown = true ∧
    (DataMonitor.new.Initialize.run
      [monTick (oilReadings 600 80 0) 10, monTick (oilReadings 400 80 0) 10,
        monTick (oilReadings 600 80 0) 10]).GetEngineOilPressureStatus = STATUS_OK ∧
    (oilReadings 40000 80 2).IsEngineOn = true ∧
    DataMonitor.new.Initialize.engineOilPressStatusCooldown = false ∧
    (DataMonitor.new.Initialize.run
      [monTick (oilReadings 40000 80 2) 10]).GetEngineOilPressureStatus = STATUS_OK := by
  decide

/-- The RPM members after `Update` on a latched `STATUS_ERROR`. -/
theorem updateRPM_of_error (s : DataMonitor) (r : Readings) (diff : Nat)
    (he : s.rpmStatus = STATUS_ERROR) :
    s.updateRPM r diff =
      if s.rpmFailureResetTimer ≥ RPM_FAILURES_RESET_TIMER then
        { s with rpmErrorsCount := 0, rpmFailureResetTimer := 0, rpmStatus := STATUS_DANGER }
      else
        { s with rpmFailureResetTimer := add32 s.rpmFailureResetTimer diff } := by
  simp only [DataMonitor.updateRPM, he, ne_eq, not_true_eq_false, if_false]

/-- The latch step sets `STATUS_ERROR` and zeroes the reset timer exactly when it
finds the counter at `MAX_RPM_SIGNAL_ERRORS` or more. -/
theorem rpmLatch_of_ge (s : DataMonitor) (h : MAX_RPM_SIGNAL_ERRORS ≤ s.rpmLatch.rpmErrorsCount) :
    s.rpmLatch.rpmStatus = STATUS_ERROR ∧ s.rpmLatch.rpmFailureResetTimer = 0 := by
  have hc := (rpmLatch_spec s).1
  rw [hc] at h
  simp only [DataMonitor.rpmLatch, ge_iff_le, h, if_true, and_self]

/-- C33. For an initialised monitor. If the RPM status is not `STATUS_ERROR` and
the error counter is 10 or more after the `Update`, the `Update` sets the RPM
status to `STATUS_ERROR` and the reset timer to 0. If the RPM status is
`STATUS_ERROR` and the reset timer is below 5000, the `Update` keeps
`STATUS_ERROR`, adds `diff` to the reset timer and leaves the error counter, the
last RPM value and the check timer as they were. If the RPM status is
`STATUS_ERROR` and the reset timer is 5000 or more, the `Update` sets the status to
`STATUS_DANGER` and zeroes the error counter and the reset timer. -/
theorem C33_error_latch_window (s : DataMonitor) (r : Readings) (diff : Nat)
    (hm : s.dataManager = true) :
    (s.rpmStatus ≠ STATUS_ERROR → 10 ≤ (s.Update r diff).rpmErrorsCount →
      (s.Update r diff).GetRPMStatus = STATUS_ERROR ∧
      (s.Update r diff).rpmFailureResetTimer = 0) ∧
    (s.rpmStatus = STATUS_ERROR → s.rpmFailureResetTimer < 5000 →
      (s.Update r diff).GetRPMStatus = STATUS_ERROR ∧
      (s.Update r diff).rpmFailureResetTimer = add32 s.rpmFailureResetTimer diff ∧
      (s.Update r diff).rpmErrorsCount = s.rpmErrorsCount ∧
      (s.Update r diff).lastRPMValue = s.lastRPMValue ∧
      (s.Update r diff).rpmInputCheckTimer = s.rpmInputCheckTimer) ∧
    (s.rpmStatus = STATUS_ERROR → 5000 ≤ s.rpmFailureResetTimer →
      (s.Update r diff).GetRPMStatus = STATUS_DANGER ∧
      (s.Update r diff).rpmErrorsCount = 0 ∧
      (s.Update r diff).rpmFailureResetTimer = 0) := by
  obtain ⟨-, f2, f3, f4, f5, f6⟩ :=
    (rpmFields_eq_iff _ _).mp (monitor_Update_rpmFields s r diff hm)
  simp only [DataMonitor.GetRPMStatus]
  rw [f2, f3, f4, f5, f6]
  refine ⟨?_, ?_, ?_⟩
  · intro hs hc
    rw [updateRPM_of_not_error s r diff hs] at hc ⊢
    exact rpmLatch_of_ge _ hc
  · intro he ht
    rw [updateRPM_of_error s r diff he]
    simp only [RPM_FAILURES_RESET_TIMER, ge_iff_le, Nat.not_le.mpr ht, if_false]
    refine ⟨he, ?_, ?_, ?_, ?_⟩ <;> trivial
  · intro he ht
    rw [updateRPM_of_error s r diff he]
    simp only [RPM_FAILURES_RESET_TIMER, ge_iff_le, ht, if_true]
    refine ⟨?_, ?_, ?_⟩ <;> trivial

/-- A monitor whose RPM status is latched: an `Update` of 5000 ms keeps
`STATUS_ERROR` and brings the reset timer to 5000; the next one gives
`STATUS_DANGER`. -/
theorem C33_witness :
    ((monitorWithRPMStatus STATUS_ERROR).Update restReadings 5000).GetRPMStatus = STATUS_ERROR ∧
    ((monitorWithRPMStatus STATUS_ERROR).Update restReadings 5000).rpmFailureResetTimer = 5000 ∧
    (((monitorWithRPMStatus STATUS_ERROR).Update restReadings 5000).Update
      restReadings 10).GetRPMStatus = STATUS_DANGER :=
  have h1 := (C33_error_latch_window (monitorWithRPMStatus STATUS_ERROR) restReadings 5000
    (by decide)).2.1 (by decide) (by decide)
  have h2 := (C33_error_latch_window
    ((monitorWithRPMStatus STATUS_ERROR).Update restReadings 5000) restReadings 10
    (by decide)).2.2 (by decide) (by decide)
  ⟨h1.1, h1.2.1.trans (by decide), h2.1⟩

/-- The fluctuation check adds at most 2 to a counter of at most 9 and leaves the
RPM status alone. -/
theorem rpmInputCheck_le (s : DataMonitor) (r : Readings) (diff : Nat)
    (hc : s.rpmErrorsCount ≤ 9) :
    (s.rpmInputCheck r diff).rpmStatus = s.rpmStatus ∧
    (s.rpmInputCheck r diff).rpmErrorsCount ≤ 11 := by
  simp only [DataMonitor.rpmInputCheck]
  split_ifs <;> simp_all <;> omega

/-- The reset step leaves the RPM status alone and does not raise the counter. -/
theorem rpmFailureReset_le (s : DataMonitor) (diff : Nat) :
    (s.rpmFailureReset diff).rpmStatus = s.rpmStatus ∧
    (s.rpmFailureReset diff).rpmErrorsCount ≤ s.rpmErrorsCount := by
  simp only [DataMonitor.rpmFailureReset]
  split_ifs <;> simp

/-- The RPM-signal section keeps the counter invariant. -/
theorem updateRPM_counterOk (s : DataMonitor) (r : Readings) (diff : Nat)
    (h : s.counterOk) : (s.updateRPM r diff).counterOk := by
  obtain ⟨h11, h9⟩ := h
  by_cases he : s.rpmStatus = STATUS_ERROR
  · rw [updateRPM_of_error s r diff he]
    split_ifs
    · exact ⟨Nat.zero_le _, fun _ => Nat.zero_le _⟩
    · exact ⟨h11, fun hne => absurd he hne⟩
  · rw [updateRPM_of_not_error s r diff he]
    have h1 : (if DataMonitor.rpms r ≥ EMERGENCY_REV_LIMITER then
          ({ s with rpmStatus := STATUS_DANGER } : DataMonitor)
        else { s with rpmStatus := STATUS_OK }).rpmErrorsCount ≤ 9 := by
      split_ifs <;> exact h9 he
    obtain ⟨-, c1⟩ := rpmInputCheck_le _ r diff h1
    obtain ⟨-, c2⟩ := rpmFailureReset_le
      (DataMonitor.rpmInputCheck (if DataMonitor.rpms r ≥ EMERGENCY_REV_LIMITER then
          ({ s with rpmStatus := STATUS_DANGER } : DataMonitor)
        else { s with rpmStatus := STATUS_OK }) r diff) diff
    obtain ⟨l1, l2⟩ := rpmLatch_spec
      (DataMonitor.rpmFailureReset (DataMonitor.rpmInputCheck
        (if DataMonitor.rpms r ≥ EMERGENCY_REV_LIMITER then
          ({ s with rpmStatus := STATUS_DANGER } : DataMonitor)
        else { s with rpmStatus := STATUS_OK }) r diff) diff)
    refine ⟨by rw [l1]; omega, fun hne => ?_⟩
    rcases l2 with l2 | ⟨l2, -⟩
    · exact absurd l2 hne
    · rw [l1]; exact l2

/-- An `Update` keeps the counter invariant. -/
theorem monitor_Update_counterOk (s : DataMonitor) (r : Readings) (diff : Nat)
    (h : s.counterOk) : (s.Update r diff).counterOk := by
  cases hm : s.dataManager with
  | false =>
    have hU : s.Update r diff = s := by simp [DataMonitor.Update, hm]
    rw [hU]; exact h
  | true =>
    obtain ⟨-, f2, -, -, -, f6⟩ :=
      (rpmFields_eq_iff _ _).mp (monitor_Update_rpmFields s r diff hm)
    have hu := updateRPM_counterOk s r diff h
    unfold DataMonitor.counterOk at hu ⊢
    rw [f2, f6]
    exact hu

theorem monitor_run_append_one (s : DataMonitor) (ts : List MonTick) (t : MonTick) :
    s.run (ts ++ [t]) = (s.run ts).Update t.r t.diff := by
  simp [DataMonitor.run, List.foldl_append]

/-- C37. In every monitor state reached from construction, with or without
`Initialize`, by any sequence of `Update` calls with any readings and any diffs:
the RPM error counter is at most 9 unless the RPM status is `STATUS_ERROR`, and it
is at most 11, below the 256 at which the `uint8_t` would wrap. -/
theorem C37_error_counter_bounded (ts : List MonTick) :
    ((DataMonitor.new.Initialize.run ts).GetRPMStatus ≠ STATUS_ERROR →
      (DataMonitor.new.Initialize.run ts).GetTotalRPMInputErrors ≤ 9) ∧
    (DataMonitor.new.Initialize.run ts).GetTotalRPMInputErrors ≤ 11 ∧
    (DataMonitor.new.Initialize.run ts).GetTotalRPMInputErrors < 256 ∧
    ((DataMonitor.new.run ts).GetRPMStatus ≠ STATUS_ERROR →
      (DataMonitor.new.run ts).GetTotalRPMInputErrors ≤ 9) ∧
    (DataMonitor.new.run ts).GetTotalRPMInputErrors ≤ 11 := by
  have key : ∀ s : DataMonitor, s.counterOk → (s.run ts).counterOk := by
    intro s hs
    induction ts using List.reverseRecOn with
    | nil => exact hs
    | append_singleton ts t ih =>
      rw [monitor_run_append_one]
      exact monitor_Update_counterOk _ _ _ ih
  have h1 := key DataMonitor.new.Initialize ⟨by decide, fun _ => by decide⟩
  have h2 := key DataMonitor.new ⟨by decide, fun _ => by decide⟩
  simp only [DataMonitor.GetRPMStatus, DataMonitor.GetTotalRPMInputErrors]
  exact ⟨h1.2, h1.1, by have := h1.1; omega, h2.2, h2.1⟩

/-! ### AuxManager: narrowband lambda emulation (C35) -/

theorem selectMap_pinLambda (s : AuxManager) (io : AuxInputs) (diff : Nat) :
    (s.selectMap io diff).1.pinLambda = s.pinLambda := by
  simp only [AuxManager.selectMap]
  split_ifs <;> rfl

theorem overrideMap_pinLambda (s : AuxManager) (newMap : ECUMaps) (mon : DataMonitor) :
    (s.overrideMap newMap mon).pinLambda = s.pinLambda := by
  simp only [AuxManager.overrideMap, AuxManager.SwitchMaps]
  split_ifs <;> rfl

theorem updateAfrGauge_pinLambda (s : AuxManager) (r : Readings) :
    (s.updateAfrGauge r).pinLambda = s.pinLambda := by
  simp only [AuxManager.updateAfrGauge, AuxManager.SwitchAFRGaugePower]
  split_ifs <;> rfl

theorem updateControlButton_pinLambda (s : AuxManager) (io : AuxInputs) (diff : Nat) :
    (s.updateControlButton io diff).pinLambda = s.pinLambda := by
  simp only [AuxManager.updateControlButton]
  split_ifs <;> rfl

/-- The lambda output written by its section. -/
theorem updateLambda_pinLambda (s : AuxManager) (mon : DataMonitor) (r : Readings) :
    (s.updateLambda mon r).pinLambda =
      if mon.GetAFRStatus = STATUS_COLD then s.pinLambda
      else if r.afr > mkRat 147 10 then Level.HIGH
      else if r.afr < mkRat 147 10 then Level.LOW
      else s.pinLambda := by
  simp only [AuxManager.updateLambda, AuxManager.SetLambdaEmulation]
  split_ifs <;> first | rfl | contradiction

/-- The lambda output after `Update`. -/
theorem aux_Update_pinLambda (s : AuxManager) (mon : DataMonitor) (r : Readings)
    (io : AuxInputs) (diff : Nat) (hm : s.dataManager = true) (hd : s.dataMonitor = true) :
    (s.Update mon r io diff).pinLambda =
      if mon.GetAFRStatus = STATUS_COLD then s.pinLambda
      else if r.afr > mkRat 147 10 then Level.HIGH
      else if r.afr < mkRat 147 10 then Level.LOW
      else s.pinLambda := by
  simp only [AuxManager.Update, hm, hd, Bool.not_true, Bool.or_self, Bool.false_eq_true, if_false]
  rw [updateControlButton_pinLambda, updateLambda_pinLambda, updateAfrGauge_pinLambda,
    overrideMap_pinLambda, selectMap_pinLambda]

/-- C35. For an initialised arbiter and every tick: if the AFR status is
`STATUS_COLD`, `Update` leaves the lambda output as it was; otherwise the output
after `Update` is `HIGH` (lean) when the AFR reading is above 14.7, `LOW` (rich)
when it is below 14.7, and as it was when the reading is 14.7. -/
theorem C35_lambda_emulation (s : AuxManager) (mon : DataMonitor) (r : Readings)
    (io : AuxInputs) (diff : Nat) (hm : s.dataManager = true) (hd : s.dataMonitor = true) :
    (mon.GetAFRStatus = STATUS_COLD → (s.Update mon r io diff).pinLambda = s.pinLambda) ∧
    (mon.GetAFRStatus ≠ STATUS_COLD → r.afr > 147 / 10 →
      (s.Update mon r io diff).pinLambda = Level.HIGH) ∧
    (mon.GetAFRStatus ≠ STATUS_COLD → r.afr < 147 / 10 →
      (s.Update mon r io diff).pinLambda = Level.LOW) ∧
    (mon.GetAFRStatus ≠ STATUS_COLD → r.afr = 147 / 10 →
      (s.Update mon r io diff).pinLambda = s.pinLambda) := by
  have e : mkRat 147 10 = (147 / 10 : ℚ) := by
    rw [Rat.mkRat_eq_div]; norm_num
  rw [aux_Update_pinLambda s mon r io diff hm hd, e]
  refine ⟨fun h => by rw [if_pos h], fun h h1 => ?_, fun h h1 => ?_, fun h h1 => ?_⟩
  · rw [if_neg h, if_pos h1]
  · rw [if_neg h, if_neg (not_lt.mpr h1.le), if_pos h1]
  · rw [if_neg h, if_neg (by rw [h1]; exact lt_irrefl _), if_neg (by rw [h1]; exact lt_irrefl _)]

/-- From construction, with every status at `STATUS_OK`: a reading of 16 drives the
lambda output `HIGH`, and a following reading of 12 drives it `LOW`. -/
theorem C35_witness :
    (AuxManager.new.Initialize.Update DataMonitor.new.Initialize
      { restReadings with afr := 16 } pinsLow 10).pinLambda = Level.HIGH ∧
    ((AuxManager.new.Initialize.Update DataMonitor.new.Initialize
      { restReadings with afr := 16 } pinsLow 10).Update DataMonitor.new.Initialize
      { restReadings with afr := 12 } pinsLow 10).pinLambda = Level.LOW :=
  ⟨(C35_lambda_emulation AuxManager.new.Initialize DataMonitor.new.Initialize
      { restReadings with afr := 16 } pinsLow 10 (by decide) (by decide)).2.1
      (by decide) (by norm_num),
   (C35_lambda_emulation (AuxManager.new.Initialize.Update DataMonitor.new.Initialize
      { restReadings with afr := 16 } pinsLow 10) DataMonitor.new.Initialize
      { restReadings with afr := 12 } pinsLow 10 (by decide) (by decide)).2.2.1
      (by decide) (by norm_num)⟩

/-! ### DataManager: a disconnected temperature probe (C36) -/

theorem DALLAS_RAW_TO_CELSIUS_eq : DALLAS_RAW_TO_CELSIUS = 1 / 128 := by
  rw [DALLAS_RAW_TO_CELSIUS, Rat.mkRat_eq_div]; norm_num

/-- C36. When `Dallas_isConnected` fails, `Dallas_getTemp` returns -7040; stored by
`RetrieveEngineOilTemp(true)` or `RetrieveGearboxOilTemp(true)`, it is returned
by `GetEngineOilTemp()` or `GetGearboxOilTemp()` as exactly -55; and an `Update` of
an initialised monitor that reads this value sets the engine-oil or gearbox-oil
temperature status to `STATUS_ERROR`. -/
theorem C36_disconnected_probe_is_error (d : DataManager) (readOk : Bool)
    (scratchPad : List Nat) (crc : Nat) (s : DataMonitor) (r : Readings) (diff : Nat)
    (hfail : DataManager.Dallas_isConnected readOk scratchPad crc = false)
    (hm : s.dataManager = true) :
    DataManager.Dallas_getTemp readOk scratchPad crc = -7040 ∧
    (d.RetrieveEngineOilTemp true readOk scratchPad crc).GetEngineOilTemp false = -55 ∧
    (d.RetrieveGearboxOilTemp true readOk scratchPad crc).GetGearboxOilTemp false = -55 ∧
    (r.engineOilTemp = (d.RetrieveEngineOilTemp true readOk scratchPad crc).GetEngineOilTemp false →
      (s.Update r diff).GetEngineOilTempStatus = STATUS_ERROR) ∧
    (r.gearboxOilTemp
        = (d.RetrieveGearboxOilTemp true readOk scratchPad crc).GetGearboxOilTemp false →
      (s.Update r diff).GetGearboxOilTempStatus = STATUS_ERROR) := by
  have hg : DataManager.Dallas_getTemp readOk scratchPad crc = -7040 := by
    simp [DataManager.Dallas_getTemp, hfail, DEVICE_DISCONNECTED_RAW]
  have he : (d.RetrieveEngineOilTemp true readOk scratchPad crc).GetEngineOilTemp false = -55 := by
    simp only [DataManager.RetrieveEngineOilTemp, DataManager.GetEngineOilTemp, hg,
      DALLAS_RAW_TO_CELSIUS_eq, Bool.not_true, Bool.false_eq_true, if_false]
    norm_num
  have hb : (d.RetrieveGearboxOilTemp true readOk scratchPad crc).GetGearboxOilTemp false
      = -55 := by
    simp only [DataManager.RetrieveGearboxOilTemp, DataManager.GetGearboxOilTemp, hg,
      DALLAS_RAW_TO_CELSIUS_eq, Bool.not_true, Bool.false_eq_true, if_false]
    norm_num
  obtain ⟨c1, c2, -⟩ := monitor_Update_classes s r diff hm
  refine ⟨hg, he, hb, fun h => ?_, fun h => ?_⟩
  · rw [he] at h
    simp only [DataMonitor.GetEngineOilTempStatus]
    rw [c1, classify_engOilTempStatus, updateEngOilTemp_status, if_pos h]
  · rw [hb] at h
    simp only [DataMonitor.GetGearboxOilTempStatus]
    rw [c2, classify_gbOilTempStatus, updateGbOilTemp_status, if_pos h]

/-- A probe whose scratchpad read fails, with the monitor at rest: the reading is
-55 and the status `STATUS_ERROR`. -/
theorem C36_witness :
    (DataMonitor.new.Initialize.Update
      { restReadings with engineOilTemp := -55 } 10).GetEngineOilTempStatus = STATUS_ERROR :=
  (C36_disconnected_probe_is_error DataManager.new false [] 0 DataMonitor.new.Initialize
    { restReadings with engineOilTemp := -55 } 10 (by decide) (by decide)).2.2.2.1
    (by
      have h := (C36_disconnected_probe_is_error DataManager.new false [] 0
        DataMonitor.new.Initialize restReadings 10 (by decide) (by decide)).2.1
      exact h.symm)

/-! ### DataManager: the RPM helper and the averaged getters (C34, C38, C39) -/

theorem sub32_self (t : Nat) : sub32 t t = 0 := by
  unfold sub32
  omega

theorem add32_add32_zero (a b : Nat) : add32 (add32 a b) 0 = add32 a b := by
  unfold add32
  omega

/-- With the auxiliary RPM input not selected `RetrieveRPM` only stores the
timestamp. -/
theorem RetrieveRPM_of_not_aux (s : DataManager) (t pin : Nat)
    (ha : s.selectAuxRPMInput = false) :
    s.RetrieveRPM t pin = { s with micros := t } := by
  simp [DataManager.RetrieveRPM, ha]

/-- With the auxiliary RPM input selected and the pin read high. -/
theorem RetrieveRPM_of_high (s : DataManager) (t pin : Nat)
    (ha : s.selectAuxRPMInput = true) (hp : RPM_INPUT_HIGH_VALUE ≤ pin) :
    s.RetrieveRPM t pin =
      if s.rpmTriggerCooldown = true then { s with micros := t }
      else DataManager.advanceRpmIndex
        { s with micros := t, rpm := setSlot s.rpm s.rpmIndex s.rpmInterval,
                 rpmTriggerCooldown := true, rpmInterval := 0 } := by
  cases hc : s.rpmTriggerCooldown <;>
    simp [DataManager.RetrieveRPM, ha, hp, hc, Nat.not_lt.mpr hp]

/-- With the auxiliary RPM input selected and the pin read low. -/
theorem RetrieveRPM_of_low (s : DataManager) (t pin : Nat)
    (ha : s.selectAuxRPMInput = true) (hp : pin < RPM_INPUT_HIGH_VALUE) :
    s.RetrieveRPM t pin =
      if s.rpmInterval ≤ RPM_INPUT_INTERVAL_MAX then
        { s with micros := t, rpmInterval := add32 s.rpmInterval (sub32 t s.micros),
                 rpmTriggerCooldown := false }
      else
        { DataManager.advanceRpmIndex
            { s with micros := t, rpm := setSlot s.rpm s.rpmIndex 0 } with
          rpmTriggerCooldown := false } := by
  simp only [DataManager.RetrieveRPM, ha, lt_irrefl, if_false, Bool.not_true, Bool.false_eq_true,
    ge_iff_le, Nat.not_le.mpr hp, decide_False, Bool.and_false, hp, if_true]
  split_ifs <;> rfl

set_option maxRecDepth 100000 in
/-- C34 as stated fails on the code. With the auxiliary RPM input selected, the
RPM pin read low and the interval accumulator at 600000 µs, past
`RPM_INPUT_INTERVAL_MAX`, every call of `RetrieveRPM` zeroes the current slot of
the ring and advances the index: after one call with timestamp 1000 the index is
1, one slot is 0 and `GetRPM()` is 12500; after a second call with the same
timestamp and pin reading the index is 2, two slots are 0 and `GetRPM()` is
16666. -/
theorem C34_counterexample :
    (stalledAux.RetrieveRPM 1000 0).rpmIndex = 1 ∧
    (stalledAux.RetrieveRPM 1000 0).rpm 1 = 3000 ∧
    (stalledAux.RetrieveRPM 1000 0).GetRPM false false = some 12500 ∧
    ((stalledAux.RetrieveRPM 1000 0).RetrieveRPM 1000 0).rpmIndex = 2 ∧
    ((stalledAux.RetrieveRPM 1000 0).RetrieveRPM 1000 0).rpm 1 = 0 ∧
    ((stalledAux.RetrieveRPM 1000 0).RetrieveRPM 1000 0).GetRPM false false = some 16666 := by
  decide

/-- C34, amended. For every state of the adapter, every timestamp `t` and every
reading of the RPM pin: unless the auxiliary RPM input is selected, the pin reads
below 200 and the interval accumulator is above 500000 after the first call,
calling `RetrieveRPM(t)` twice in a row with the same pin reading leaves the
same state as calling it once, and so the same `GetRPM()`. -/
theorem C34_RetrieveRPM_idempotent (s : DataManager) (t pin : Nat)
    (h : ¬ (s.selectAuxRPMInput = true ∧ pin < 200 ∧
      500000 < (s.RetrieveRPM t pin).rpmInterval)) :
    (s.RetrieveRPM t pin).RetrieveRPM t pin = s.RetrieveRPM t pin ∧
    ((s.RetrieveRPM t pin).RetrieveRPM t pin).GetRPM false false
      = (s.RetrieveRPM t pin).GetRPM false false := by
  have key : (s.RetrieveRPM t pin).RetrieveRPM t pin = s.RetrieveRPM t pin := by
    cases ha : s.selectAuxRPMInput with
    | false =>
      rw [RetrieveRPM_of_not_aux s t pin ha]
      exact RetrieveRPM_of_not_aux { s with micros := t } t pin ha
    | true =>
      by_cases hp : pin < RPM_INPUT_HIGH_VALUE
      · have e1 := RetrieveRPM_of_low s t pin ha hp
        by_cases hi : s.rpmInterval ≤ RPM_INPUT_INTERVAL_MAX
        · rw [if_pos hi] at e1
          rw [e1] at h ⊢
          have hle : add32 s.rpmInterval (sub32 t s.micros) ≤ RPM_INPUT_INTERVAL_MAX := by
            by_contra hc
            exact h ⟨ha, hp, Nat.not_le.mp hc⟩
          have e2 := RetrieveRPM_of_low
            { s with micros := t, rpmInterval := add32 s.rpmInterval (sub32 t s.micros),
                     rpmTriggerCooldown := false } t pin ha hp
          rw [e2]
          simp only [hle, if_true, sub32_self, add32_add32_zero]
        · rw [if_neg hi] at e1
          rw [e1] at h
          exact absurd ⟨ha, hp, Nat.not_le.mp hi⟩ h
      · have hp1 : RPM_INPUT_HIGH_VALUE ≤ pin := Nat.not_lt.mp hp
        have e1 := RetrieveRPM_of_high s t pin ha hp1
        by_cases hc : s.rpmTriggerCooldown = true
        · rw [if_pos hc] at e1
          rw [e1]
          exact (RetrieveRPM_of_high { s with micros := t } t pin ha hp1).trans (if_pos hc)
        · rw [if_neg hc] at e1
          rw [e1]
          exact (RetrieveRPM_of_high
            (DataManager.advanceRpmIndex
              { s with micros := t, rpm := setSlot s.rpm s.rpmIndex s.rpmInterval,
                       rpmTriggerCooldown := true, rpmInterval := 0 }) t pin ha hp1).trans
            (if_pos rfl)
  exact ⟨key, by rw [key]⟩

set_option maxRecDepth 100000 in
/-- With the auxiliary RPM input selected, the ring holding 3000 µs in every slot
and the interval accumulator at 2000 µs. A call with the pin read high stores the
2000 µs in slot 0, advances the index to 1, zeroes the accumulator and sets the
trigger flag, and a second call leaves all of it as it is; a call with the pin
read low, 1000 µs after the last one, brings the accumulator to 3000 µs, and a
second call leaves it there. -/
theorem C34_witness :
    ((auxPolling.RetrieveRPM 1000 300).rpm 0 = 2000 ∧
      (auxPolling.RetrieveRPM 1000 300).rpmIndex = 1 ∧
      (auxPolling.RetrieveRPM 1000 300).rpmInterval = 0 ∧
      (auxPolling.RetrieveRPM 1000 300).rpmTriggerCooldown = true ∧
      (auxPolling.RetrieveRPM 1000 300).RetrieveRPM 1000 300
        = auxPolling.RetrieveRPM 1000 300) ∧
    ((auxPolling.RetrieveRPM 1000 0).rpmInterval = 3000 ∧
      (auxPolling.RetrieveRPM 1000 0).RetrieveRPM 1000 0 = auxPolling.RetrieveRPM 1000 0 ∧
      ((auxPolling.RetrieveRPM 1000 0).RetrieveRPM 1000 0).GetRPM false false
        = (auxPolling.RetrieveRPM 1000 0).GetRPM false false) :=
  ⟨⟨by decide, by decide, by decide, by decide,
      (C34_RetrieveRPM_idempotent auxPolling 1000 300 (by decide)).1⟩,
    by decide, (C34_RetrieveRPM_idempotent auxPolling 1000 0 (by decide)).1,
    (C34_RetrieveRPM_idempotent auxPolling 1000 0 (by decide)).2⟩

/-- The five slots added up in a `uint32_t` are their sum modulo 2^32. -/
theorem averageRpm_eq (s : DataManager) :
    s.averageRpm = ((s.rpm 0 + s.rpm 1 + s.rpm 2 + s.rpm 3 + s.rpm 4) % 2 ^ 32) / 5 := by
  have hr : List.range AVERAGE_RPM_COUNT_LIMIT = [0, 1, 2, 3, 4] := by decide
  simp only [DataManager.averageRpm, hr, List.foldl, add32, AVERAGE_RPM_COUNT_LIMIT]
  omega

/-- C38. For every content of the five interval slots: the average computed by
`GetRPM()` in its default mode is the sum of the slots modulo 2^32 divided by 5,
so twice the average is below 2^32 and the divisor does not overflow; the call
returns a value, 0 when the average is 0 and 60000000 / (2 * average) otherwise,
never dividing by zero; and the value is at most 30000000. -/
theorem C38_GetRPM_total (s : DataManager) :
    s.averageRpm = ((s.rpm 0 + s.rpm 1 + s.rpm 2 + s.rpm 3 + s.rpm 4) % 2 ^ 32) / 5 ∧
    s.averageRpm * 2 < 2 ^ 32 ∧
    s.GetRPM false false
      = some (if s.averageRpm = 0 then 0 else 60000000 / (2 * s.averageRpm)) ∧
    (if s.averageRpm = 0 then 0 else 60000000 / (2 * s.averageRpm)) ≤ 30000000 := by
  have ha := averageRpm_eq s
  have hlt : s.averageRpm * 2 < 2 ^ 32 := by rw [ha]; omega
  refine ⟨ha, hlt, ?_, ?_⟩
  · by_cases h0 : s.averageRpm = 0
    · simp [DataManager.GetRPM, h0]
    · have hmod : (s.averageRpm * 2) % 4294967296 = 2 * s.averageRpm := by omega
      have hne : ¬ 2 * s.averageRpm = 0 := by omega
      simp [DataManager.GetRPM, h0, hmod]
  · split_ifs with h0
    · omega
    · have h2 : 2 ≤ 2 * s.averageRpm := by omega
      calc 60000000 / (2 * s.averageRpm) ≤ 60000000 / 2 := Nat.div_le_div_left h2 (by omega)
        _ = 30000000 := by norm_num

theorem ANALOG_TO_VOLTS_eq : ANALOG_TO_VOLTS = 5 / 1024 := by
  rw [ANALOG_TO_VOLTS, Rat.mkRat_eq_div]; norm_num

/-- The AFR computed from an ADC value `n`: -1 up to 0.5 V, 18.1 from 4.5 V, and
between them a value above 9 and below 18.5. -/
theorem afrOfAverage_range (n : Nat) :
    DataManager.afrOfAverage n = -1 ∨ DataManager.afrOfAverage n = 181 / 10 ∨
      (9 < DataManager.afrOfAverage n ∧ DataManager.afrOfAverage n < 185 / 10) := by
  have e5 : mkRat 5 10 = (1 / 2 : ℚ) := by rw [Rat.mkRat_eq_div]; norm_num
  have e45 : mkRat 45 10 = (9 / 2 : ℚ) := by rw [Rat.mkRat_eq_div]; norm_num
  have e181 : mkRat 181 10 = (181 / 10 : ℚ) := by rw [Rat.mkRat_eq_div]; norm_num
  have e95 : mkRat 95 10 = (19 / 2 : ℚ) := by rw [Rat.mkRat_eq_div]; norm_num
  have e85 : mkRat 85 10 = (17 / 2 : ℚ) := by rw [Rat.mkRat_eq_div]; norm_num
  simp only [DataManager.afrOfAverage, e5, e45, e181, e95, e85, ANALOG_TO_VOLTS_eq]
  split_ifs with h1 h2
  · exact Or.inl rfl
  · exact Or.inr (Or.inl rfl)
  · right; right
    have hw : 0 < (n : ℚ) * (5 / 1024) - 1 / 2 := by linarith [not_le.mp h1]
    have hw4 : (n : ℚ) * (5 / 1024) - 1 / 2 < 4 := by linarith [not_le.mp h2]
    have hd : (19 / 2 : ℚ) / (4 / ((n : ℚ) * (5 / 1024) - 1 / 2))
        = 19 / 8 * ((n : ℚ) * (5 / 1024) - 1 / 2) := by
      rw [div_div_eq_mul_div]
      ring
    rw [hd]
    constructor <;> linarith

/-- The AFR status after `Update`: the AFR section with the engine on, `STATUS_COLD`
with the engine off. -/
theorem monitor_Update_afrStatus (s : DataMonitor) (r : Readings) (diff : Nat)
    (hm : s.dataManager = true) :
    (s.Update r diff).afrStatus =
      if r.IsEngineOn = true then
        (DataMonitor.updateAFR
          (DataMonitor.updateOilPressure ((s.classify r).updateRPM r diff) r diff) r).afrStatus
      else STATUS_COLD := by
  rw [monitor_Update_eq s r diff hm]
  split_ifs <;> rfl

/-- C39. For every ADC value `n` averaged by `GetAFR()` (0..65535 and beyond), the
AFR returned is -1, or 18.1, or a value above 9 and below 18.5; `GetAFR()` in
its default mode returns this value for the average of the five slots. So a
reading delivered by the adapter other than -1 is above the rich-danger
threshold of 9, and when an initialised monitor that reads it reports the AFR
status `STATUS_DANGER`, the reading is at the lean-danger threshold of 16 or
above. -/
theorem C39_afr_range (n : Nat) (d : DataManager) (s : DataMonitor) (r : Readings)
    (diff : Nat) (hm : s.dataManager = true) (hr : r.afr = DataManager.afrOfAverage n) :
    (DataManager.afrOfAverage n = -1 ∨ DataManager.afrOfAverage n = 181 / 10 ∨
      (9 < DataManager.afrOfAverage n ∧ DataManager.afrOfAverage n < 185 / 10)) ∧
    d.GetAFR false false = some (DataManager.afrOfAverage d.averageAfr) ∧
    ¬ (r.afr ≠ -1 ∧ r.afr ≤ AFR_RICH_DANGER) ∧
    ((s.Update r diff).GetAFRStatus = STATUS_DANGER → AFR_LEAN_DANGER ≤ r.afr) := by
  have hrange := afrOfAverage_range n
  have hrich : ¬ (r.afr ≠ -1 ∧ r.afr ≤ AFR_RICH_DANGER) := by
    rw [hr, AFR_RICH_DANGER]
    rintro ⟨h1, h2⟩
    rcases hrange with h | h | ⟨h, -⟩
    · exact h1 h
    · rw [h] at h2; norm_num at h2
    · linarith
  refine ⟨hrange, rfl, hrich, ?_⟩
  simp only [DataMonitor.GetAFRStatus]
  rw [monitor_Update_afrStatus s r diff hm, updateAFR_status, AFR_LEAN_DANGER]
  intro hst
  rw [AFR_RICH_DANGER] at hrich
  split_ifs at hst <;>
    first
    | exact absurd hst (by decide)
    | exact absurd ⟨by assumption, by assumption⟩ hrich
    | exact not_lt.mp (by assumption)

/-- An ADC average of 512 (2.5 V) read by an initialised monitor with the engine
running: the reading is not at or below the rich-danger threshold. -/
theorem C39_witness :
    ¬ (({ runningReadings 3000 with afr := DataManager.afrOfAverage 512 } : Readings).afr ≠ -1 ∧
      ({ runningReadings 3000 with afr := DataManager.afrOfAverage 512 } : Readings).afr
        ≤ AFR_RICH_DANGER) :=
  (C39_afr_range 512 DataManager.new DataMonitor.new.Initialize
    { runningReadings 3000 with afr := DataManager.afrOfAverage 512 } 10 (by decide) rfl).2.2.1

/-! ### CommsManager: accepted cam switch points (C40) -/

/-- C40, evaluated on the code. The command `set INTAKE_RPM_SWITCHOVER_NORMAL` with
the value 7500 is accepted: the value is stored at its address, where the two
bytes written decode to 7500, and a reload is triggered. With 7500 returned by the
settings store, `LoadCamsSwitchPointsFromEEPROM` sets the intake-normal switch
point to the compiled default 5600: the command accepts values up to 8000, the
reload only values up to 7000. -/
theorem C40_accepted_value_replaced_on_reload :
    (CommsManager.setCamSwitchover EEPROM.erased ADDR_INTAKE_RPM_SWITCHOVER_NORMAL 7500).1
      = true ∧
    int16OfBytes
      ((CommsManager.setCamSwitchover EEPROM.erased ADDR_INTAKE_RPM_SWITCHOVER_NORMAL 7500).2.read
        ADDR_INTAKE_RPM_SWITCHOVER_NORMAL)
      ((CommsManager.setCamSwitchover EEPROM.erased ADDR_INTAKE_RPM_SWITCHOVER_NORMAL 7500).2.read
        (ADDR_INTAKE_RPM_SWITCHOVER_NORMAL + 1)) = 7500 ∧
    (idleCams.LoadCamsSwitchPointsFromEEPROM
      { blankEEPROM with intakeNormal := 7500 }).intakeSwitchNormal = 5600 ∧
    (CommsManager.setCamSwitchover EEPROM.erased ADDR_INTAKE_RPM_SWITCHOVER_NORMAL 8001).1
      = false := by
  decide

end ECU
